import Mathlib

/-!
# SNHU CS-330 scene and view managers

A shallow embedding of `Source/SceneManager.cpp`, `Source/SceneManager.h` and
`Source/ViewManager.cpp`.

Conventions of the embedding

* A finite C++ `float` or `double` value is the rational it denotes (`ℚ`); a literal
  such as `0.5f` is the rational `1/2`. The `float` arithmetic on `cameraSpeed` and the
  conversions of the `double` cursor position to `float` are rounded as IEEE 754
  prescribes (`binary32`, `binary64`, `narrowToFloat`); the frame-time difference and
  the velocity handed to the camera are kept exact.
* `glm::mat4` values are an abstract type `M`; the glm functions the sources call
  (`glm::scale`, `glm::rotate`, `glm::translate`, `glm::radians`, `operator*`) are the
  fields of a `GLM M` record, with no law assumed about them.
* An operation whose C++ execution is undefined (an index outside `m_textureIDs[16]`,
  a call through a null `m_pShaderManager`) returns `none`.
* The OpenGL context is a record: the texture bound on every texture unit and the
  stream of uniform uploads and draw calls, oldest first.
* The body of `RenderScene` is the list of its statements in source order, one list per
  object of the scene; each statement runs through the embedded method it calls.
* The camera class is not among the sources: its methods are the fields of a
  `CameraOps M` record, with no law assumed about them.
* Console output (`std::cout`) is not modelled.
-/

namespace CS330

/-! ## Vectors, uniforms and the OpenGL context -/

/-- The type `glm::vec2`. -/
structure vec2 where
  x : ℚ
  y : ℚ
deriving DecidableEq

/-- The type `glm::vec3`. -/
structure vec3 where
  x : ℚ
  y : ℚ
  z : ℚ
deriving DecidableEq

/-- The type `glm::vec4`, with the colour accessors `r g b a` the sources use. -/
structure vec4 where
  r : ℚ
  g : ℚ
  b : ℚ
  a : ℚ
deriving DecidableEq

/-- The glm functions called by the sources, over an abstract matrix type `M`. -/
structure GLM (M : Type) where
  /-- The function `glm::radians(float)`. -/
  radians : ℚ → ℚ
  /-- The function `glm::scale(vec3)`. -/
  scale : vec3 → M
  /-- The function `glm::rotate(angle, axis)`. -/
  rotate : ℚ → vec3 → M
  /-- The function `glm::translate(vec3)`. -/
  translate : vec3 → M
  /-- The product `operator*(mat4, mat4)`. -/
  mul : M → M → M
  /-- The function `glm::ortho(left, right, bottom, top, zNear, zFar)`. -/
  ortho : ℚ → ℚ → ℚ → ℚ → ℚ → ℚ → M
  /-- The function `glm::perspective(fovy, aspect, zNear, zFar)`. -/
  perspective : ℚ → ℚ → ℚ → ℚ → M

/-- A value handed to one of the shader manager's `set...Value` methods. -/
inductive UniformValue (M : Type) where
  | mat4 (m : M)
  | vec2 (v : vec2)
  | vec3 (v : vec3)
  | vec4 (v : vec4)
  | float (x : ℚ)
  | int (i : Int)
  | bool (b : Bool)
  | sampler2D (i : Int)
deriving DecidableEq

/-- The primitive meshes of `ShapeMeshes`. -/
inductive Mesh where
  | plane
  | box
  | cylinder
  | sphere
  | cone
  | taperedCylinder
deriving DecidableEq, Repr

/-- One entry of the OpenGL command stream that the claims observe. -/
inductive GLCommand (M : Type) where
  | uniform (name : String) (value : UniformValue M)
  | draw (mesh : Mesh)
deriving DecidableEq

/-- The part of the OpenGL context the sources act on. -/
structure GLContext (M : Type) where
  /-- The texture name returned by the `k`-th call of `glGenTextures(1, _)` -/
  genTextures : Nat → Nat
  /-- The number of texture names; how many were generated so far -/
  generated : Nat
  /-- The selected texture unit: `GL_TEXTURE0 + i` is `i` -/
  activeTexture : Nat
  /-- The texture bound to `GL_TEXTURE_2D` on each texture unit -/
  boundTexture2D : Nat → Nat
  /-- The uniform uploads and draw calls, oldest first. -/
  commands : List (GLCommand M)

namespace GLContext

variable {M : Type}

/-- The call `glGenTextures(1, &id)`: the next fresh name. -/
def glGenTextures (gl : GLContext M) : Nat × GLContext M :=
  (gl.genTextures gl.generated, { gl with generated := gl.generated + 1 })

/-- The call `glActiveTexture(GL_TEXTURE0 + unit)`. -/
def glActiveTexture (gl : GLContext M) (unit : Nat) : GLContext M :=
  { gl with activeTexture := unit }

/-- The call `glBindTexture(GL_TEXTURE_2D, id)`: binds on the selected unit. -/
def glBindTexture (gl : GLContext M) (id : Nat) : GLContext M :=
  { gl with boundTexture2D := fun u => if u = gl.activeTexture then id else gl.boundTexture2D u }

/-- Appends one command to the stream. -/
def push (gl : GLContext M) (c : GLCommand M) : GLContext M :=
  { gl with commands := gl.commands ++ [c] }

/-- The value a uniform holds after a command stream: its latest upload. -/
def uniformIn (name : String) : List (GLCommand M) → Option (UniformValue M)
  | [] => none
  | c :: rest =>
    match uniformIn name rest with
    | some v => some v
    | none =>
      match c with
      | GLCommand.uniform n v => if n = name then some v else none
      | GLCommand.draw _ => none

/-- The value the shader holds for a uniform, if it was ever uploaded. -/
def uniformValue (gl : GLContext M) (name : String) : Option (UniformValue M) :=
  uniformIn name gl.commands

end GLContext

/-- Modelled from the spec: the shader-program abstraction (`ShaderManager`, whose
source is not among the files), "consumed via name-keyed uniform setters". Each
setter uploads one named uniform value to the OpenGL context. -/
structure ShaderManager where
  m_programID : Nat
deriving DecidableEq

namespace ShaderManager

variable {M : Type}

/-- Modelled from the spec: `setMat4Value(name, mat4)` uploads a mat4 uniform. -/
def setMat4Value (_sh : ShaderManager) (gl : GLContext M) (name : String) (m : M) :
    GLContext M :=
  gl.push (GLCommand.uniform name (UniformValue.mat4 m))

/-- Modelled from the spec: `setIntValue(name, int)` uploads an int uniform. -/
def setIntValue (_sh : ShaderManager) (gl : GLContext M) (name : String) (i : Int) :
    GLContext M :=
  gl.push (GLCommand.uniform name (UniformValue.int i))

/-- Modelled from the spec: `setBoolValue(name, bool)` uploads a bool uniform. -/
def setBoolValue (_sh : ShaderManager) (gl : GLContext M) (name : String) (b : Bool) :
    GLContext M :=
  gl.push (GLCommand.uniform name (UniformValue.bool b))

/-- Modelled from the spec: `setFloatValue(name, float)` uploads a float uniform. -/
def setFloatValue (_sh : ShaderManager) (gl : GLContext M) (name : String) (x : ℚ) :
    GLContext M :=
  gl.push (GLCommand.uniform name (UniformValue.float x))

/-- Modelled from the spec: `setVec2Value(name, vec2)` uploads a vec2 uniform. -/
def setVec2Value (_sh : ShaderManager) (gl : GLContext M) (name : String) (v : vec2) :
    GLContext M :=
  gl.push (GLCommand.uniform name (UniformValue.vec2 v))

/-- Modelled from the spec: `setVec3Value(name, vec3)` uploads a vec3 uniform. -/
def setVec3Value (_sh : ShaderManager) (gl : GLContext M) (name : String) (v : vec3) :
    GLContext M :=
  gl.push (GLCommand.uniform name (UniformValue.vec3 v))

/-- Modelled from the spec: `setVec4Value(name, vec4)` uploads a vec4 uniform. -/
def setVec4Value (_sh : ShaderManager) (gl : GLContext M) (name : String) (v : vec4) :
    GLContext M :=
  gl.push (GLCommand.uniform name (UniformValue.vec4 v))

/-- Modelled from the spec: `setSampler2DValue(name, slot)` uploads the sampler index
("uploads the resolved slot index as the active sampler uniform"). -/
def setSampler2DValue (_sh : ShaderManager) (gl : GLContext M) (name : String) (slot : Int) :
    GLContext M :=
  gl.push (GLCommand.uniform name (UniformValue.sampler2D slot))

end ShaderManager

/-! ## `SceneManager.h`: the data model -/

/-- The struct `SceneManager::TEXTURE_INFO`. -/
structure TEXTURE_INFO where
  tag : String
  ID : Nat
deriving DecidableEq

/-- The struct `SceneManager::OBJECT_MATERIAL`. -/
structure OBJECT_MATERIAL where
  diffuseColor : vec3
  specularColor : vec3
  shininess : ℚ
  tag : String
deriving DecidableEq

/-- The struct `SceneManager::Material`. -/
structure Material where
  diffuseColor : vec3
  specularColor : vec3
  shininess : ℚ
deriving DecidableEq

/-- The struct `SceneManager::DirectionalLight`. -/
structure DirectionalLight where
  direction : vec3
  ambient : vec3
  diffuse : vec3
  specular : vec3
  bActive : Bool
deriving DecidableEq

/-- The struct `SceneManager::PointLight`. -/
structure PointLight where
  position : vec3
  ambient : vec3
  diffuse : vec3
  specular : vec3
  bActive : Bool
deriving DecidableEq

/-- The struct `SceneManager::SpotLight`. -/
structure SpotLight where
  position : vec3
  direction : vec3
  cutOff : ℚ
  outerCutOff : ℚ
  constant : ℚ
  linear : ℚ
  quadratic : ℚ
  ambient : vec3
  diffuse : vec3
  specular : vec3
  bActive : Bool
deriving DecidableEq

/-- The object behind `m_basicMeshes`: the meshes loaded so far. -/
structure ShapeMeshes where
  loaded : List Mesh
deriving DecidableEq

/-- The private members of `class SceneManager`. A null `m_pShaderManager` is `none`;
`m_textureIDs` is the array `TEXTURE_INFO m_textureIDs[16]`. -/
structure SceneManager where
  m_pShaderManager : Option ShaderManager
  m_basicMeshes : ShapeMeshes
  m_loadedTextures : Int
  m_textureIDs : Fin 16 → TEXTURE_INFO
  m_objectMaterials : List OBJECT_MATERIAL
  m_directionalLight1 : DirectionalLight
  m_directionalLight2 : DirectionalLight
  m_pointLight1 : PointLight
  m_pointLight2 : PointLight
  m_spotLight : SpotLight

/-- A scene manager together with the OpenGL context its methods act on. -/
structure World (M : Type) where
  scene : SceneManager
  gl : GLContext M

/-- The result of `stbi_load`: the decoded image's dimensions and channel count. -/
structure Image where
  width : Int
  height : Int
  colorChannels : Int
deriving DecidableEq

namespace SceneManager

variable {M : Type}

/-- The read `m_textureIDs[index]`; `none` outside the 16 slots. -/
def textureAt? (self : SceneManager) (index : Int) : Option TEXTURE_INFO :=
  if h : 0 ≤ index ∧ index < 16 then
    some (self.m_textureIDs ⟨index.toNat, by omega⟩)
  else none

/-- The write `m_textureIDs[index] = entry`; `none` outside the 16 slots. -/
def setTextureAt? (self : SceneManager) (index : Int) (entry : TEXTURE_INFO) :
    Option SceneManager :=
  if 0 ≤ index ∧ index < 16 then
    some { self with
      m_textureIDs := fun i => if (i.val : Int) = index then entry else self.m_textureIDs i }
  else none

/-- The constructor `SceneManager::SceneManager(ShaderManager*)`. `uninit` is the content
of the object's storage before construction: the constructor assigns
`m_pShaderManager`, `m_basicMeshes` and the two directional lights, the `std::string`
and `std::vector` members are default-constructed, and every other member
(`m_loadedTextures`, the texture IDs, the point lights and the spot light) keeps the
indeterminate value it had. -/
def new (pShaderManager : Option ShaderManager) (uninit : SceneManager) : SceneManager :=
  { uninit with
    m_pShaderManager := pShaderManager
    m_basicMeshes := { loaded := [] }
    m_textureIDs := fun i => { tag := "", ID := (uninit.m_textureIDs i).ID }
    m_objectMaterials := []
    m_directionalLight1 :=
      { direction := ⟨-2.4, -1.0, -0.3⟩
        ambient := ⟨0.8, 0.4, 0.2⟩
        diffuse := ⟨1.0, 0.5, 0.3⟩
        specular := ⟨1.0, 0.6, 0.4⟩
        bActive := true }
    m_directionalLight2 :=
      { direction := ⟨2.2, -0.5, -0.4⟩
        ambient := ⟨0.2, 0.3, 0.7⟩
        diffuse := ⟨0.3, 0.4, 0.8⟩
        specular := ⟨0.5, 0.6, 1.0⟩
        bActive := true } }

/-- The `while` loop of `FindTextureSlot`, one test of its condition per unit of fuel;
the arguments are the locals `textureSlot`, `index` and `bFound`. -/
def FindTextureSlot.loop (self : SceneManager) (tag : String) :
    Nat → Int → Int → Bool → Option Int
  | 0, _, _, _ => none
  | fuel + 1, textureSlot, index, bFound =>
    if index < self.m_loadedTextures ∧ bFound = false then
      match self.textureAt? index with
      | none => none
      | some entry =>
        if entry.tag = tag then
          FindTextureSlot.loop self tag fuel index index true
        else
          FindTextureSlot.loop self tag fuel textureSlot (index + 1) bFound
    else some textureSlot

/-- The method `int SceneManager::FindTextureSlot(std::string tag)`. The loop tests its
condition at most `m_loadedTextures + 1` times. -/
def FindTextureSlot (self : SceneManager) (tag : String) : Option Int :=
  FindTextureSlot.loop self tag (self.m_loadedTextures.toNat + 1) (-1) 0 false

/-- The method `bool SceneManager::CreateGLTexture(const char* filename, std::string tag)`.
`stbi_load` is the image decoder together with the files it reads: `none` is the null
pointer it returns for an image it cannot decode. The calls `glTexParameteri`,
`glTexImage2D`, `glGenerateMipmap` and `stbi_image_free` change the contents of the
texture object and of local memory only, which the context record does not hold. -/
def CreateGLTexture (stbi_load : String → Option Image) (w : World M)
    (filename : String) (tag : String) : Option (Bool × World M) :=
  match stbi_load filename with
  | some image =>
    let generated := w.gl.glGenTextures
    let textureID := generated.1
    let gl := generated.2.glBindTexture textureID
    if image.colorChannels = 3 then
      let gl := gl.glBindTexture 0
      match w.scene.setTextureAt? w.scene.m_loadedTextures { tag := tag, ID := textureID } with
      | none => none
      | some scene =>
        some (true, { scene := { scene with m_loadedTextures := scene.m_loadedTextures + 1 },
                      gl := gl })
    else if image.colorChannels = 4 then
      let gl := gl.glBindTexture 0
      match w.scene.setTextureAt? w.scene.m_loadedTextures { tag := tag, ID := textureID } with
      | none => none
      | some scene =>
        some (true, { scene := { scene with m_loadedTextures := scene.m_loadedTextures + 1 },
                      gl := gl })
    else
      some (false, { w with gl := gl })
  | none => some (false, w)

/-- The `for` loop of `BindGLTextures`, one test of its condition per unit of fuel. -/
def BindGLTextures.loop (self : SceneManager) :
    Nat → Int → GLContext M → Option (GLContext M)
  | 0, _, _ => none
  | fuel + 1, i, gl =>
    if i < self.m_loadedTextures then
      match self.textureAt? i with
      | none => none
      | some entry =>
        BindGLTextures.loop self fuel (i + 1) ((gl.glActiveTexture i.toNat).glBindTexture entry.ID)
    else some gl

/-- The method `void SceneManager::BindGLTextures()`. -/
def BindGLTextures (w : World M) : Option (World M) :=
  match BindGLTextures.loop w.scene (w.scene.m_loadedTextures.toNat + 1) 0 w.gl with
  | none => none
  | some gl => some { w with gl := gl }

/-- The `while` loop of `FindMaterial`, one test of its condition per unit of fuel; the
arguments are the locals `index` and `bFound` and the output parameter `material`. The
loop copies the three shading members and leaves `material.tag` alone. -/
def FindMaterial.loop (self : SceneManager) (tag : String) :
    Nat → Nat → Bool → OBJECT_MATERIAL → Option OBJECT_MATERIAL
  | 0, _, _, _ => none
  | fuel + 1, index, bFound, material =>
    if index < self.m_objectMaterials.length ∧ bFound = false then
      match self.m_objectMaterials[index]? with
      | none => none
      | some preset =>
        if preset.tag = tag then
          FindMaterial.loop self tag fuel index true
            { material with
              diffuseColor := preset.diffuseColor
              specularColor := preset.specularColor
              shininess := preset.shininess }
        else
          FindMaterial.loop self tag fuel (index + 1) bFound material
    else some material

/-- The method `bool SceneManager::FindMaterial(std::string tag, OBJECT_MATERIAL& material)`:
the returned pair is the `bool` result and the output parameter after the call. -/
def FindMaterial (self : SceneManager) (tag : String) (material : OBJECT_MATERIAL) :
    Option (Bool × OBJECT_MATERIAL) :=
  if self.m_objectMaterials.length = 0 then
    some (false, material)
  else
    match FindMaterial.loop self tag (self.m_objectMaterials.length + 1) 0 false material with
    | none => none
    | some material => some (true, material)

/-- The method `void SceneManager::SetTransformations(...)`. -/
def SetTransformations (glm : GLM M) (w : World M) (scaleXYZ : vec3)
    (XrotationDegrees YrotationDegrees ZrotationDegrees : ℚ) (positionXYZ : vec3) : World M :=
  let scale := glm.scale scaleXYZ
  let rotationX := glm.rotate (glm.radians XrotationDegrees) ⟨1, 0, 0⟩
  let rotationY := glm.rotate (glm.radians YrotationDegrees) ⟨0, 1, 0⟩
  let rotationZ := glm.rotate (glm.radians ZrotationDegrees) ⟨0, 0, 1⟩
  let translation := glm.translate positionXYZ
  let modelView :=
    glm.mul (glm.mul (glm.mul (glm.mul translation rotationZ) rotationY) rotationX) scale
  match w.scene.m_pShaderManager with
  | some sh => { w with gl := sh.setMat4Value w.gl "model" modelView }
  | none => w

/-- The method `void SceneManager::SetShaderColor(r, g, b, a)`. -/
def SetShaderColor (w : World M) (redColorValue greenColorValue blueColorValue alphaValue : ℚ) :
    World M :=
  let currentColor : vec4 :=
    { r := redColorValue, g := greenColorValue, b := blueColorValue, a := alphaValue }
  match w.scene.m_pShaderManager with
  | some sh =>
    let gl := sh.setIntValue w.gl "bUseTexture" 0
    { w with gl := sh.setVec4Value gl "objectColor" currentColor }
  | none => w

/-- The method `void SceneManager::SetShaderTexture(std::string textureTag)`. The
argument `true` of `setIntValue` is the `int` 1. -/
def SetShaderTexture (w : World M) (textureTag : String) : Option (World M) :=
  match w.scene.m_pShaderManager with
  | some sh =>
    let gl := sh.setIntValue w.gl "bUseTexture" 1
    match w.scene.FindTextureSlot textureTag with
    | none => none
    | some textureID => some { w with gl := sh.setSampler2DValue gl "objectTexture" textureID }
  | none => some w

/-- The method `void SceneManager::SetTextureUVScale(float u, float v)`. -/
def SetTextureUVScale (w : World M) (u v : ℚ) : World M :=
  match w.scene.m_pShaderManager with
  | some sh => { w with gl := sh.setVec2Value w.gl "UVscale" { x := u, y := v } }
  | none => w

/-- The method `void SceneManager::SetShaderMaterial(std::string materialTag)`. `uninit`
is the indeterminate content of the local `OBJECT_MATERIAL material` (its `std::string`
member is default-constructed); the setters are called through `m_pShaderManager`
without a null test. -/
def SetShaderMaterial (w : World M) (materialTag : String) (uninit : OBJECT_MATERIAL) :
    Option (World M) :=
  if w.scene.m_objectMaterials.length > 0 then
    match w.scene.FindMaterial materialTag { uninit with tag := "" } with
    | none => none
    | some (bReturn, material) =>
      if bReturn = true then
        match w.scene.m_pShaderManager with
        | none => none
        | some sh =>
          let gl := sh.setVec3Value w.gl "material.diffuseColor" material.diffuseColor
          let gl := sh.setVec3Value gl "material.specularColor" material.specularColor
          some { w with gl := sh.setFloatValue gl "material.shininess" material.shininess }
      else some w
  else some w

end SceneManager

/-! ## `SceneManager.cpp`: loading the textures and rendering the scene -/

namespace ShapeMeshes

variable {M : Type}

/-- Modelled from the spec: `LoadPlaneMesh()` of the primitive-mesh library
(`ShapeMeshes`, whose source is not among the files) loads the plane geometry. -/
def LoadPlaneMesh (m : ShapeMeshes) : ShapeMeshes := { loaded := m.loaded ++ [Mesh.plane] }

/-- Modelled from the spec: `LoadBoxMesh()` loads the box geometry. -/
def LoadBoxMesh (m : ShapeMeshes) : ShapeMeshes := { loaded := m.loaded ++ [Mesh.box] }

/-- Modelled from the spec: `LoadCylinderMesh()` loads the cylinder geometry. -/
def LoadCylinderMesh (m : ShapeMeshes) : ShapeMeshes :=
  { loaded := m.loaded ++ [Mesh.cylinder] }

/-- Modelled from the spec: `LoadSphereMesh()` loads the sphere geometry. -/
def LoadSphereMesh (m : ShapeMeshes) : ShapeMeshes := { loaded := m.loaded ++ [Mesh.sphere] }

/-- Modelled from the spec: `LoadConeMesh()` loads the cone geometry. -/
def LoadConeMesh (m : ShapeMeshes) : ShapeMeshes := { loaded := m.loaded ++ [Mesh.cone] }

/-- Modelled from the spec: `LoadTaperedCylinderMesh()` loads the tapered cylinder
geometry. -/
def LoadTaperedCylinderMesh (m : ShapeMeshes) : ShapeMeshes :=
  { loaded := m.loaded ++ [Mesh.taperedCylinder] }

/-- Modelled from the spec: `DrawPlaneMesh()` "issues a draw call for one primitive
type", here the plane. -/
def DrawPlaneMesh (_m : ShapeMeshes) (gl : GLContext M) : GLContext M :=
  gl.push (GLCommand.draw Mesh.plane)

/-- Modelled from the spec: `DrawBoxMesh()` issues the draw call of the box. -/
def DrawBoxMesh (_m : ShapeMeshes) (gl : GLContext M) : GLContext M :=
  gl.push (GLCommand.draw Mesh.box)

/-- Modelled from the spec: `DrawCylinderMesh()` issues the draw call of the cylinder. -/
def DrawCylinderMesh (_m : ShapeMeshes) (gl : GLContext M) : GLContext M :=
  gl.push (GLCommand.draw Mesh.cylinder)

/-- Modelled from the spec: `DrawSphereMesh()` issues the draw call of the sphere. -/
def DrawSphereMesh (_m : ShapeMeshes) (gl : GLContext M) : GLContext M :=
  gl.push (GLCommand.draw Mesh.sphere)

/-- Modelled from the spec: `DrawConeMesh()` issues the draw call of the cone. -/
def DrawConeMesh (_m : ShapeMeshes) (gl : GLContext M) : GLContext M :=
  gl.push (GLCommand.draw Mesh.cone)

/-- Modelled from the spec: `DrawTaperedCylinderMesh()` issues the draw call of the
tapered cylinder. -/
def DrawTaperedCylinderMesh (_m : ShapeMeshes) (gl : GLContext M) : GLContext M :=
  gl.push (GLCommand.draw Mesh.taperedCylinder)

end ShapeMeshes

namespace SceneManager

variable {M : Type}

/-- The method `void SceneManager::LoadSceneTextures()`: eight calls of
`CreateGLTexture`, whose `bool` results only select a console message, and then
`BindGLTextures`. -/
def LoadSceneTextures (stbi_load : String → Option Image) (w : World M) : Option (World M) :=
  (CreateGLTexture stbi_load w "textures/deskTop.jpg" "deskTop").bind fun r =>
  (CreateGLTexture stbi_load r.2 "textures/deskRod.jpg" "deskRod").bind fun r =>
  (CreateGLTexture stbi_load r.2 "textures/deskRim.jpg" "deskRim").bind fun r =>
  (CreateGLTexture stbi_load r.2 "textures/granite.jpg" "quartz").bind fun r =>
  (CreateGLTexture stbi_load r.2 "textures/copper.jpg" "copper").bind fun r =>
  (CreateGLTexture stbi_load r.2 "textures/pencil.jpg" "pencil").bind fun r =>
  (CreateGLTexture stbi_load r.2 "textures/erase.jpg" "erase").bind fun r =>
  (CreateGLTexture stbi_load r.2 "textures/grain.jpg" "grain").bind fun r =>
  BindGLTextures r.2

/-- The method `void SceneManager::PrepareScene()`. -/
def PrepareScene (stbi_load : String → Option Image) (w : World M) : Option (World M) :=
  (LoadSceneTextures stbi_load w).bind fun w =>
  let meshes := w.scene.m_basicMeshes.LoadPlaneMesh
  let meshes := meshes.LoadBoxMesh
  let meshes := meshes.LoadCylinderMesh
  let meshes := meshes.LoadSphereMesh
  let meshes := meshes.LoadConeMesh
  let meshes := meshes.LoadTaperedCylinderMesh
  some { w with scene := { w.scene with m_basicMeshes := meshes } }

/-- A call `m_pShaderManager->setBoolValue(name, b)` made without a null test. -/
def m_pShaderManager_setBoolValue (w : World M) (name : String) (b : Bool) :
    Option (World M) :=
  match w.scene.m_pShaderManager with
  | none => none
  | some sh => some { w with gl := sh.setBoolValue w.gl name b }

/-- A call `m_pShaderManager->setVec3Value(name, v)` made without a null test. -/
def m_pShaderManager_setVec3Value (w : World M) (name : String) (v : vec3) :
    Option (World M) :=
  match w.scene.m_pShaderManager with
  | none => none
  | some sh => some { w with gl := sh.setVec3Value w.gl name v }

/-- A call `m_pShaderManager->setFloatValue(name, x)` made without a null test. -/
def m_pShaderManager_setFloatValue (w : World M) (name : String) (x : ℚ) :
    Option (World M) :=
  match w.scene.m_pShaderManager with
  | none => none
  | some sh => some { w with gl := sh.setFloatValue w.gl name x }

/-- The local variables of `RenderScene`. -/
structure RenderScene.Locals where
  scaleXYZ : vec3
  XrotationDegrees : ℚ
  YrotationDegrees : ℚ
  ZrotationDegrees : ℚ
  positionXYZ : vec3
  shinyMaterial : Material
  nonReflectiveMaterial : Material

/-- The locals at the start of `RenderScene`: the three angles are initialised to
`0.0f`; the other locals are declared without a value and are assigned before their
first use, so the zeros given to them here are never read. -/
def RenderScene.entry : RenderScene.Locals :=
  { scaleXYZ := ⟨0, 0, 0⟩
    XrotationDegrees := 0.0
    YrotationDegrees := 0.0
    ZrotationDegrees := 0.0
    positionXYZ := ⟨0, 0, 0⟩
    shinyMaterial := ⟨⟨0, 0, 0⟩, ⟨0, 0, 0⟩, 0⟩
    nonReflectiveMaterial := ⟨⟨0, 0, 0⟩, ⟨0, 0, 0⟩, 0⟩ }

/-- The kinds of statement in the body of `RenderScene`: assignments to the locals
(`Material m; m.diffuseColor = ..; m.specularColor = ..; m.shininess = ..;` is one
assignment of the whole struct), calls of the scene manager's own methods, calls
through `m_pShaderManager` whose argument is read from the members or the locals, and
calls through `m_basicMeshes`. -/
inductive RenderScene.Statement where
  | assignScaleXYZ (v : vec3)
  | assignXrotationDegrees (x : ℚ)
  | assignYrotationDegrees (x : ℚ)
  | assignZrotationDegrees (x : ℚ)
  | assignPositionXYZ (v : vec3)
  | assignShinyMaterial (m : Material)
  | assignNonReflectiveMaterial (m : Material)
  | SetTransformations
  | SetShaderColor (r g b a : ℚ)
  | SetShaderTexture (textureTag : String)
  | SetTextureUVScale (u v : ℚ)
  | setBoolValue (name : String) (value : SceneManager → RenderScene.Locals → Bool)
  | setVec3Value (name : String) (value : SceneManager → RenderScene.Locals → vec3)
  | setFloatValue (name : String) (value : SceneManager → RenderScene.Locals → ℚ)
  | DrawPlaneMesh
  | DrawBoxMesh
  | DrawCylinderMesh
  | DrawSphereMesh
  | DrawConeMesh
  | DrawTaperedCylinderMesh

/-- The execution of one statement of `RenderScene` on the world and the locals. -/
def RenderScene.exec (glm : GLM M) (w : World M) (locals : RenderScene.Locals) :
    RenderScene.Statement → Option (World M × RenderScene.Locals)
  | .assignScaleXYZ v => some (w, { locals with scaleXYZ := v })
  | .assignXrotationDegrees x => some (w, { locals with XrotationDegrees := x })
  | .assignYrotationDegrees x => some (w, { locals with YrotationDegrees := x })
  | .assignZrotationDegrees x => some (w, { locals with ZrotationDegrees := x })
  | .assignPositionXYZ v => some (w, { locals with positionXYZ := v })
  | .assignShinyMaterial m => some (w, { locals with shinyMaterial := m })
  | .assignNonReflectiveMaterial m => some (w, { locals with nonReflectiveMaterial := m })
  | .SetTransformations =>
    some (SetTransformations glm w locals.scaleXYZ locals.XrotationDegrees
      locals.YrotationDegrees locals.ZrotationDegrees locals.positionXYZ, locals)
  | .SetShaderColor r g b a => some (SetShaderColor w r g b a, locals)
  | .SetShaderTexture textureTag => (SetShaderTexture w textureTag).map fun w => (w, locals)
  | .SetTextureUVScale u v => some (SetTextureUVScale w u v, locals)
  | .setBoolValue name value =>
    (m_pShaderManager_setBoolValue w name (value w.scene locals)).map fun w => (w, locals)
  | .setVec3Value name value =>
    (m_pShaderManager_setVec3Value w name (value w.scene locals)).map fun w => (w, locals)
  | .setFloatValue name value =>
    (m_pShaderManager_setFloatValue w name (value w.scene locals)).map fun w => (w, locals)
  | .DrawPlaneMesh => some ({ w with gl := w.scene.m_basicMeshes.DrawPlaneMesh w.gl }, locals)
  | .DrawBoxMesh => some ({ w with gl := w.scene.m_basicMeshes.DrawBoxMesh w.gl }, locals)
  | .DrawCylinderMesh =>
    some ({ w with gl := w.scene.m_basicMeshes.DrawCylinderMesh w.gl }, locals)
  | .DrawSphereMesh => some ({ w with gl := w.scene.m_basicMeshes.DrawSphereMesh w.gl }, locals)
  | .DrawConeMesh => some ({ w with gl := w.scene.m_basicMeshes.DrawConeMesh w.gl }, locals)
  | .DrawTaperedCylinderMesh =>
    some ({ w with gl := w.scene.m_basicMeshes.DrawTaperedCylinderMesh w.gl }, locals)

/-- The execution of a sequence of statements, in order; a statement that fails (a call
through a null pointer, an index outside the texture array) ends the run. -/
def RenderScene.run (glm : GLM M) :
    List RenderScene.Statement → World M → RenderScene.Locals →
      Option (World M × RenderScene.Locals)
  | [], w, locals => some (w, locals)
  | statement :: rest, w, locals =>
    match RenderScene.exec glm w locals statement with
    | none => none
    | some next => RenderScene.run glm rest next.1 next.2

/-- The statements of `RenderScene` for the uploads of the lighting flag and of the five lights. -/
def RenderScene.lights : List RenderScene.Statement :=
  [
    .setBoolValue "bUseLighting" (fun _ _ => true),
    .setVec3Value "directionalLight1.direction" (fun self _ => self.m_directionalLight1.direction),
    .setVec3Value "directionalLight1.ambient" (fun self _ => self.m_directionalLight1.ambient),
    .setVec3Value "directionalLight1.diffuse" (fun self _ => self.m_directionalLight1.diffuse),
    .setVec3Value "directionalLight1.specular" (fun self _ => self.m_directionalLight1.specular),
    .setBoolValue "directionalLight1.bActive" (fun self _ => self.m_directionalLight1.bActive),
    .setVec3Value "directionalLight2.direction" (fun self _ => self.m_directionalLight2.direction),
    .setVec3Value "directionalLight2.ambient" (fun self _ => self.m_directionalLight2.ambient),
    .setVec3Value "directionalLight2.diffuse" (fun self _ => self.m_directionalLight2.diffuse),
    .setVec3Value "directionalLight2.specular" (fun self _ => self.m_directionalLight2.specular),
    .setBoolValue "directionalLight2.bActive" (fun self _ => self.m_directionalLight2.bActive),
    .setVec3Value "pointLights[0].position" (fun self _ => self.m_pointLight1.position),
    .setVec3Value "pointLights[0].ambient" (fun self _ => self.m_pointLight1.ambient),
    .setVec3Value "pointLights[0].diffuse" (fun self _ => self.m_pointLight1.diffuse),
    .setVec3Value "pointLights[0].specular" (fun self _ => self.m_pointLight1.specular),
    .setBoolValue "pointLights[0].bActive" (fun self _ => self.m_pointLight1.bActive),
    .setVec3Value "pointLights[1].position" (fun self _ => self.m_pointLight2.position),
    .setVec3Value "pointLights[1].ambient" (fun self _ => self.m_pointLight2.ambient),
    .setVec3Value "pointLights[1].diffuse" (fun self _ => self.m_pointLight2.diffuse),
    .setVec3Value "pointLights[1].specular" (fun self _ => self.m_pointLight2.specular),
    .setBoolValue "pointLights[1].bActive" (fun self _ => self.m_pointLight2.bActive),
    .setVec3Value "spotLight.position" (fun self _ => self.m_spotLight.position),
    .setVec3Value "spotLight.direction" (fun self _ => self.m_spotLight.direction),
    .setFloatValue "spotLight.cutOff" (fun self _ => self.m_spotLight.cutOff),
    .setFloatValue "spotLight.outerCutOff" (fun self _ => self.m_spotLight.outerCutOff),
    .setFloatValue "spotLight.constant" (fun self _ => self.m_spotLight.constant),
    .setFloatValue "spotLight.linear" (fun self _ => self.m_spotLight.linear),
    .setFloatValue "spotLight.quadratic" (fun self _ => self.m_spotLight.quadratic),
    .setVec3Value "spotLight.ambient" (fun self _ => self.m_spotLight.ambient),
    .setVec3Value "spotLight.diffuse" (fun self _ => self.m_spotLight.diffuse),
    .setVec3Value "spotLight.specular" (fun self _ => self.m_spotLight.specular),
    .setBoolValue "spotLight.bActive" (fun self _ => self.m_spotLight.bActive)
  ]

/-- The statements of `RenderScene` for the floor plane. -/
def RenderScene.floor : List RenderScene.Statement :=
  [
    .assignScaleXYZ ⟨30.0, 1.0, 30.0⟩,
    .assignXrotationDegrees 0.0,
    .assignYrotationDegrees 0.0,
    .assignZrotationDegrees 0.0,
    .assignPositionXYZ ⟨0.0, 0.0, 0.0⟩,
    .SetTransformations,
    .SetShaderColor 1 1 1 1,
    .SetShaderTexture "quartz",
    .assignShinyMaterial ⟨⟨1.0, 1.0, 1.0⟩, ⟨1.0, 1.0, 1.0⟩, 128.0⟩,
    .setVec3Value "material.diffuseColor" (fun _ locals => locals.shinyMaterial.diffuseColor),
    .setVec3Value "material.specularColor" (fun _ locals => locals.shinyMaterial.specularColor),
    .setFloatValue "material.shininess" (fun _ locals => locals.shinyMaterial.shininess),
    .DrawPlaneMesh
  ]

/-- The statements of `RenderScene` for the backdrop plane (commented `Lower box for desk` in the source). -/
def RenderScene.backdrop : List RenderScene.Statement :=
  [
    .assignXrotationDegrees 90.0,
    .assignScaleXYZ ⟨30.0, 1.0, 30.0⟩,
    .assignPositionXYZ ⟨0.0, 30.0, -30.0⟩,
    .SetTransformations,
    .SetShaderColor 1 1 1 1,
    .SetTextureUVScale 1.0 1.0,
    .SetShaderTexture "quartz",
    .DrawPlaneMesh
  ]

/-- The statements of `RenderScene` for the lower box of the desk, after the upload of the non-reflective material. -/
def RenderScene.deskLowerBox : List RenderScene.Statement :=
  [
    .assignNonReflectiveMaterial ⟨⟨0.65, 0.16, 0.16⟩, ⟨0.2, 0.2, 0.2⟩, 16.0⟩,
    .setVec3Value "material.diffuseColor" (fun _ locals => locals.nonReflectiveMaterial.diffuseColor),
    .setVec3Value "material.specularColor" (fun _ locals => locals.nonReflectiveMaterial.specularColor),
    .setFloatValue "material.shininess" (fun _ locals => locals.nonReflectiveMaterial.shininess),
    .assignXrotationDegrees 0.0,
    .assignYrotationDegrees 0.0,
    .assignZrotationDegrees 0.0,
    .assignScaleXYZ ⟨25.0, 2.0, 15.0⟩,
    .assignPositionXYZ ⟨0.0, 10.0, 0.0⟩,
    .SetTransformations,
    .SetShaderColor 0.65 0.16 0.16 1,
    .SetTextureUVScale 1.0 1.0,
    .SetShaderTexture "deskRim",
    .DrawBoxMesh
  ]

/-- The statements of `RenderScene` for the top box of the desk. -/
def RenderScene.deskTopBox : List RenderScene.Statement :=
  [
    .assignScaleXYZ ⟨25.5, 0.5, 15.5⟩,
    .assignPositionXYZ ⟨0.0, 11.0, 0.0⟩,
    .SetTransformations,
    .SetShaderColor 0.65 0.16 0.16 1,
    .SetShaderTexture "deskTop",
    .DrawBoxMesh
  ]

/-- The statements of `RenderScene` for the right backward leg, after the second upload of the shiny material. -/
def RenderScene.legRightBackward : List RenderScene.Statement :=
  [
    .setVec3Value "material.diffuseColor" (fun _ locals => locals.shinyMaterial.diffuseColor),
    .setVec3Value "material.specularColor" (fun _ locals => locals.shinyMaterial.specularColor),
    .setFloatValue "material.shininess" (fun _ locals => locals.shinyMaterial.shininess),
    .assignScaleXYZ ⟨1.0, 10.0, 1.0⟩,
    .assignPositionXYZ ⟨10.0, 0.0, -5.0⟩,
    .SetTransformations,
    .SetShaderColor 0.5 0.5 0.5 1,
    .SetShaderTexture "deskRod",
    .SetTextureUVScale 2.0 2.0,
    .DrawCylinderMesh
  ]

/-- The statements of `RenderScene` for the right forward leg. -/
def RenderScene.legRightForward : List RenderScene.Statement :=
  [
    .assignScaleXYZ ⟨1.0, 10.0, 1.0⟩,
    .assignPositionXYZ ⟨10.0, 0.0, 5.0⟩,
    .SetTransformations,
    .SetShaderColor 0.5 0.5 0.5 1,
    .SetShaderTexture "deskRod",
    .SetTextureUVScale 2.0 2.0,
    .DrawCylinderMesh
  ]

/-- The statements of `RenderScene` for the left backward leg. -/
def RenderScene.legLeftBackward : List RenderScene.Statement :=
  [
    .assignScaleXYZ ⟨1.0, 10.0, 1.0⟩,
    .assignPositionXYZ ⟨-10.0, 0.0, -5.0⟩,
    .SetTransformations,
    .SetShaderColor 0.5 0.5 0.5 1,
    .SetShaderTexture "deskRod",
    .SetTextureUVScale 2.0 2.0,
    .DrawCylinderMesh
  ]

/-- The statements of `RenderScene` for the left forward leg. -/
def RenderScene.legLeftForward : List RenderScene.Statement :=
  [
    .assignScaleXYZ ⟨1.0, 10.0, 1.0⟩,
    .assignPositionXYZ ⟨-10.0, 0.0, 5.0⟩,
    .SetTransformations,
    .SetShaderColor 0.5 0.5 0.5 1,
    .SetShaderTexture "deskRod",
    .SetTextureUVScale 2.0 2.0,
    .DrawCylinderMesh
  ]

/-- The statements of `RenderScene` for the left leg bracer. -/
def RenderScene.leftLegBracer : List RenderScene.Statement :=
  [
    .assignXrotationDegrees 90.0,
    .assignYrotationDegrees 0.0,
    .assignZrotationDegrees 0.0,
    .assignScaleXYZ ⟨1.0, 10.0, 1.0⟩,
    .assignPositionXYZ ⟨-10.0, 5.0, -5.0⟩,
    .SetTransformations,
    .SetShaderColor 0.5 0.5 0.5 1,
    .SetShaderTexture "deskRod",
    .SetTextureUVScale 2.0 2.0,
    .DrawCylinderMesh
  ]

/-- The statements of `RenderScene` for the right leg bracer. -/
def RenderScene.rightLegBracer : List RenderScene.Statement :=
  [
    .assignXrotationDegrees 90.0,
    .assignYrotationDegrees 0.0,
    .assignZrotationDegrees 0.0,
    .assignScaleXYZ ⟨1.0, 10.0, 1.0⟩,
    .assignPositionXYZ ⟨10.0, 5.0, -5.0⟩,
    .SetTransformations,
    .SetShaderColor 0.5 0.5 0.5 1,
    .SetShaderTexture "deskRod",
    .SetTextureUVScale 2.0 2.0,
    .DrawCylinderMesh
  ]

/-- The statements of `RenderScene` for the lamp base. -/
def RenderScene.lampBase : List RenderScene.Statement :=
  [
    .assignXrotationDegrees 0.0,
    .assignYrotationDegrees 0.0,
    .assignZrotationDegrees 0.0,
    .assignScaleXYZ ⟨2.0, 1.0, 2.0⟩,
    .assignPositionXYZ ⟨8.0, 11.0, -5.0⟩,
    .SetTransformations,
    .SetShaderColor 0.5 0.5 0.5 1,
    .SetShaderTexture "copper",
    .SetTextureUVScale 1 1,
    .DrawCylinderMesh
  ]

/-- The statements of `RenderScene` for the lamp base top. -/
def RenderScene.lampBaseTop : List RenderScene.Statement :=
  [
    .assignXrotationDegrees 0.0,
    .assignYrotationDegrees 0.0,
    .assignZrotationDegrees 0.0,
    .assignScaleXYZ ⟨2.0, 1.0, 2.0⟩,
    .assignPositionXYZ ⟨8.0, 12.0, -5.0⟩,
    .SetTransformations,
    .SetShaderColor 0.5 0.5 0.5 1,
    .SetShaderTexture "copper",
    .SetTextureUVScale 1 1,
    .DrawSphereMesh
  ]

/-- The statements of `RenderScene` for the lower connector of the bottom pipe of the lamp. -/
def RenderScene.lampPipeConnectBottom : List RenderScene.Statement :=
  [
    .assignXrotationDegrees 0.0,
    .assignYrotationDegrees 0.0,
    .assignZrotationDegrees 0.0,
    .assignScaleXYZ ⟨0.5, 1.0, 0.5⟩,
    .assignPositionXYZ ⟨8.0, 12.5, -5.0⟩,
    .SetTransformations,
    .SetShaderColor 0.5 0.5 0.5 1,
    .SetShaderTexture "copper",
    .SetTextureUVScale 1 1,
    .DrawCylinderMesh
  ]

/-- The statements of `RenderScene` for the bottom pipe of the lamp. -/
def RenderScene.lampBottomPipe : List RenderScene.Statement :=
  [
    .assignXrotationDegrees 0.0,
    .assignYrotationDegrees 0.0,
    .assignZrotationDegrees (-15.0),
    .assignScaleXYZ ⟨0.25, 7.5, 0.25⟩,
    .assignPositionXYZ ⟨7.75, 12.5, -5.0⟩,
    .SetTransformations,
    .SetShaderColor 0.5 0.5 0.5 1,
    .SetShaderTexture "copper",
    .SetTextureUVScale 1 1,
    .DrawCylinderMesh
  ]

/-- The statements of `RenderScene` for the upper connector of the bottom pipe of the lamp. -/
def RenderScene.lampPipeConnectTop : List RenderScene.Statement :=
  [
    .assignXrotationDegrees 0.0,
    .assignYrotationDegrees 0.0,
    .assignZrotationDegrees (-15.0),
    .assignScaleXYZ ⟨0.5, 0.5, 0.5⟩,
    .assignPositionXYZ ⟨9.65, 19.5, -5.0⟩,
    .SetTransformations,
    .SetShaderColor 0.5 0.5 0.5 1,
    .SetShaderTexture "copper",
    .SetTextureUVScale 1 1,
    .DrawCylinderMesh
  ]

/-- The statements of `RenderScene` for the lamp joint. -/
def RenderScene.lampJoint : List RenderScene.Statement :=
  [
    .assignXrotationDegrees 0.0,
    .assignYrotationDegrees 0.0,
    .assignZrotationDegrees 0.0,
    .assignScaleXYZ ⟨0.65, 0.65, 0.65⟩,
    .assignPositionXYZ ⟨9.80, 20.25, -5.0⟩,
    .SetTransformations,
    .SetShaderColor 0.5 0.5 0.5 1,
    .SetShaderTexture "copper",
    .SetTextureUVScale 1 1,
    .DrawSphereMesh
  ]

/-- The statements of `RenderScene` for the top rod of the lamp. -/
def RenderScene.lampTopRod : List RenderScene.Statement :=
  [
    .assignXrotationDegrees 45.0,
    .assignYrotationDegrees 0.0,
    .assignZrotationDegrees 90.0,
    .assignScaleXYZ ⟨0.25, 7.5, 0.25⟩,
    .assignPositionXYZ ⟨9.80, 20.25, -5.0⟩,
    .SetTransformations,
    .SetShaderColor 0.5 0.5 0.5 1,
    .SetShaderTexture "copper",
    .SetTextureUVScale 1 1,
    .DrawCylinderMesh
  ]

/-- The statements of `RenderScene` for the base shell of the lamp. -/
def RenderScene.lampBaseShell : List RenderScene.Statement :=
  [
    .assignXrotationDegrees 0.0,
    .assignYrotationDegrees 0.0,
    .assignZrotationDegrees 0.0,
    .assignScaleXYZ ⟨1.0, 1.5, 1.0⟩,
    .assignPositionXYZ ⟨4.0, 19.5, 0.5⟩,
    .SetTransformations,
    .SetShaderColor 0.5 0.5 0.5 1,
    .SetShaderTexture "copper",
    .SetTextureUVScale 1 1,
    .DrawCylinderMesh
  ]

/-- The statements of `RenderScene` for the light base shell of the lamp. -/
def RenderScene.lampLightShell : List RenderScene.Statement :=
  [
    .assignXrotationDegrees 0.0,
    .assignYrotationDegrees 0.0,
    .assignZrotationDegrees 0.0,
    .assignScaleXYZ ⟨1.5, 1.0, 1.5⟩,
    .assignPositionXYZ ⟨4.0, 19.0, 0.5⟩,
    .SetTransformations,
    .SetShaderColor 0.5 0.5 0.5 1,
    .SetShaderTexture "copper",
    .SetTextureUVScale 1 1,
    .DrawTaperedCylinderMesh
  ]

/-- The statements of `RenderScene` for the paper, after the second upload of the non-reflective material. -/
def RenderScene.paper : List RenderScene.Statement :=
  [
    .setVec3Value "material.diffuseColor" (fun _ locals => locals.nonReflectiveMaterial.diffuseColor),
    .setVec3Value "material.specularColor" (fun _ locals => locals.nonReflectiveMaterial.specularColor),
    .setFloatValue "material.shininess" (fun _ locals => locals.nonReflectiveMaterial.shininess),
    .assignXrotationDegrees 0.0,
    .assignYrotationDegrees 0.0,
    .assignZrotationDegrees 0.0,
    .assignScaleXYZ ⟨5.0, 0.05, 5.0⟩,
    .assignPositionXYZ ⟨0.0, 11.25, 2.5⟩,
    .SetTransformations,
    .SetShaderColor 1.0 1.0 1.0 1,
    .DrawBoxMesh
  ]

/-- The statements of `RenderScene` for the pencil rod. -/
def RenderScene.pencilRod : List RenderScene.Statement :=
  [
    .assignXrotationDegrees 90.0,
    .assignYrotationDegrees 0.0,
    .assignZrotationDegrees 0.0,
    .assignScaleXYZ ⟨0.10, 2.0, 0.10⟩,
    .assignPositionXYZ ⟨5.0, 11.35, 2.5⟩,
    .SetTransformations,
    .SetShaderColor 1.0 0.6 0.2 1,
    .DrawCylinderMesh
  ]

/-- The statements of `RenderScene` for the pencil wood before the tip. -/
def RenderScene.pencilWood : List RenderScene.Statement :=
  [
    .assignXrotationDegrees 90.0,
    .assignYrotationDegrees 0.0,
    .assignZrotationDegrees 0.0,
    .assignScaleXYZ ⟨0.10, 0.08, 0.10⟩,
    .assignPositionXYZ ⟨5.0, 11.35, 4.5⟩,
    .SetTransformations,
    .SetShaderColor 0.55 0.27 0.07 1,
    .DrawTaperedCylinderMesh
  ]

/-- The statements of `RenderScene` for the pencil tip. -/
def RenderScene.pencilTip : List RenderScene.Statement :=
  [
    .assignXrotationDegrees 90.0,
    .assignYrotationDegrees 0.0,
    .assignZrotationDegrees 0.0,
    .assignScaleXYZ ⟨0.06, 0.2, 0.05⟩,
    .assignPositionXYZ ⟨5.0, 11.35, 4.58⟩,
    .SetTransformations,
    .SetShaderColor 0.0 0.0 0.0 1,
    .DrawConeMesh
  ]

/-- The statements of `RenderScene` for the pencil eraser. -/
def RenderScene.pencilEraser : List RenderScene.Statement :=
  [
    .assignXrotationDegrees 90.0,
    .assignYrotationDegrees 0.0,
    .assignZrotationDegrees 0.0,
    .assignScaleXYZ ⟨0.10, 0.25, 0.10⟩,
    .assignPositionXYZ ⟨5.0, 11.35, 2.25⟩,
    .SetTransformations,
    .SetShaderColor 1.0 1.0 1.0 1,
    .SetShaderTexture "erase",
    .SetTextureUVScale 1 1,
    .DrawCylinderMesh
  ]

/-- The body of `SceneManager::RenderScene()`, statement by statement in source order:
the uploads of the lights, then the 24 objects of the scene. -/
def RenderScene.body : List RenderScene.Statement :=
  RenderScene.lights ++ RenderScene.floor ++ RenderScene.backdrop ++
  RenderScene.deskLowerBox ++ RenderScene.deskTopBox ++
  RenderScene.legRightBackward ++ RenderScene.legRightForward ++
  RenderScene.legLeftBackward ++ RenderScene.legLeftForward ++
  RenderScene.leftLegBracer ++ RenderScene.rightLegBracer ++
  RenderScene.lampBase ++ RenderScene.lampBaseTop ++ RenderScene.lampPipeConnectBottom ++
  RenderScene.lampBottomPipe ++ RenderScene.lampPipeConnectTop ++ RenderScene.lampJoint ++
  RenderScene.lampTopRod ++ RenderScene.lampBaseShell ++ RenderScene.lampLightShell ++
  RenderScene.paper ++ RenderScene.pencilRod ++ RenderScene.pencilWood ++
  RenderScene.pencilTip ++ RenderScene.pencilEraser

/-- The method `void SceneManager::RenderScene()`. -/
def RenderScene (glm : GLM M) (w : World M) : Option (World M) :=
  (SceneManager.RenderScene.run glm SceneManager.RenderScene.body w
    SceneManager.RenderScene.entry).map fun result => result.1

end SceneManager

/-! ## `ViewManager.cpp`: the file-scope state and the scroll callback -/

/-- Modelled from the spec: the camera object (`Camera`, whose source is not among the
files), "Camera State: {position, front vector, up vector, zoom/FOV, movement speed}". -/
structure Camera where
  Position : vec3
  Front : vec3
  Up : vec3
  Zoom : ℚ
  MovementSpeed : ℚ
deriving DecidableEq

/-! ## Floating-point values

A finite `float` or `double` value is the rational it denotes. The arithmetic of the
source on these values is the exact operation followed by the rounding of the format. -/

/-- Rounding of a rational to the nearest integer, a tie going to the even integer. -/
def roundHalfEven (x : ℚ) : ℤ :=
  if x - ⌊x⌋ < 1 / 2 then ⌊x⌋
  else if 1 / 2 < x - ⌊x⌋ then ⌊x⌋ + 1
  else if ⌊x⌋ % 2 = 0 then ⌊x⌋ else ⌊x⌋ + 1

/-- The IEEE 754 rounding to nearest, ties to even, into the binary format with
`precision` significand bits whose least subnormal is `2 ^ emin`: the value is rounded
to a multiple of `2 ^ e`, where `e` is the exponent of the last place of the binade of
`q`, not below `emin`. The exponent range has no upper end here; a result beyond the
largest finite value of the format is what the format rounds to an infinity. -/
def roundBinary (precision : ℕ) (emin : ℤ) (q : ℚ) : ℚ :=
  (roundHalfEven (q / (2 : ℚ) ^ (max (Int.log 2 |q| - ((precision : ℤ) - 1)) emin)) : ℚ) *
    (2 : ℚ) ^ (max (Int.log 2 |q| - ((precision : ℤ) - 1)) emin)

/-- The rounding of the type `float` (IEEE 754 binary32: 24 significand bits, least
subnormal `2 ^ (-149)`). -/
def binary32 (q : ℚ) : ℚ := roundBinary 24 (-149) q

/-- The rounding of the type `double` (IEEE 754 binary64: 53 significand bits, least
subnormal `2 ^ (-1074)`). -/
def binary64 (q : ℚ) : ℚ := roundBinary 53 (-1074) q

/-- The constant `FLT_MAX`, the largest finite `float`. -/
def FLT_MAX : ℚ := (2 ^ 24 - 1) * 2 ^ 104

/-- The conversion of a `double` value to `float`, as in `gLastX = xMousePos;` and
`float xOffset = xMousePos - gLastX;`. A value within the range of `float` becomes one
of the two `float` values next to it, by the choice of the implementation, which is the
IEEE 754 rounding to nearest; for a value outside the range of `float` the behaviour is
undefined, which is `none`. -/
def narrowToFloat (q : ℚ) : Option ℚ :=
  if |q| ≤ FLT_MAX then some (binary32 q) else none

/-- The variables of the unnamed namespace of `ViewManager.cpp`; a null `g_pCamera` is
`none`. The variables of type `float` hold the rational that the `float` denotes. -/
structure ViewGlobals where
  g_pCamera : Option Camera
  gLastX : ℚ
  gLastY : ℚ
  gFirstMouse : Bool
  gDeltaTime : ℚ
  gLastFrame : ℚ
  bOrthographicProjection : Bool
  cameraSpeed : ℚ
deriving DecidableEq

/-- The constant `WINDOW_WIDTH`. -/
def WINDOW_WIDTH : Int := 1000

/-- The constant `WINDOW_HEIGHT`. -/
def WINDOW_HEIGHT : Int := 800

/-- The initial values of the file-scope variables. -/
def ViewGlobals.initial : ViewGlobals :=
  { g_pCamera := none
    gLastX := (WINDOW_WIDTH : ℚ) / 2.0
    gLastY := (WINDOW_HEIGHT : ℚ) / 2.0
    gFirstMouse := true
    gDeltaTime := 0.0
    gLastFrame := 0.0
    bOrthographicProjection := false
    cameraSpeed := 2.5 }

/-- The function `void ScrollCallback(GLFWwindow* window, double xOffset, double yOffset)`.
The sum `cameraSpeed + 0.5f` and the difference `cameraSpeed - 0.5f` are `float`
operations, rounded to `float`. From a finite `cameraSpeed` neither of them leaves the
finite range, so `cameraSpeed`, which starts at `2.5f`, stays finite. -/
def ScrollCallback (g : ViewGlobals) (_xOffset : ℚ) (yOffset : ℚ) : ViewGlobals :=
  if yOffset > 0 then
    { g with cameraSpeed := binary32 (g.cameraSpeed + 0.5) }
  else if yOffset < 0 then
    { g with cameraSpeed := max (binary32 (g.cameraSpeed - 0.5)) 0.5 }
  else g

/-- A finite sequence of scroll events, given by their `(xOffset, yOffset)` pairs,
delivered to `ScrollCallback` one after the other. -/
def scrollAll (g : ViewGlobals) (events : List (ℚ × ℚ)) : ViewGlobals :=
  events.foldl (fun g event => ScrollCallback g event.1 event.2) g

/-! ## `ViewManager.cpp`: keyboard, mouse and the per-frame view -/

/-- The enumeration `Camera_Movement` of the camera class. -/
inductive Camera_Movement where
  | FORWARD
  | BACKWARD
  | LEFT
  | RIGHT
  | UP
  | DOWN
deriving DecidableEq

/-- The keys of the window: the nine that `ProcessKeyboardEvents` asks `glfwGetKey`
about, and every other key by its GLFW code. -/
inductive Key where
  | ESCAPE
  | W
  | S
  | A
  | D
  | Q
  | E
  | P
  | O
  | other (code : Nat)
deriving DecidableEq

/-- The methods of the camera class that `ViewManager.cpp` calls. The class is not among
the files, so the three methods are parameters, with no law assumed about them. -/
structure CameraOps (M : Type) where
  /-- The method `Camera::ProcessKeyboard(direction, velocity)`. -/
  ProcessKeyboard : Camera → Camera_Movement → ℚ → Camera
  /-- The method `Camera::ProcessMouseMovement(xOffset, yOffset)`. -/
  ProcessMouseMovement : Camera → ℚ → ℚ → Camera
  /-- The method `Camera::GetViewMatrix()`. -/
  GetViewMatrix : Camera → M

/-- The members of `class ViewManager` that the sources assign. -/
structure ViewManager where
  m_pShaderManager : Option ShaderManager
  m_pWindow : Option Nat
deriving DecidableEq

/-- A view manager together with what its methods act on: the file-scope variables, the
OpenGL context and the close flag of the window. -/
structure ViewWorld (M : Type) where
  self : ViewManager
  globals : ViewGlobals
  gl : GLContext M
  windowShouldClose : Bool

namespace ViewManager

variable {M : Type}

/-- The constructor `ViewManager::ViewManager(ShaderManager*)`. -/
def new (pShaderManager : Option ShaderManager) (v : ViewWorld M) : ViewWorld M :=
  { v with
    self := { m_pShaderManager := pShaderManager, m_pWindow := none }
    globals :=
      { v.globals with
        g_pCamera := some
          { Position := ⟨0.5, 5.5, 10.0⟩
            Front := ⟨0.0, -0.5, -2.0⟩
            Up := ⟨0.0, 1.0, 0.0⟩
            Zoom := 80
            MovementSpeed := 10 } } }

/-- The static method `ViewManager::Mouse_Position_Callback(window, xMousePos, yMousePos)`;
it acts on the file-scope variables only and calls `g_pCamera->ProcessMouseMovement`
without a null test. The cursor position is a `double`; each assignment of it to the
`float` variables `gLastX` and `gLastY` narrows it, and each offset is a `double`
difference (the `float` operand is promoted) narrowed to the `float` local. -/
def Mouse_Position_Callback (ops : CameraOps M) (g : ViewGlobals)
    (xMousePos yMousePos : ℚ) : Option ViewGlobals :=
  if g.bOrthographicProjection then
    some g
  else do
    let g : ViewGlobals ←
      if g.gFirstMouse then do
        let lastX ← narrowToFloat xMousePos
        let lastY ← narrowToFloat yMousePos
        pure { g with gLastX := lastX, gLastY := lastY, gFirstMouse := false }
      else pure g
    let xOffset ← narrowToFloat (binary64 (xMousePos - g.gLastX))
    let yOffset ← narrowToFloat (binary64 (g.gLastY - yMousePos))
    let lastX ← narrowToFloat xMousePos
    let lastY ← narrowToFloat yMousePos
    let g : ViewGlobals := { g with gLastX := lastX, gLastY := lastY }
    match g.g_pCamera with
    | none => none
    | some camera =>
      some { g with g_pCamera := some (ops.ProcessMouseMovement camera xOffset yOffset) }

/-- One key test of `ProcessKeyboardEvents`, made after its null test of `g_pCamera`:
`if (glfwGetKey(m_pWindow, key) == GLFW_PRESS)
g_pCamera->ProcessKeyboard(direction, cameraSpeed * gDeltaTime);`. -/
def moveCamera (ops : CameraOps M) (pressed : Bool) (g : ViewGlobals)
    (direction : Camera_Movement) : ViewGlobals :=
  if pressed then
    { g with
      g_pCamera := g.g_pCamera.map fun camera =>
        ops.ProcessKeyboard camera direction (g.cameraSpeed * g.gDeltaTime) }
  else g

/-- The method `void ViewManager::ProcessKeyboardEvents()`; `keys k` tells whether
`glfwGetKey(m_pWindow, k)` is `GLFW_PRESS`. -/
def ProcessKeyboardEvents (ops : CameraOps M) (keys : Key → Bool) (v : ViewWorld M) :
    ViewWorld M :=
  let v : ViewWorld M := if keys Key.ESCAPE then { v with windowShouldClose := true } else v
  match v.globals.g_pCamera with
  | none => v
  | some _ =>
    let g := v.globals
    let g := moveCamera ops (keys Key.W) g Camera_Movement.FORWARD
    let g := moveCamera ops (keys Key.S) g Camera_Movement.BACKWARD
    let g := moveCamera ops (keys Key.A) g Camera_Movement.LEFT
    let g := moveCamera ops (keys Key.D) g Camera_Movement.RIGHT
    let g := moveCamera ops (keys Key.Q) g Camera_Movement.DOWN
    let g := moveCamera ops (keys Key.E) g Camera_Movement.UP
    let g : ViewGlobals :=
      if keys Key.P then { g with bOrthographicProjection := false } else g
    let g : ViewGlobals :=
      if keys Key.O then { g with bOrthographicProjection := true } else g
    { v with globals := g }

/-- The method `void ViewManager::PrepareSceneView()`; `currentFrame` is the value of
`glfwGetTime()`. `g_pCamera->GetViewMatrix()` is called without a null test. -/
def PrepareSceneView (glm : GLM M) (ops : CameraOps M) (keys : Key → Bool) (currentFrame : ℚ)
    (v : ViewWorld M) : Option (ViewWorld M) :=
  let v : ViewWorld M :=
    { v with
      globals :=
        { v.globals with
          gDeltaTime := currentFrame - v.globals.gLastFrame
          gLastFrame := currentFrame } }
  let v := ProcessKeyboardEvents ops keys v
  match v.globals.g_pCamera with
  | none => none
  | some camera =>
    let view := ops.GetViewMatrix camera
    let orthoSize : ℚ := 20.0
    let aspectRatio : ℚ := (WINDOW_WIDTH : ℚ) / (WINDOW_HEIGHT : ℚ)
    let projection : M :=
      if v.globals.bOrthographicProjection then
        glm.ortho (-orthoSize * aspectRatio) (orthoSize * aspectRatio) (-orthoSize) orthoSize
          0.1 100.0
      else
        glm.perspective (glm.radians camera.Zoom) ((WINDOW_WIDTH : ℚ) / (WINDOW_HEIGHT : ℚ))
          0.1 100.0
    let camera : Camera :=
      if v.globals.bOrthographicProjection then
        { camera with Position := ⟨0.0, 10.0, 10.0⟩, Front := ⟨0.0, -1.0, -1.0⟩ }
      else camera
    let v : ViewWorld M := { v with globals := { v.globals with g_pCamera := some camera } }
    match v.self.m_pShaderManager with
    | some sh =>
      let gl := sh.setMat4Value v.gl "view" view
      let gl := sh.setMat4Value gl "projection" projection
      some { v with gl := sh.setVec3Value gl "viewPosition" camera.Position }
    | none => some v

/-- A sequence of frames: `PrepareSceneView` once per frame, each frame with its own
key state and clock value. -/
def frames (glm : GLM M) (ops : CameraOps M) :
    List ((Key → Bool) × ℚ) → ViewWorld M → Option (ViewWorld M)
  | [], v => some v
  | frame :: rest, v =>
    match PrepareSceneView glm ops frame.1 frame.2 v with
    | none => none
    | some next => frames glm ops rest next

end ViewManager

/-! ## Predicates used in the statements -/

/-- Slot `i` is below the loaded-texture count and its entry carries `tag`. -/
def SceneManager.hasTagAt (self : SceneManager) (tag : String) (i : Fin 16) : Prop :=
  (i.val : Int) < self.m_loadedTextures ∧ (self.m_textureIDs i).tag = tag

instance (self : SceneManager) (tag : String) (i : Fin 16) :
    Decidable (self.hasTagAt tag i) := by
  unfold SceneManager.hasTagAt
  infer_instance

/-- The tags of the registered entries are pairwise distinct. -/
def SceneManager.distinctTags (self : SceneManager) : Prop :=
  ∀ i j : Fin 16, (i.val : Int) < self.m_loadedTextures → (j.val : Int) < self.m_loadedTextures →
    (self.m_textureIDs i).tag = (self.m_textureIDs j).tag → i = j

/-- The draw calls of a command stream, in order. -/
def drawCalls {M : Type} : List (GLCommand M) → List Mesh
  | [] => []
  | GLCommand.draw mesh :: rest => mesh :: drawCalls rest
  | GLCommand.uniform _ _ :: rest => drawCalls rest

/-- The values uploaded for the sampler uniform `objectTexture` in a command stream, in
order. -/
def samplerUploads {M : Type} : List (GLCommand M) → List Int
  | [] => []
  | GLCommand.uniform name (UniformValue.sampler2D slot) :: rest =>
    if name = "objectTexture" then slot :: samplerUploads rest else samplerUploads rest
  | _ :: rest => samplerUploads rest

/-- The value of the uniform `name` in effect at each draw call of a command stream, in
order; `current` is the value the shader held before the stream. -/
def uniformAtDraws {M : Type} (name : String) :
    Option (UniformValue M) → List (GLCommand M) → List (Option (UniformValue M))
  | _, [] => []
  | current, GLCommand.uniform n v :: rest =>
    uniformAtDraws name (if n = name then some v else current) rest
  | current, GLCommand.draw _ :: rest => current :: uniformAtDraws name current rest

/-- The hard-coded `(path, tag)` pairs of `LoadSceneTextures`, in source order. -/
def sceneTextureFiles : List (String × String) :=
  [("textures/deskTop.jpg", "deskTop"), ("textures/deskRod.jpg", "deskRod"),
   ("textures/deskRim.jpg", "deskRim"), ("textures/granite.jpg", "quartz"),
   ("textures/copper.jpg", "copper"), ("textures/pencil.jpg", "pencil"),
   ("textures/erase.jpg", "erase"), ("textures/grain.jpg", "grain")]

/-- A load of `filename` succeeds: the file decodes to an image of 3 or 4 channels. -/
def loadSucceeds (stbi_load : String → Option Image) (filename : String) : Bool :=
  match stbi_load filename with
  | some image => decide (image.colorChannels = 3) || decide (image.colorChannels = 4)
  | none => false

/-- The tags of the pairs whose load succeeds, in list order. -/
def loadedTags (stbi_load : String → Option Image) (files : List (String × String)) :
    List String :=
  (files.filter fun file => loadSucceeds stbi_load file.1).map fun file => file.2

/-- One `CreateGLTexture` call per `(path, tag)` pair, in list order, each made whatever
the earlier calls returned. -/
def loadEach {M : Type} (stbi_load : String → Option Image) :
    List (String × String) → World M → Option (World M)
  | [], w => some w
  | file :: rest, w =>
    match SceneManager.CreateGLTexture stbi_load w file.1 file.2 with
    | none => none
    | some r => loadEach stbi_load rest r.2

/-- The commands one statement of `RenderScene` hands to the OpenGL context when a
shader manager is present; a texture tag is resolved by `FindTextureSlot`. -/
def SceneManager.RenderScene.emitted {M : Type} (glm : GLM M) (self : SceneManager)
    (locals : SceneManager.RenderScene.Locals) :
    SceneManager.RenderScene.Statement → List (GLCommand M)
  | .SetTransformations =>
    [GLCommand.uniform "model" (UniformValue.mat4
      (glm.mul (glm.mul (glm.mul (glm.mul
        (glm.translate locals.positionXYZ)
        (glm.rotate (glm.radians locals.ZrotationDegrees) ⟨0, 0, 1⟩))
        (glm.rotate (glm.radians locals.YrotationDegrees) ⟨0, 1, 0⟩))
        (glm.rotate (glm.radians locals.XrotationDegrees) ⟨1, 0, 0⟩))
        (glm.scale locals.scaleXYZ)))]
  | .SetShaderColor r g b a =>
    [GLCommand.uniform "bUseTexture" (UniformValue.int 0),
     GLCommand.uniform "objectColor" (UniformValue.vec4 ⟨r, g, b, a⟩)]
  | .SetShaderTexture textureTag =>
    [GLCommand.uniform "bUseTexture" (UniformValue.int 1),
     GLCommand.uniform "objectTexture"
       (UniformValue.sampler2D ((self.FindTextureSlot textureTag).getD (-1)))]
  | .SetTextureUVScale u v => [GLCommand.uniform "UVscale" (UniformValue.vec2 ⟨u, v⟩)]
  | .setBoolValue name value => [GLCommand.uniform name (UniformValue.bool (value self locals))]
  | .setVec3Value name value => [GLCommand.uniform name (UniformValue.vec3 (value self locals))]
  | .setFloatValue name value =>
    [GLCommand.uniform name (UniformValue.float (value self locals))]
  | .DrawPlaneMesh => [GLCommand.draw Mesh.plane]
  | .DrawBoxMesh => [GLCommand.draw Mesh.box]
  | .DrawCylinderMesh => [GLCommand.draw Mesh.cylinder]
  | .DrawSphereMesh => [GLCommand.draw Mesh.sphere]
  | .DrawConeMesh => [GLCommand.draw Mesh.cone]
  | .DrawTaperedCylinderMesh => [GLCommand.draw Mesh.taperedCylinder]
  | _ => []

/-- The locals after one statement of `RenderScene`. -/
def SceneManager.RenderScene.assigned (locals : SceneManager.RenderScene.Locals) :
    SceneManager.RenderScene.Statement → SceneManager.RenderScene.Locals
  | .assignScaleXYZ v => { locals with scaleXYZ := v }
  | .assignXrotationDegrees x => { locals with XrotationDegrees := x }
  | .assignYrotationDegrees x => { locals with YrotationDegrees := x }
  | .assignZrotationDegrees x => { locals with ZrotationDegrees := x }
  | .assignPositionXYZ v => { locals with positionXYZ := v }
  | .assignShinyMaterial m => { locals with shinyMaterial := m }
  | .assignNonReflectiveMaterial m => { locals with nonReflectiveMaterial := m }
  | _ => locals

/-- The commands a sequence of statements of `RenderScene` hands to the OpenGL context
when a shader manager is present, in order. -/
def SceneManager.RenderScene.stream {M : Type} (glm : GLM M) (self : SceneManager) :
    SceneManager.RenderScene.Locals → List SceneManager.RenderScene.Statement →
      List (GLCommand M)
  | _, [] => []
  | locals, statement :: rest =>
    SceneManager.RenderScene.emitted glm self locals statement ++
      SceneManager.RenderScene.stream glm self
        (SceneManager.RenderScene.assigned locals statement) rest

/-! ## Sample data for concrete evaluations -/

/-- Matrix expressions: the glm calls left uninterpreted. -/
inductive MatExpr where
  | scale (v : vec3)
  | rotate (angle : ℚ) (axis : vec3)
  | translate (v : vec3)
  | mul (a b : MatExpr)
  | ortho (left right bottom top zNear zFar : ℚ)
  | perspective (fovy aspect zNear zFar : ℚ)
  | lookAt (eye center up : vec3)
deriving DecidableEq

/-- The glm record that builds matrix expressions; `radians` multiplies by the constant
glm uses. -/
def GLM.symbolic : GLM MatExpr :=
  { radians := fun degrees => degrees * 0.01745329251994329576923690768489
    scale := MatExpr.scale
    rotate := MatExpr.rotate
    translate := MatExpr.translate
    mul := MatExpr.mul
    ortho := MatExpr.ortho
    perspective := MatExpr.perspective }

/-- A context in which nothing was uploaded or bound yet; the `k`-th generated texture
name is `k + 1`. -/
def GLContext.fresh : GLContext MatExpr :=
  { genTextures := fun k => k + 1
    generated := 0
    activeTexture := 0
    boundTexture2D := fun _ => 0
    commands := [] }

/-- Object storage filled with zeros, without a shader manager. -/
def SceneManager.zeroed : SceneManager :=
  { m_pShaderManager := none
    m_basicMeshes := { loaded := [] }
    m_loadedTextures := 0
    m_textureIDs := fun _ => { tag := "", ID := 0 }
    m_objectMaterials := []
    m_directionalLight1 := ⟨⟨0, 0, 0⟩, ⟨0, 0, 0⟩, ⟨0, 0, 0⟩, ⟨0, 0, 0⟩, false⟩
    m_directionalLight2 := ⟨⟨0, 0, 0⟩, ⟨0, 0, 0⟩, ⟨0, 0, 0⟩, ⟨0, 0, 0⟩, false⟩
    m_pointLight1 := ⟨⟨0, 0, 0⟩, ⟨0, 0, 0⟩, ⟨0, 0, 0⟩, ⟨0, 0, 0⟩, false⟩
    m_pointLight2 := ⟨⟨0, 0, 0⟩, ⟨0, 0, 0⟩, ⟨0, 0, 0⟩, ⟨0, 0, 0⟩, false⟩
    m_spotLight := ⟨⟨0, 0, 0⟩, ⟨0, 0, 0⟩, 0, 0, 0, 0, 0, ⟨0, 0, 0⟩, ⟨0, 0, 0⟩, ⟨0, 0, 0⟩, false⟩ }

/-- Object storage whose `m_loadedTextures` word happens to hold 1. -/
def SceneManager.staleStorage : SceneManager :=
  { SceneManager.zeroed with m_loadedTextures := 1 }

/-- A scene manager with a shader manager and three registered textures, two of them
under the tag `wood`. -/
def SceneManager.duplicateRegistry : SceneManager :=
  { SceneManager.zeroed with
    m_pShaderManager := some { m_programID := 1 }
    m_loadedTextures := 3
    m_textureIDs := fun i =>
      if i.val = 0 then { tag := "steel", ID := 7 }
      else if i.val = 1 then { tag := "wood", ID := 9 }
      else if i.val = 2 then { tag := "wood", ID := 4 }
      else { tag := "", ID := 0 } }

/-- A scene manager with a shader manager and three registered textures under
different tags. -/
def SceneManager.distinctRegistry : SceneManager :=
  { SceneManager.zeroed with
    m_pShaderManager := some { m_programID := 1 }
    m_loadedTextures := 3
    m_textureIDs := fun i =>
      if i.val = 0 then { tag := "steel", ID := 7 }
      else if i.val = 1 then { tag := "wood", ID := 9 }
      else if i.val = 2 then { tag := "glass", ID := 4 }
      else { tag := "", ID := 0 } }

/-- A decoder that knows an RGB file, an RGBA file and a single-channel file. -/
def sampleFiles : String → Option Image := fun filename =>
  if filename = "textures/rgb.jpg" then some { width := 4, height := 4, colorChannels := 3 }
  else if filename = "textures/rgba.png" then some { width := 4, height := 4, colorChannels := 4 }
  else if filename = "textures/gray.png" then some { width := 4, height := 4, colorChannels := 1 }
  else none

/-- A material list with one preset, tagged `wood`. -/
def SceneManager.woodMaterials : SceneManager :=
  { SceneManager.zeroed with
    m_pShaderManager := some { m_programID := 1 }
    m_objectMaterials :=
      [{ diffuseColor := ⟨0.2, 0.2, 0.3⟩, specularColor := ⟨0.1, 0.1, 0.1⟩, shininess := 0.5,
         tag := "wood" }] }

/-- An output parameter's content before a `FindMaterial` call. -/
def staleMaterial : OBJECT_MATERIAL :=
  { diffuseColor := ⟨9, 9, 9⟩, specularColor := ⟨8, 8, 8⟩, shininess := 77, tag := "" }

/-- A camera class for concrete evaluations: the keyboard moves the position along the
front or up vector, the mouse turns the front vector, and the view matrix is `lookAt`. -/
def CameraOps.sample : CameraOps MatExpr :=
  { ProcessKeyboard := fun camera direction velocity =>
      match direction with
      | Camera_Movement.FORWARD =>
        { camera with Position := ⟨camera.Position.x + camera.Front.x * velocity,
            camera.Position.y + camera.Front.y * velocity,
            camera.Position.z + camera.Front.z * velocity⟩ }
      | Camera_Movement.BACKWARD =>
        { camera with Position := ⟨camera.Position.x - camera.Front.x * velocity,
            camera.Position.y - camera.Front.y * velocity,
            camera.Position.z - camera.Front.z * velocity⟩ }
      | Camera_Movement.UP =>
        { camera with Position := ⟨camera.Position.x + camera.Up.x * velocity,
            camera.Position.y + camera.Up.y * velocity,
            camera.Position.z + camera.Up.z * velocity⟩ }
      | Camera_Movement.DOWN =>
        { camera with Position := ⟨camera.Position.x - camera.Up.x * velocity,
            camera.Position.y - camera.Up.y * velocity,
            camera.Position.z - camera.Up.z * velocity⟩ }
      | Camera_Movement.LEFT =>
        { camera with Position := ⟨camera.Position.x - velocity, camera.Position.y,
            camera.Position.z⟩ }
      | Camera_Movement.RIGHT =>
        { camera with Position := ⟨camera.Position.x + velocity, camera.Position.y,
            camera.Position.z⟩ }
    ProcessMouseMovement := fun camera xOffset yOffset =>
      { camera with Front := ⟨camera.Front.x + xOffset, camera.Front.y + yOffset,
          camera.Front.z⟩ }
    GetViewMatrix := fun camera =>
      MatExpr.lookAt camera.Position
        ⟨camera.Position.x + camera.Front.x, camera.Position.y + camera.Front.y,
          camera.Position.z + camera.Front.z⟩
        camera.Up }

/-- The view manager after its constructor, over the initial file-scope variables. -/
def ViewWorld.started : ViewWorld MatExpr :=
  ViewManager.new (some { m_programID := 1 })
    { self := { m_pShaderManager := none, m_pWindow := none }
      globals := ViewGlobals.initial
      gl := GLContext.fresh
      windowShouldClose := false }

/-- A key state: exactly the listed keys are pressed. -/
def pressed (keys : List Key) : Key → Bool := fun k => decide (k ∈ keys)

/-- A decoder for which every file decodes to an RGB image. -/
def allFilesDecode : String → Option Image := fun _ =>
  some { width := 8, height := 8, colorChannels := 3 }

/-- A decoder for which `textures/deskRod.jpg` is missing and `textures/copper.jpg` is a
single-channel image; every other file decodes to an RGB image. -/
def twoFilesFail : String → Option Image := fun filename =>
  if filename = "textures/deskRod.jpg" then none
  else if filename = "textures/copper.jpg" then
    some { width := 8, height := 8, colorChannels := 1 }
  else some { width := 8, height := 8, colorChannels := 3 }

/-- A scene manager with a shader manager and an empty registry. -/
def SceneManager.emptyRegistry : SceneManager :=
  { SceneManager.zeroed with m_pShaderManager := some { m_programID := 1 } }

end CS330

namespace CS330
open SceneManager

theorem SceneManager.textureAt?_natCast (self : SceneManager) (k : Nat) (hk : k < 16) :
    self.textureAt? (k : Int) = some (self.m_textureIDs ⟨k, hk⟩) := by
  unfold SceneManager.textureAt?
  have h : (0 : Int) ≤ (k : Int) ∧ (k : Int) < 16 := by omega
  rw [dif_pos h]
  simp

theorem FindTextureSlot_loop_found (self : SceneManager) (tag : String) (fuel : Nat)
    (slot index : Int) :
    FindTextureSlot.loop self tag (fuel + 1) slot index true = some slot := by
  simp [FindTextureSlot.loop]

theorem FindTextureSlot_loop_spec (self : SceneManager) (tag : String)
    (hcap : self.m_loadedTextures ≤ 16) :
    ∀ (fuel k : Nat) (slot : Int), (self.m_loadedTextures - (k : Int)).toNat < fuel →
      ∃ r, FindTextureSlot.loop self tag fuel slot (k : Int) false = some r ∧
        ((r = slot ∧ ∀ j : Fin 16, k ≤ j.val → ¬ self.hasTagAt tag j) ∨
         (∃ i : Fin 16, r = (i.val : Int) ∧ k ≤ i.val ∧ self.hasTagAt tag i ∧
            ∀ j : Fin 16, k ≤ j.val → j.val < i.val → ¬ self.hasTagAt tag j)) := by
  intro fuel
  induction fuel with
  | zero => intro k slot h; omega
  | succ fuel ih =>
    intro k slot hfuel
    by_cases hlt : (k : Int) < self.m_loadedTextures
    · have hk : k < 16 := by omega
      have hcond : (k : Int) < self.m_loadedTextures ∧ false = false := ⟨hlt, rfl⟩
      rw [FindTextureSlot.loop, if_pos hcond, SceneManager.textureAt?_natCast self k hk]
      by_cases htag : (self.m_textureIDs ⟨k, hk⟩).tag = tag
      · obtain ⟨f, rfl⟩ : ∃ f, fuel = f + 1 := ⟨fuel - 1, by omega⟩
        refine ⟨(k : Int), ?_, Or.inr ⟨⟨k, hk⟩, rfl, le_refl _, ⟨hlt, htag⟩, ?_⟩⟩
        · simp only [htag, if_true]
          exact FindTextureSlot_loop_found self tag f _ _
        · intro j h1 h2
          simp only at h2
          omega
      · obtain ⟨r, hr, hspec⟩ := ih (k + 1) slot (by omega)
        refine ⟨r, ?_, ?_⟩
        · simp only [htag, if_false]
          rw [← hr]
          norm_cast
        · rcases hspec with ⟨hrs, hnone⟩ | ⟨i, hri, hki, hi, hbefore⟩
          · refine Or.inl ⟨hrs, ?_⟩
            intro j hj hhas
            by_cases hjk : j.val = k
            · have : j = ⟨k, hk⟩ := Fin.ext hjk
              subst this
              exact htag hhas.2
            · exact hnone j (by omega) hhas
          · refine Or.inr ⟨i, hri, by omega, hi, ?_⟩
            intro j hj hji hhas
            by_cases hjk : j.val = k
            · have : j = ⟨k, hk⟩ := Fin.ext hjk
              subst this
              exact htag hhas.2
            · exact hbefore j (by omega) hji hhas
    · have hcond : ¬ ((k : Int) < self.m_loadedTextures ∧ false = false) := fun h => hlt h.1
      rw [FindTextureSlot.loop, if_neg hcond]
      refine ⟨slot, rfl, Or.inl ⟨rfl, ?_⟩⟩
      intro j hj hhas
      have := hhas.1
      omega


theorem SceneManager.FindTextureSlot_spec (self : SceneManager) (tag : String)
    (hcap : self.m_loadedTextures ≤ 16) :
    ∃ r, self.FindTextureSlot tag = some r ∧
      ((∃ i, self.hasTagAt tag i) →
        ∃ i : Fin 16, r = (i.val : Int) ∧ self.hasTagAt tag i ∧
          ∀ j : Fin 16, self.hasTagAt tag j → i ≤ j) ∧
      (r = -1 ↔ ¬ ∃ i, self.hasTagAt tag i) := by
  obtain ⟨r, hr, hspec⟩ :=
    FindTextureSlot_loop_spec self tag hcap (self.m_loadedTextures.toNat + 1) 0 (-1) (by simp)
  refine ⟨r, hr, ?_, ?_⟩
  · rintro ⟨i0, hi0⟩
    rcases hspec with ⟨_, hnone⟩ | ⟨i, hri, _, hi, hbefore⟩
    · exact absurd hi0 (hnone i0 (Nat.zero_le _))
    · refine ⟨i, hri, hi, ?_⟩
      intro j hj
      by_contra hlt
      exact hbefore j (Nat.zero_le _) (by simpa using hlt) hj
  · rcases hspec with ⟨hrs, hnone⟩ | ⟨i, hri, _, hi, _⟩
    · constructor
      · rintro _ ⟨i0, hi0⟩
        exact hnone i0 (Nat.zero_le _) hi0
      · intro _
        exact hrs
    · constructor
      · intro h
        omega
      · intro h
        exact absurd ⟨i, hi⟩ h

/-- C2: for every registry state within the 16-slot capacity and every tag,
`FindTextureSlot` returns a value; when some registered entry carries the tag the value
is the least such index (first match wins, also with duplicate tags), and the value is
the sentinel -1 exactly when no registered entry carries the tag. -/
theorem C2_FindTextureSlot_first_match (self : SceneManager) (tag : String)
    (hcap : self.m_loadedTextures ≤ 16) :
    ∃ r, self.FindTextureSlot tag = some r ∧
      ((∃ i, self.hasTagAt tag i) →
        ∃ i : Fin 16, r = (i.val : Int) ∧ self.hasTagAt tag i ∧
          ∀ j : Fin 16, self.hasTagAt tag j → i ≤ j) ∧
      (r = -1 ↔ ¬ ∃ i, self.hasTagAt tag i) :=
  SceneManager.FindTextureSlot_spec self tag hcap

/-- C2, evaluated: in a registry holding `steel, wood, wood` the tag `wood` resolves to
slot 1, the first of its two entries. -/
theorem C2_FindTextureSlot_first_match_witness :
    SceneManager.duplicateRegistry.m_loadedTextures ≤ 16 ∧
    SceneManager.duplicateRegistry.FindTextureSlot "wood" = some 1 ∧
    ∃ r, SceneManager.duplicateRegistry.FindTextureSlot "wood" = some r ∧
      ((∃ i, SceneManager.duplicateRegistry.hasTagAt "wood" i) →
        ∃ i : Fin 16, r = (i.val : Int) ∧ SceneManager.duplicateRegistry.hasTagAt "wood" i ∧
          ∀ j : Fin 16, SceneManager.duplicateRegistry.hasTagAt "wood" j → i ≤ j) ∧
      (r = -1 ↔ ¬ ∃ i, SceneManager.duplicateRegistry.hasTagAt "wood" i) :=
  ⟨by decide, by decide,
    C2_FindTextureSlot_first_match SceneManager.duplicateRegistry "wood" (by decide)⟩


theorem GLContext.uniformIn_append_same {M : Type} (name : String) (v : UniformValue M)
    (cmds : List (GLCommand M)) :
    GLContext.uniformIn name (cmds ++ [GLCommand.uniform name v]) = some v := by
  induction cmds with
  | nil => simp [GLContext.uniformIn]
  | cons c rest ih => simp [GLContext.uniformIn, ih]

theorem GLContext.uniformIn_append_other {M : Type} (name other : String) (v : UniformValue M)
    (hne : other ≠ name) (cmds : List (GLCommand M)) :
    GLContext.uniformIn name (cmds ++ [GLCommand.uniform other v]) =
      GLContext.uniformIn name cmds := by
  induction cmds with
  | nil => simp [GLContext.uniformIn, hne]
  | cons c rest ih => simp [GLContext.uniformIn, ih]

/-- C1: with a shader manager present, for every scale vector, every triple of rotation
angles in degrees and every position, `SetTransformations` uploads exactly one uniform,
named `model`, whose value is
`translate(position) * rotate(radians(z), Z) * rotate(radians(y), Y) * rotate(radians(x), X) * scale(scale)`,
and the shader holds that value for `model` afterwards. -/
theorem C1_SetTransformations_model_matrix {M : Type} (glm : GLM M) (w : World M)
    (sh : ShaderManager) (hsh : w.scene.m_pShaderManager = some sh)
    (scaleXYZ : vec3) (xDeg yDeg zDeg : ℚ) (positionXYZ : vec3) :
    (SetTransformations glm w scaleXYZ xDeg yDeg zDeg positionXYZ).gl.commands =
        w.gl.commands ++ [GLCommand.uniform "model" (UniformValue.mat4
          (glm.mul (glm.mul (glm.mul (glm.mul
            (glm.translate positionXYZ)
            (glm.rotate (glm.radians zDeg) ⟨0, 0, 1⟩))
            (glm.rotate (glm.radians yDeg) ⟨0, 1, 0⟩))
            (glm.rotate (glm.radians xDeg) ⟨1, 0, 0⟩))
            (glm.scale scaleXYZ)))] ∧
    (SetTransformations glm w scaleXYZ xDeg yDeg zDeg positionXYZ).gl.uniformValue "model" =
        some (UniformValue.mat4
          (glm.mul (glm.mul (glm.mul (glm.mul
            (glm.translate positionXYZ)
            (glm.rotate (glm.radians zDeg) ⟨0, 0, 1⟩))
            (glm.rotate (glm.radians yDeg) ⟨0, 1, 0⟩))
            (glm.rotate (glm.radians xDeg) ⟨1, 0, 0⟩))
            (glm.scale scaleXYZ))) := by
  constructor
  · simp [SetTransformations, hsh, ShaderManager.setMat4Value, GLContext.push]
  · simp [SetTransformations, hsh, ShaderManager.setMat4Value, GLContext.push,
      GLContext.uniformValue, GLContext.uniformIn_append_same]

/-- C1, evaluated at scale (2,1,1), rotations x = 90, y = 0, z = 45 and position
(1,2,3) over uninterpreted matrix expressions. -/
theorem C1_SetTransformations_model_matrix_witness :
    SceneManager.duplicateRegistry.m_pShaderManager = some { m_programID := 1 } ∧
    (SetTransformations GLM.symbolic ⟨SceneManager.duplicateRegistry, GLContext.fresh⟩
        ⟨2, 1, 1⟩ 90 0 45 ⟨1, 2, 3⟩).gl.uniformValue "model" =
      some (UniformValue.mat4
        (MatExpr.mul (MatExpr.mul (MatExpr.mul (MatExpr.mul
          (MatExpr.translate ⟨1, 2, 3⟩)
          (MatExpr.rotate (GLM.symbolic.radians 45) ⟨0, 0, 1⟩))
          (MatExpr.rotate (GLM.symbolic.radians 0) ⟨0, 1, 0⟩))
          (MatExpr.rotate (GLM.symbolic.radians 90) ⟨1, 0, 0⟩))
          (MatExpr.scale ⟨2, 1, 1⟩))) :=
  ⟨rfl, (C1_SetTransformations_model_matrix GLM.symbolic
    ⟨SceneManager.duplicateRegistry, GLContext.fresh⟩ { m_programID := 1 } rfl
    ⟨2, 1, 1⟩ 90 0 45 ⟨1, 2, 3⟩).2⟩

/-- C3: a newly constructed scene manager keeps whatever `m_loadedTextures` its storage
held; over storage holding 1 the first successful registration, under the tag `foo`,
lands in slot 1 and `FindTextureSlot` returns 1 for it, not 0. -/
theorem C3_new_manager_first_registration_slot :
    (SceneManager.new (some { m_programID := 1 }) SceneManager.staleStorage).m_loadedTextures = 1 ∧
    (CreateGLTexture sampleFiles
        ⟨SceneManager.new (some { m_programID := 1 }) SceneManager.staleStorage, GLContext.fresh⟩
        "textures/rgb.jpg" "foo").map
      (fun r => (r.1, r.2.scene.m_loadedTextures, r.2.scene.FindTextureSlot "foo")) =
      some (true, 2, some 1) := by
  constructor
  · rfl
  · decide

/-- C4: for every registry state, when `stbi_load` fails or the decoded image has a
channel count other than 3 and 4, `CreateGLTexture` returns `false` and the scene
manager, in particular `m_loadedTextures` and every entry of `m_textureIDs`, is the
same as before the call. -/
theorem C4_CreateGLTexture_failure_keeps_registry {M : Type}
    (stbi_load : String → Option Image) (w : World M) (filename tag : String)
    (hbad : stbi_load filename = none ∨
      ∃ image, stbi_load filename = some image ∧
        image.colorChannels ≠ 3 ∧ image.colorChannels ≠ 4) :
    ∃ w', CreateGLTexture stbi_load w filename tag = some (false, w') ∧
      w'.scene.m_loadedTextures = w.scene.m_loadedTextures ∧
      w'.scene.m_textureIDs = w.scene.m_textureIDs ∧
      w'.scene = w.scene := by
  rcases hbad with hnone | ⟨image, himage, h3, h4⟩
  · exact ⟨w, by simp [CreateGLTexture, hnone], rfl, rfl, rfl⟩
  · exact ⟨{ w with gl := w.gl.glGenTextures.2.glBindTexture w.gl.glGenTextures.1 },
      by simp [CreateGLTexture, himage, h3, h4], rfl, rfl, rfl⟩

/-- C4, evaluated: loading the single-channel file into a registry of three entries
fails and the count stays 3. -/
theorem C4_CreateGLTexture_failure_keeps_registry_witness :
    (sampleFiles "textures/gray.png" = none ∨
      ∃ image, sampleFiles "textures/gray.png" = some image ∧
        image.colorChannels ≠ 3 ∧ image.colorChannels ≠ 4) ∧
    ∃ w', CreateGLTexture sampleFiles ⟨SceneManager.duplicateRegistry, GLContext.fresh⟩
        "textures/gray.png" "gray" = some (false, w') ∧
      w'.scene.m_loadedTextures = SceneManager.duplicateRegistry.m_loadedTextures ∧
      w'.scene.m_textureIDs = SceneManager.duplicateRegistry.m_textureIDs ∧
      w'.scene = SceneManager.duplicateRegistry :=
  ⟨Or.inr ⟨⟨4, 4, 1⟩, by decide, by decide, by decide⟩,
    C4_CreateGLTexture_failure_keeps_registry sampleFiles
      ⟨SceneManager.duplicateRegistry, GLContext.fresh⟩ "textures/gray.png" "gray"
      (Or.inr ⟨⟨4, 4, 1⟩, by decide, by decide, by decide⟩)⟩


theorem SceneManager.CreateGLTexture_then_FindTextureSlot {M : Type}
    (stbi_load : String → Option Image) (w : World M) (filename tag : String) (image : Image)
    (hload : stbi_load filename = some image)
    (hch : image.colorChannels = 3 ∨ image.colorChannels = 4)
    (h0 : 0 ≤ w.scene.m_loadedTextures) (h16 : w.scene.m_loadedTextures < 16)
    (hfresh : ∀ i, ¬ w.scene.hasTagAt tag i) :
    ∃ w', CreateGLTexture stbi_load w filename tag = some (true, w') ∧
      w'.scene.m_loadedTextures = w.scene.m_loadedTextures + 1 ∧
      w'.scene.FindTextureSlot tag = some w.scene.m_loadedTextures := by
  have hin : 0 ≤ w.scene.m_loadedTextures ∧ w.scene.m_loadedTextures < 16 := ⟨h0, h16⟩
  let scene' : SceneManager :=
    { w.scene with
      m_textureIDs := fun i =>
        if (i.val : Int) = w.scene.m_loadedTextures then
          { tag := tag, ID := w.gl.glGenTextures.1 }
        else w.scene.m_textureIDs i
      m_loadedTextures := w.scene.m_loadedTextures + 1 }
  have hfind : scene'.FindTextureSlot tag = some w.scene.m_loadedTextures := by
    obtain ⟨r, hr, hleast, _⟩ :=
      SceneManager.FindTextureSlot_spec scene' tag (by show w.scene.m_loadedTextures + 1 ≤ 16; omega)
    have hn : w.scene.m_loadedTextures.toNat < 16 := by omega
    have hcast : ((w.scene.m_loadedTextures.toNat : Nat) : Int) = w.scene.m_loadedTextures := by
      omega
    have hnew : scene'.hasTagAt tag ⟨w.scene.m_loadedTextures.toNat, hn⟩ := by
      constructor
      · show ((w.scene.m_loadedTextures.toNat : Nat) : Int) < w.scene.m_loadedTextures + 1
        omega
      · show (if ((w.scene.m_loadedTextures.toNat : Nat) : Int) = w.scene.m_loadedTextures then
            ({ tag := tag, ID := w.gl.glGenTextures.1 } : TEXTURE_INFO)
          else w.scene.m_textureIDs ⟨w.scene.m_loadedTextures.toNat, hn⟩).tag = tag
        rw [if_pos hcast]
    obtain ⟨i, hri, hi, hmin⟩ := hleast ⟨_, hnew⟩
    have hle : i.val ≤ w.scene.m_loadedTextures.toNat := hmin _ hnew
    have hge : w.scene.m_loadedTextures.toNat ≤ i.val := by
      by_contra hlt
      have hne : ¬ ((i.val : Int) = w.scene.m_loadedTextures) := by omega
      apply hfresh i
      constructor
      · omega
      · have h2 := hi.2
        change (if (i.val : Int) = w.scene.m_loadedTextures then
            ({ tag := tag, ID := w.gl.glGenTextures.1 } : TEXTURE_INFO)
          else w.scene.m_textureIDs i).tag = tag at h2
        rwa [if_neg hne] at h2
    rw [hr, hri]
    congr 1
    omega
  rcases hch with h3 | h4
  · refine ⟨{ scene := scene',
               gl := (w.gl.glGenTextures.2.glBindTexture w.gl.glGenTextures.1).glBindTexture 0 },
      ?_, rfl, hfind⟩
    simp only [CreateGLTexture, hload, h3, if_true, SceneManager.setTextureAt?, if_pos hin]
  · have h3 : ¬ image.colorChannels = 3 := by omega
    refine ⟨{ scene := scene',
               gl := (w.gl.glGenTextures.2.glBindTexture w.gl.glGenTextures.1).glBindTexture 0 },
      ?_, rfl, hfind⟩
    simp only [CreateGLTexture, hload, h3, h4, if_true, if_false, SceneManager.setTextureAt?,
      if_pos hin]
    rfl

theorem BindGLTextures_loop_spec {M : Type} (self : SceneManager)
    (hcap : self.m_loadedTextures ≤ 16) :
    ∀ (fuel k : Nat) (gl : GLContext M), (self.m_loadedTextures - (k : Int)).toNat < fuel →
      ∃ gl', BindGLTextures.loop self fuel (k : Int) gl = some gl' ∧
        gl'.commands = gl.commands ∧
        (∀ i : Fin 16, k ≤ i.val → (i.val : Int) < self.m_loadedTextures →
          gl'.boundTexture2D i.val = (self.m_textureIDs i).ID) ∧
        (∀ u : Nat, (u < k ∨ self.m_loadedTextures ≤ (u : Int)) →
          gl'.boundTexture2D u = gl.boundTexture2D u) := by
  intro fuel
  induction fuel with
  | zero => intro k gl h; omega
  | succ fuel ih =>
    intro k gl hfuel
    by_cases hlt : (k : Int) < self.m_loadedTextures
    · have hk : k < 16 := by omega
      rw [BindGLTextures.loop, if_pos hlt, SceneManager.textureAt?_natCast self k hk]
      obtain ⟨gl', hloop, hcmds, hbound, hkeep⟩ :=
        ih (k + 1) ((gl.glActiveTexture k).glBindTexture (self.m_textureIDs ⟨k, hk⟩).ID)
          (by omega)
      refine ⟨gl', ?_, ?_, ?_, ?_⟩
      · simp only [Int.toNat_ofNat]
        rw [← hloop]
        norm_cast
      · rw [hcmds]
        rfl
      · intro i hki hi
        by_cases hik : i.val = k
        · have hi' : i = ⟨k, hk⟩ := Fin.ext hik
          subst hi'
          rw [hkeep k (Or.inl (Nat.lt_succ_self k))]
          simp [GLContext.glBindTexture, GLContext.glActiveTexture]
        · exact hbound i (by omega) hi
      · intro u hu
        have huk : u ≠ k := by
          rcases hu with h | h
          · omega
          · omega
        rw [hkeep u (by omega)]
        simp [GLContext.glBindTexture, GLContext.glActiveTexture, huk]
    · rw [BindGLTextures.loop, if_neg hlt]
      refine ⟨gl, rfl, rfl, ?_, fun _ _ => rfl⟩
      intro i hki hi
      omega

/-- C5: for every registry within the 16-slot capacity whose tags are pairwise
distinct, `BindGLTextures` returns, leaves the scene manager alone, and afterwards for
every `i` below the loaded-texture count texture unit `i` holds the handle of entry `i`,
and `FindTextureSlot` of that entry's tag is `i`, the unit its texture is bound to. -/
theorem C5_BindGLTextures_units_match_slots {M : Type} (w : World M)
    (hcap : w.scene.m_loadedTextures ≤ 16) (hdistinct : w.scene.distinctTags) :
    ∃ w', BindGLTextures w = some w' ∧ w'.scene = w.scene ∧
      ∀ i : Fin 16, (i.val : Int) < w.scene.m_loadedTextures →
        w'.gl.boundTexture2D i.val = (w.scene.m_textureIDs i).ID ∧
        w.scene.FindTextureSlot (w.scene.m_textureIDs i).tag = some (i.val : Int) := by
  obtain ⟨gl', hloop, _, hbound, _⟩ :=
    BindGLTextures_loop_spec w.scene hcap (w.scene.m_loadedTextures.toNat + 1) 0 w.gl (by simp)
  refine ⟨{ w with gl := gl' }, ?_, rfl, ?_⟩
  · have hloop' : BindGLTextures.loop w.scene (w.scene.m_loadedTextures.toNat + 1) 0 w.gl =
        some gl' := hloop
    simp [BindGLTextures, hloop']
  · intro i hi
    refine ⟨hbound i (Nat.zero_le _) hi, ?_⟩
    obtain ⟨r, hr, hleast, _⟩ :=
      SceneManager.FindTextureSlot_spec w.scene (w.scene.m_textureIDs i).tag hcap
    obtain ⟨j, hrj, hj, _⟩ := hleast ⟨i, hi, rfl⟩
    have hji : j = i := hdistinct j i hj.1 hi hj.2
    rw [hr, hrj, hji]

theorem SceneManager.distinctRegistry_distinctTags :
    SceneManager.distinctRegistry.distinctTags := by
  unfold SceneManager.distinctTags
  decide

/-- C5, evaluated: with `steel, wood, glass` registered under handles 7, 9, 4 the units
0, 1, 2 end up holding 7, 9, 4. -/
theorem C5_BindGLTextures_units_match_slots_witness :
    SceneManager.distinctRegistry.m_loadedTextures ≤ 16 ∧
    SceneManager.distinctRegistry.distinctTags ∧
    ∃ w', BindGLTextures ⟨SceneManager.distinctRegistry, GLContext.fresh⟩ = some w' ∧
      w'.scene = SceneManager.distinctRegistry ∧
      ∀ i : Fin 16, (i.val : Int) < SceneManager.distinctRegistry.m_loadedTextures →
        w'.gl.boundTexture2D i.val = (SceneManager.distinctRegistry.m_textureIDs i).ID ∧
        SceneManager.distinctRegistry.FindTextureSlot
          (SceneManager.distinctRegistry.m_textureIDs i).tag = some (i.val : Int) :=
  ⟨by decide, SceneManager.distinctRegistry_distinctTags,
    C5_BindGLTextures_units_match_slots ⟨SceneManager.distinctRegistry, GLContext.fresh⟩
      (by decide) SceneManager.distinctRegistry_distinctTags⟩


/-- C6: with a shader manager present, for every registry state within the 16-slot
capacity and every tag, `SetShaderTexture` uploads `bUseTexture` as 1 (`true`) and then
the value `FindTextureSlot` returns for the tag as `objectTexture`, and nothing else;
the uploaded value is -1 exactly when no registered entry carries the tag. -/
theorem C6_SetShaderTexture_uploads_slot {M : Type} (w : World M) (sh : ShaderManager)
    (hsh : w.scene.m_pShaderManager = some sh) (tag : String)
    (hcap : w.scene.m_loadedTextures ≤ 16) :
    ∃ r w', w.scene.FindTextureSlot tag = some r ∧ SetShaderTexture w tag = some w' ∧
      w'.gl.commands = w.gl.commands ++
        [GLCommand.uniform "bUseTexture" (UniformValue.int 1),
         GLCommand.uniform "objectTexture" (UniformValue.sampler2D r)] ∧
      w'.gl.uniformValue "bUseTexture" = some (UniformValue.int 1) ∧
      w'.gl.uniformValue "objectTexture" = some (UniformValue.sampler2D r) ∧
      (r = -1 ↔ ¬ ∃ i, w.scene.hasTagAt tag i) := by
  obtain ⟨r, hr, _, hsentinel⟩ := SceneManager.FindTextureSlot_spec w.scene tag hcap
  refine ⟨r,
    ⟨w.scene, sh.setSampler2DValue (sh.setIntValue w.gl "bUseTexture" 1) "objectTexture" r⟩,
    hr, ?_, ?_, ?_, ?_, hsentinel⟩
  · simp [SetShaderTexture, hsh, hr]
  · simp [ShaderManager.setSampler2DValue, ShaderManager.setIntValue, GLContext.push]
  · have hne : "objectTexture" ≠ "bUseTexture" := by decide
    simp only [ShaderManager.setSampler2DValue, ShaderManager.setIntValue, GLContext.push,
      GLContext.uniformValue]
    rw [GLContext.uniformIn_append_other _ _ _ hne, GLContext.uniformIn_append_same]
  · simp only [ShaderManager.setSampler2DValue, ShaderManager.setIntValue, GLContext.push,
      GLContext.uniformValue]
    rw [GLContext.uniformIn_append_same]

/-- C6, evaluated: a tag that is not registered uploads `bUseTexture = 1` and then
`objectTexture = -1`. -/
theorem C6_SetShaderTexture_uploads_slot_witness :
    SceneManager.duplicateRegistry.m_pShaderManager = some { m_programID := 1 } ∧
    SceneManager.duplicateRegistry.m_loadedTextures ≤ 16 ∧
    (SetShaderTexture ⟨SceneManager.duplicateRegistry, GLContext.fresh⟩ "missing").map
        (fun w => w.gl.commands) =
      some [GLCommand.uniform "bUseTexture" (UniformValue.int 1),
            GLCommand.uniform "objectTexture" (UniformValue.sampler2D (-1))] ∧
    ∃ r w', SceneManager.duplicateRegistry.FindTextureSlot "missing" = some r ∧
      SetShaderTexture ⟨SceneManager.duplicateRegistry, GLContext.fresh⟩ "missing" = some w' ∧
      w'.gl.commands = GLContext.fresh.commands ++
        [GLCommand.uniform "bUseTexture" (UniformValue.int 1),
         GLCommand.uniform "objectTexture" (UniformValue.sampler2D r)] ∧
      w'.gl.uniformValue "bUseTexture" = some (UniformValue.int 1) ∧
      w'.gl.uniformValue "objectTexture" = some (UniformValue.sampler2D r) ∧
      (r = -1 ↔ ¬ ∃ i, SceneManager.duplicateRegistry.hasTagAt "missing" i) :=
  ⟨rfl, by decide, by decide,
    C6_SetShaderTexture_uploads_slot ⟨SceneManager.duplicateRegistry, GLContext.fresh⟩
      { m_programID := 1 } rfl "missing" (by decide)⟩

/-- C8: when the material list is empty, for every tag `SetShaderMaterial` returns with
the world unchanged: no command is added to the stream, and the uniforms
`material.diffuseColor`, `material.specularColor` and `material.shininess` hold what
they held before. -/
theorem C8_SetShaderMaterial_empty_list_uploads_nothing {M : Type} (w : World M)
    (tag : String) (uninit : OBJECT_MATERIAL) (hempty : w.scene.m_objectMaterials = []) :
    ∃ w', SetShaderMaterial w tag uninit = some w' ∧
      w'.gl.commands = w.gl.commands ∧
      w'.gl.uniformValue "material.diffuseColor" = w.gl.uniformValue "material.diffuseColor" ∧
      w'.gl.uniformValue "material.specularColor" = w.gl.uniformValue "material.specularColor" ∧
      w'.gl.uniformValue "material.shininess" = w.gl.uniformValue "material.shininess" := by
  refine ⟨w, ?_, rfl, rfl, rfl, rfl⟩
  simp [SetShaderMaterial, hempty]

/-- C8, evaluated on a scene manager without materials. -/
theorem C8_SetShaderMaterial_empty_list_uploads_nothing_witness :
    SceneManager.duplicateRegistry.m_objectMaterials = [] ∧
    ∃ w', SetShaderMaterial ⟨SceneManager.duplicateRegistry, GLContext.fresh⟩ "wood"
        staleMaterial = some w' ∧
      w'.gl.commands = GLContext.fresh.commands ∧
      w'.gl.uniformValue "material.diffuseColor" =
        GLContext.fresh.uniformValue "material.diffuseColor" ∧
      w'.gl.uniformValue "material.specularColor" =
        GLContext.fresh.uniformValue "material.specularColor" ∧
      w'.gl.uniformValue "material.shininess" =
        GLContext.fresh.uniformValue "material.shininess" :=
  ⟨rfl, C8_SetShaderMaterial_empty_list_uploads_nothing
    ⟨SceneManager.duplicateRegistry, GLContext.fresh⟩ "wood" staleMaterial rfl⟩

theorem roundHalfEven_intCast (z : ℤ) : roundHalfEven (z : ℚ) = z := by
  simp [roundHalfEven]

theorem floor_le_roundHalfEven (x : ℚ) : ⌊x⌋ ≤ roundHalfEven x := by
  unfold roundHalfEven
  split_ifs <;> omega

theorem log_two_eq_of_bounds (q : ℚ) (k : ℤ) (hlow : (2 : ℚ) ^ k ≤ q)
    (hhigh : q < (2 : ℚ) ^ (k + 1)) : Int.log 2 q = k := by
  have hpos : 0 < q := lt_of_lt_of_le (by positivity) hlow
  have h1 : k ≤ Int.log 2 q :=
    (Int.zpow_le_iff_le_log (b := 2) (by norm_num) hpos (x := k)).mp (by exact_mod_cast hlow)
  have h2 : Int.log 2 q < k + 1 :=
    (Int.lt_zpow_iff_log_lt (b := 2) (by norm_num) hpos (x := k + 1)).mp
      (by exact_mod_cast hhigh)
  omega

theorem roundBinary_zero (p : ℕ) (emin : ℤ) : roundBinary p emin 0 = 0 := by
  simp [roundBinary, roundHalfEven]

theorem roundBinary_exact (p : ℕ) (emin : ℤ) (z c : ℤ) (hz : |z| < 2 ^ p) (hc : emin ≤ c) :
    roundBinary p emin ((z : ℚ) * (2 : ℚ) ^ c) = (z : ℚ) * (2 : ℚ) ^ c := by
  by_cases hz0 : z = 0
  · subst hz0
    simp [roundBinary_zero]
  have hzq : (0 : ℚ) < |(z : ℚ)| := abs_pos.mpr (by exact_mod_cast hz0)
  have h2c : (0 : ℚ) < (2 : ℚ) ^ c := by positivity
  have habs : |(z : ℚ) * (2 : ℚ) ^ c| = |(z : ℚ)| * (2 : ℚ) ^ c := by
    rw [abs_mul, abs_of_pos h2c]
  have hpos : 0 < |(z : ℚ) * (2 : ℚ) ^ c| := by
    rw [habs]
    positivity
  have hzlt : |(z : ℚ)| < (2 : ℚ) ^ (p : ℤ) := by
    have h : ((|z| : ℤ) : ℚ) < ((2 ^ p : ℤ) : ℚ) := by exact_mod_cast hz
    simpa [Int.cast_abs] using h
  have hlt : |(z : ℚ) * (2 : ℚ) ^ c| < (2 : ℚ) ^ ((p : ℤ) + c) := by
    rw [habs, zpow_add₀ (by norm_num : (2 : ℚ) ≠ 0)]
    exact mul_lt_mul_of_pos_right hzlt h2c
  have hlog : Int.log 2 |(z : ℚ) * (2 : ℚ) ^ c| < (p : ℤ) + c :=
    (Int.lt_zpow_iff_log_lt (b := 2) (by norm_num) hpos).mp (by exact_mod_cast hlt)
  unfold roundBinary
  generalize he : max (Int.log 2 |(z : ℚ) * (2 : ℚ) ^ c| - ((p : ℤ) - 1)) emin = e
  have hele : e ≤ c := by
    rw [← he]
    exact max_le (by omega) hc
  obtain ⟨m, hm⟩ : ∃ m : ℕ, c = e + m := ⟨(c - e).toNat, by omega⟩
  have h2e : (2 : ℚ) ^ e ≠ 0 := by positivity
  have hscaled : (z : ℚ) * (2 : ℚ) ^ c / (2 : ℚ) ^ e = ((z * 2 ^ m : ℤ) : ℚ) := by
    rw [hm, zpow_add₀ (by norm_num : (2 : ℚ) ≠ 0)]
    field_simp
    ring
  rw [hscaled, roundHalfEven_intCast, hm, zpow_add₀ (by norm_num : (2 : ℚ) ≠ 0)]
  push_cast
  rw [zpow_natCast]
  ring

theorem roundBinary_of_bounds (p : ℕ) (emin : ℤ) (q : ℚ) (k : ℤ)
    (hlow : (2 : ℚ) ^ k ≤ |q|) (hhigh : |q| < (2 : ℚ) ^ (k + 1)) :
    roundBinary p emin q =
      (roundHalfEven (q / (2 : ℚ) ^ (max (k - ((p : ℤ) - 1)) emin)) : ℚ) *
        (2 : ℚ) ^ (max (k - ((p : ℤ) - 1)) emin) := by
  unfold roundBinary
  rw [log_two_eq_of_bounds |q| k hlow hhigh]

theorem binary32_ge_one (q : ℚ) (hq : 1 ≤ q) : 1 ≤ binary32 q := by
  have hpos : 0 < q := by linarith
  have habs : |q| = q := abs_of_pos hpos
  have hk0 : 0 ≤ Int.log 2 q :=
    (Int.zpow_le_iff_le_log (b := 2) (by norm_num) hpos (x := 0)).mp (by simpa using hq)
  have hlow : (2 : ℚ) ^ (Int.log 2 q) ≤ q := by
    have h := Int.zpow_log_le_self (b := 2) (by norm_num) hpos
    exact_mod_cast h
  unfold binary32 roundBinary
  rw [habs]
  generalize Int.log 2 q = k at hk0 hlow
  have he : max (k - (((24 : ℕ) : ℤ) - 1)) (-149) = k - 23 := by
    rw [max_eq_left (by omega)]
    norm_num
  rw [he]
  have h2e : (0 : ℚ) < (2 : ℚ) ^ (k - 23) := by positivity
  have hsplit : (2 : ℚ) ^ k = 2 ^ (23 : ℕ) * 2 ^ (k - 23) := by
    rw [← zpow_natCast, ← zpow_add₀ (by norm_num : (2 : ℚ) ≠ 0)]
    congr 1
    omega
  have hscaled : ((2 ^ 23 : ℤ) : ℚ) ≤ q / (2 : ℚ) ^ (k - 23) := by
    rw [le_div_iff₀ h2e]
    have h := hlow
    rw [hsplit] at h
    norm_num at h ⊢
    exact h
  have hfloor : (2 ^ 23 : ℤ) ≤ roundHalfEven (q / (2 : ℚ) ^ (k - 23)) :=
    le_trans (Int.le_floor.mpr hscaled) (floor_le_roundHalfEven _)
  have hcast : ((2 ^ 23 : ℤ) : ℚ) ≤ (roundHalfEven (q / (2 : ℚ) ^ (k - 23)) : ℚ) := by
    exact_mod_cast hfloor
  calc (1 : ℚ) ≤ (2 : ℚ) ^ k := one_le_zpow₀ (by norm_num) hk0
    _ = ((2 ^ 23 : ℤ) : ℚ) * 2 ^ (k - 23) := by rw [hsplit]; push_cast; ring
    _ ≤ _ := mul_le_mul_of_nonneg_right hcast (le_of_lt h2e)

theorem binary32_half_steps (k : ℕ) (hk : k ≤ 16777216) :
    binary32 ((k : ℚ) / 2) = (k : ℚ) / 2 := by
  by_cases hlt : k < 16777216
  · have h := roundBinary_exact 24 (-149) (k : ℤ) (-1)
      (by rw [abs_of_nonneg (by positivity)]; exact_mod_cast hlt) (by norm_num)
    have hform : ((k : ℤ) : ℚ) * (2 : ℚ) ^ (-1 : ℤ) = (k : ℚ) / 2 := by
      rw [zpow_neg_one]
      push_cast
      ring
    rw [hform] at h
    exact h
  · have hk' : k = 16777216 := by omega
    subst hk'
    have h := roundBinary_exact 24 (-149) 8388608 0 (by norm_num) (by norm_num)
    have hform : ((8388608 : ℤ) : ℚ) * (2 : ℚ) ^ (0 : ℤ) = ((16777216 : ℕ) : ℚ) / 2 := by
      norm_num
    rw [hform] at h
    exact h

theorem binary32_stalls_at_8388608 : binary32 (8388608 + 0.5) = 8388608 := by
  unfold binary32
  rw [roundBinary_of_bounds 24 (-149) _ 23 (by norm_num [abs_of_pos])
    (by norm_num [abs_of_pos])]
  have he : max ((23 : ℤ) - (((24 : ℕ) : ℤ) - 1)) (-149) = 0 := by norm_num
  rw [he]
  have hfloor : ⌊(8388608 + 0.5 : ℚ) / 2 ^ (0 : ℤ)⌋ = 8388608 := by
    rw [Int.floor_eq_iff]
    norm_num
  simp only [roundHalfEven, hfloor]
  norm_num

theorem binary32_stalls_at_16777216 : binary32 (16777216 - 0.5) = 16777216 := by
  unfold binary32
  rw [roundBinary_of_bounds 24 (-149) _ 23 (by norm_num [abs_of_pos])
    (by norm_num [abs_of_pos])]
  have he : max ((23 : ℤ) - (((24 : ℕ) : ℤ) - 1)) (-149) = 0 := by norm_num
  rw [he]
  have hfloor : ⌊(16777216 - 0.5 : ℚ) / 2 ^ (0 : ℤ)⌋ = 16777215 := by
    rw [Int.floor_eq_iff]
    norm_num
  simp only [roundHalfEven, hfloor]
  norm_num

theorem ScrollCallback_up (g : ViewGlobals) (xOffset yOffset : ℚ) (hup : 0 < yOffset) :
    (ScrollCallback g xOffset yOffset).cameraSpeed = binary32 (g.cameraSpeed + 1 / 2) := by
  simp only [ScrollCallback, gt_iff_lt, hup, if_true]
  norm_num

theorem ScrollCallback_down (g : ViewGlobals) (xOffset yOffset : ℚ) (hdown : yOffset < 0) :
    (ScrollCallback g xOffset yOffset).cameraSpeed =
      max (binary32 (g.cameraSpeed - 1 / 2)) (1 / 2) := by
  have hnot : ¬ yOffset > 0 := by
    intro h
    linarith
  simp only [ScrollCallback, hnot, hdown, if_true, if_false]
  norm_num

theorem ScrollCallback_floor (g : ViewGlobals) (xOffset yOffset : ℚ)
    (hfloor : 1 / 2 ≤ g.cameraSpeed) :
    1 / 2 ≤ (ScrollCallback g xOffset yOffset).cameraSpeed := by
  rcases lt_trichotomy yOffset 0 with hneg | hzero | hpos
  · rw [ScrollCallback_down g xOffset yOffset hneg]
    exact le_max_right _ _
  · subst hzero
    simpa [ScrollCallback] using hfloor
  · rw [ScrollCallback_up g xOffset yOffset hpos]
    have h := binary32_ge_one (g.cameraSpeed + 1 / 2) (by linarith)
    linarith

theorem scrollAll_floor (events : List (ℚ × ℚ)) :
    ∀ g : ViewGlobals, 1 / 2 ≤ g.cameraSpeed → 1 / 2 ≤ (scrollAll g events).cameraSpeed := by
  induction events with
  | nil => intro g h; exact h
  | cons e rest ih =>
    intro g h
    exact ih (ScrollCallback g e.1 e.2) (ScrollCallback_floor g e.1 e.2 h)

theorem ScrollCallback_half_steps (g : ViewGlobals) (xOffset yOffset : ℚ) (k : ℕ)
    (hk1 : 1 ≤ k) (hk : k ≤ 16777216) (hspeed : g.cameraSpeed = (k : ℚ) / 2) :
    ∃ k' : ℕ, 1 ≤ k' ∧ k' ≤ 16777216 ∧
      (ScrollCallback g xOffset yOffset).cameraSpeed = (k' : ℚ) / 2 := by
  rcases lt_trichotomy yOffset 0 with hneg | hzero | hpos
  · rw [ScrollCallback_down g xOffset yOffset hneg, hspeed]
    obtain ⟨j, rfl⟩ : ∃ j : ℕ, k = j + 1 := ⟨k - 1, by omega⟩
    have hexact : binary32 (((j + 1 : ℕ) : ℚ) / 2 - 1 / 2) = (j : ℚ) / 2 := by
      have h := binary32_half_steps j (by omega)
      have hform : ((j + 1 : ℕ) : ℚ) / 2 - 1 / 2 = (j : ℚ) / 2 := by
        push_cast
        ring
      rw [hform]
      exact h
    rw [hexact]
    by_cases hj : j = 0
    · subst hj
      exact ⟨1, le_refl _, by norm_num, by norm_num⟩
    · refine ⟨j, by omega, by omega, ?_⟩
      have hj1 : (1 : ℚ) ≤ (j : ℚ) := by exact_mod_cast Nat.one_le_iff_ne_zero.mpr hj
      rw [max_eq_left (by linarith)]
  · subst hzero
    exact ⟨k, hk1, hk, by simpa [ScrollCallback] using hspeed⟩
  · rw [ScrollCallback_up g xOffset yOffset hpos, hspeed]
    by_cases hlt : k < 16777216
    · refine ⟨k + 1, by omega, by omega, ?_⟩
      have h := binary32_half_steps (k + 1) (by omega)
      have hform : (k : ℚ) / 2 + 1 / 2 = ((k + 1 : ℕ) : ℚ) / 2 := by
        push_cast
        ring
      rw [hform]
      exact h
    · have hk' : k = 16777216 := by omega
      subst hk'
      refine ⟨16777216, by norm_num, le_refl _, ?_⟩
      have h := binary32_stalls_at_8388608
      have hform : ((16777216 : ℕ) : ℚ) / 2 + 1 / 2 = 8388608 + 0.5 := by norm_num
      rw [hform, h]
      norm_num

theorem scrollAll_half_steps (events : List (ℚ × ℚ)) :
    ∀ (g : ViewGlobals) (k : ℕ), 1 ≤ k → k ≤ 16777216 → g.cameraSpeed = (k : ℚ) / 2 →
      ∃ k' : ℕ, 1 ≤ k' ∧ k' ≤ 16777216 ∧ (scrollAll g events).cameraSpeed = (k' : ℚ) / 2 := by
  induction events with
  | nil => intro g k hk1 hk hspeed; exact ⟨k, hk1, hk, hspeed⟩
  | cons e rest ih =>
    intro g k hk1 hk hspeed
    obtain ⟨k', hk1', hk', hspeed'⟩ := ScrollCallback_half_steps g e.1 e.2 k hk1 hk hspeed
    exact ih (ScrollCallback g e.1 e.2) k' hk1' hk' hspeed'

theorem scrollAll_from_initial (events : List (ℚ × ℚ)) :
    ∃ k : ℕ, 1 ≤ k ∧ k ≤ 16777216 ∧
      (scrollAll ViewGlobals.initial events).cameraSpeed = (k : ℚ) / 2 :=
  scrollAll_half_steps events ViewGlobals.initial 5 (by norm_num) (by norm_num)
    (by norm_num [ViewGlobals.initial])

theorem scrollAll_append_one (g : ViewGlobals) (events : List (ℚ × ℚ)) (event : ℚ × ℚ) :
    scrollAll g (events ++ [event]) = ScrollCallback (scrollAll g events) event.1 event.2 := by
  simp [scrollAll, List.foldl_append]

theorem scrollAll_ups_from_initial (xOffset yOffset : ℚ) (hup : 0 < yOffset) :
    ∀ n : ℕ, n ≤ 16777211 →
      (scrollAll ViewGlobals.initial (List.replicate n (xOffset, yOffset))).cameraSpeed =
        5 / 2 + (n : ℚ) / 2 := by
  intro n
  induction n with
  | zero =>
    intro _
    norm_num [scrollAll, ViewGlobals.initial]
  | succ n ih =>
    intro hn
    rw [List.replicate_succ', scrollAll_append_one, ScrollCallback_up _ _ _ hup, ih (by omega)]
    have h := binary32_half_steps (n + 6) (by omega)
    have hform : (5 : ℚ) / 2 + (n : ℚ) / 2 + 1 / 2 = ((n + 6 : ℕ) : ℚ) / 2 := by
      push_cast
      ring
    rw [hform, h]
    push_cast
    ring

/-- C9, refuted as stated: 16777211 scroll-up events from the initial speed 2.5 bring
the speed to 8388608, and one more scroll-up event leaves it at 8388608 instead of
adding 0.5: the `float` sum 8388608 + 0.5 rounds back to 8388608. -/
theorem C9_scroll_up_stalls_at_8388608 :
    (scrollAll ViewGlobals.initial (List.replicate 16777211 (0, 1))).cameraSpeed = 8388608 ∧
    (ScrollCallback (scrollAll ViewGlobals.initial (List.replicate 16777211 (0, 1)))
      0 1).cameraSpeed = 8388608 ∧
    (8388608 : ℚ) ≠ 8388608 + 1 / 2 := by
  have hreach : (scrollAll ViewGlobals.initial
      (List.replicate 16777211 (0, 1))).cameraSpeed = 8388608 := by
    rw [scrollAll_ups_from_initial 0 1 (by norm_num) 16777211 (le_refl _)]
    norm_num
  refine ⟨hreach, ?_, by norm_num⟩
  rw [ScrollCallback_up _ _ _ (by norm_num), hreach]
  have h := binary32_stalls_at_8388608
  have hform : (8388608 : ℚ) + 1 / 2 = 8388608 + 0.5 := by norm_num
  rw [hform, h]

/-- C9, amended: a scroll event with positive y-offset sets the speed to the `float`
rounding of the current speed plus 0.5. For every speed that is a multiple of 0.5 below
8388608 this is the current speed plus 0.5 exactly, and from the initial speed 2.5 it is
3.0. The code has no clamp, but at 8388608 the sum rounds back to 8388608; every speed
reached from 2.5 by scroll events is a multiple of 0.5 from 0.5 to 8388608. A scroll
event with y-offset zero leaves the speed unchanged. -/
theorem C9_scroll_up_adds_half_below_8388608 (g : ViewGlobals) (xOffset yOffset : ℚ)
    (k : ℕ) (hup : 0 < yOffset) (hspeed : g.cameraSpeed = (k : ℚ) / 2)
    (hbelow : k < 16777216) :
    (ScrollCallback g xOffset yOffset).cameraSpeed = g.cameraSpeed + 1 / 2 ∧
    (ScrollCallback ViewGlobals.initial xOffset yOffset).cameraSpeed = 3 ∧
    (∀ any : ViewGlobals,
      (ScrollCallback any xOffset yOffset).cameraSpeed = binary32 (any.cameraSpeed + 1 / 2) ∧
      (ScrollCallback any xOffset 0).cameraSpeed = any.cameraSpeed) ∧
    (∀ top : ViewGlobals, top.cameraSpeed = 8388608 →
      (ScrollCallback top xOffset yOffset).cameraSpeed = 8388608) ∧
    (∀ events : List (ℚ × ℚ), ∃ j : ℕ, 1 ≤ j ∧ j ≤ 16777216 ∧
      (scrollAll ViewGlobals.initial events).cameraSpeed = (j : ℚ) / 2) := by
  have hstep : ∀ j : ℕ, j < 16777216 → binary32 ((j : ℚ) / 2 + 1 / 2) = (j : ℚ) / 2 + 1 / 2 := by
    intro j hj
    have h := binary32_half_steps (j + 1) (by omega)
    have hform : (j : ℚ) / 2 + 1 / 2 = ((j + 1 : ℕ) : ℚ) / 2 := by
      push_cast
      ring
    rw [hform]
    exact h
  refine ⟨?_, ?_, ?_, ?_, scrollAll_from_initial⟩
  · rw [ScrollCallback_up g xOffset yOffset hup, hspeed]
    exact hstep k hbelow
  · rw [ScrollCallback_up _ xOffset yOffset hup]
    have h := hstep 5 (by norm_num)
    have hform : ViewGlobals.initial.cameraSpeed + 1 / 2 = ((5 : ℕ) : ℚ) / 2 + 1 / 2 := by
      norm_num [ViewGlobals.initial]
    rw [hform, h]
    norm_num
  · intro any
    exact ⟨ScrollCallback_up any xOffset yOffset hup, by simp [ScrollCallback]⟩
  · intro top htop
    rw [ScrollCallback_up top xOffset yOffset hup, htop]
    have h := binary32_stalls_at_8388608
    have hform : (8388608 : ℚ) + 1 / 2 = 8388608 + 0.5 := by norm_num
    rw [hform, h]

/-- C9 amended, evaluated: a scroll-up event with y-offset 1 from the speed 7.5. -/
theorem C9_scroll_up_adds_half_below_8388608_witness :
    (0 : ℚ) < 1 ∧
    ({ ViewGlobals.initial with cameraSpeed := 7.5 } : ViewGlobals).cameraSpeed =
      ((15 : ℕ) : ℚ) / 2 ∧
    15 < 16777216 ∧
    (ScrollCallback { ViewGlobals.initial with cameraSpeed := 7.5 } 0 1).cameraSpeed =
      ({ ViewGlobals.initial with cameraSpeed := 7.5 } : ViewGlobals).cameraSpeed + 1 / 2 ∧
    (ScrollCallback ViewGlobals.initial 0 1).cameraSpeed = 3 ∧
    (∀ any : ViewGlobals,
      (ScrollCallback any 0 1).cameraSpeed = binary32 (any.cameraSpeed + 1 / 2) ∧
      (ScrollCallback any 0 0).cameraSpeed = any.cameraSpeed) ∧
    (∀ top : ViewGlobals, top.cameraSpeed = 8388608 →
      (ScrollCallback top 0 1).cameraSpeed = 8388608) ∧
    (∀ events : List (ℚ × ℚ), ∃ j : ℕ, 1 ≤ j ∧ j ≤ 16777216 ∧
      (scrollAll ViewGlobals.initial events).cameraSpeed = (j : ℚ) / 2) :=
  ⟨by norm_num, by norm_num, by norm_num,
    C9_scroll_up_adds_half_below_8388608 { ViewGlobals.initial with cameraSpeed := 7.5 } 0 1
      15 (by norm_num) (by norm_num) (by norm_num)⟩

/-- C10, refuted as stated: from the speed 16777216, which is at least 0.5, a
scroll-down event leaves the speed at 16777216, not at max(16777216 - 0.5, 0.5): the
`float` difference 16777216 - 0.5 rounds back to 16777216. -/
theorem C10_scroll_down_stalls_at_16777216 :
    (1 : ℚ) / 2 ≤
      ({ ViewGlobals.initial with cameraSpeed := 16777216 } : ViewGlobals).cameraSpeed ∧
    (ScrollCallback { ViewGlobals.initial with cameraSpeed := 16777216 } 0 (-1)).cameraSpeed =
      16777216 ∧
    (16777216 : ℚ) ≠ max (16777216 - 1 / 2) (1 / 2) := by
  refine ⟨by norm_num, ?_, by norm_num⟩
  rw [ScrollCallback_down _ _ _ (by norm_num)]
  have h := binary32_stalls_at_16777216
  have hform : ({ ViewGlobals.initial with cameraSpeed := 16777216 } : ViewGlobals).cameraSpeed -
      1 / 2 = 16777216 - 0.5 := by norm_num
  rw [hform, h]
  norm_num

/-- C10, amended: for every finite sequence of scroll events applied from a speed of at
least 0.5, and so from the initial speed 2.5, the camera speed after every event of the
sequence is at least 0.5; a scroll-down event sets the speed to the larger of 0.5 and
the `float` rounding of the speed minus 0.5. At every speed reached from 2.5 by scroll
events, a multiple of 0.5 from 0.5 to 8388608, that is `max (speed - 0.5) 0.5`
exactly. -/
theorem C10_scroll_speed_floor_with_rounding (g : ViewGlobals)
    (hfloor : 1 / 2 ≤ g.cameraSpeed) (events : List (ℚ × ℚ)) (xOffset yOffset : ℚ)
    (hdown : yOffset < 0) :
    (∀ n, 1 / 2 ≤ (scrollAll g (events.take n)).cameraSpeed) ∧
    (∀ n, 1 / 2 ≤ (scrollAll ViewGlobals.initial (events.take n)).cameraSpeed) ∧
    (ScrollCallback g xOffset yOffset).cameraSpeed =
      max (binary32 (g.cameraSpeed - 1 / 2)) (1 / 2) ∧
    (∃ j : ℕ, 1 ≤ j ∧ j ≤ 16777216 ∧
      (scrollAll ViewGlobals.initial events).cameraSpeed = (j : ℚ) / 2) ∧
    (ScrollCallback (scrollAll ViewGlobals.initial events) xOffset yOffset).cameraSpeed =
      max ((scrollAll ViewGlobals.initial events).cameraSpeed - 1 / 2) (1 / 2) := by
  refine ⟨fun n => scrollAll_floor _ g hfloor, fun n => scrollAll_floor _ _ ?_,
    ScrollCallback_down g xOffset yOffset hdown, scrollAll_from_initial events, ?_⟩
  · simp only [ViewGlobals.initial]
    norm_num
  · obtain ⟨j, hj1, _, hspeed⟩ := scrollAll_from_initial events
    rw [ScrollCallback_down _ xOffset yOffset hdown, hspeed]
    obtain ⟨i, rfl⟩ : ∃ i : ℕ, j = i + 1 := ⟨j - 1, by omega⟩
    have h := binary32_half_steps i (by omega)
    have hform : ((i + 1 : ℕ) : ℚ) / 2 - 1 / 2 = (i : ℚ) / 2 := by
      push_cast
      ring
    rw [hform, h]

/-- C10 amended, evaluated: five scroll-down events, a scroll-up, an event with y-offset
zero and two more scroll-downs, from the speed 0.75 and from the initial speed 2.5. -/
theorem C10_scroll_speed_floor_with_rounding_witness :
    (1 : ℚ) / 2 ≤ ({ ViewGlobals.initial with cameraSpeed := 0.75 } : ViewGlobals).cameraSpeed ∧
    (-1 : ℚ) < 0 ∧
    (∀ n, 1 / 2 ≤ (scrollAll { ViewGlobals.initial with cameraSpeed := 0.75 }
      (([(0, -1), (0, -1), (0, -1), (0, -1), (0, -1), (0, 1), (0, 0), (0, -3), (0, -1)] :
        List (ℚ × ℚ)).take n)).cameraSpeed) ∧
    (∀ n, 1 / 2 ≤ (scrollAll ViewGlobals.initial
      (([(0, -1), (0, -1), (0, -1), (0, -1), (0, -1), (0, 1), (0, 0), (0, -3), (0, -1)] :
        List (ℚ × ℚ)).take n)).cameraSpeed) ∧
    (ScrollCallback { ViewGlobals.initial with cameraSpeed := 0.75 } 0 (-1)).cameraSpeed =
      max (binary32
        (({ ViewGlobals.initial with cameraSpeed := 0.75 } : ViewGlobals).cameraSpeed - 1 / 2))
        (1 / 2) ∧
    (∃ j : ℕ, 1 ≤ j ∧ j ≤ 16777216 ∧
      (scrollAll ViewGlobals.initial
        [(0, -1), (0, -1), (0, -1), (0, -1), (0, -1), (0, 1), (0, 0), (0, -3),
          (0, -1)]).cameraSpeed = (j : ℚ) / 2) ∧
    (ScrollCallback (scrollAll ViewGlobals.initial
        [(0, -1), (0, -1), (0, -1), (0, -1), (0, -1), (0, 1), (0, 0), (0, -3), (0, -1)])
        0 (-1)).cameraSpeed =
      max ((scrollAll ViewGlobals.initial
        [(0, -1), (0, -1), (0, -1), (0, -1), (0, -1), (0, 1), (0, 0), (0, -3),
          (0, -1)]).cameraSpeed - 1 / 2) (1 / 2) :=
  ⟨by norm_num, by norm_num,
    C10_scroll_speed_floor_with_rounding { ViewGlobals.initial with cameraSpeed := 0.75 }
      (by norm_num)
      [(0, -1), (0, -1), (0, -1), (0, -1), (0, -1), (0, 1), (0, 0), (0, -3), (0, -1)]
      0 (-1) (by norm_num)⟩


theorem RenderScene_exec_emitted {M : Type} (glm : GLM M) (w : World M) (sh : ShaderManager)
    (hsh : w.scene.m_pShaderManager = some sh) (hcap : w.scene.m_loadedTextures ≤ 16)
    (locals : RenderScene.Locals) (statement : RenderScene.Statement) :
    RenderScene.exec glm w locals statement =
      some (⟨w.scene, { w.gl with
          commands := w.gl.commands ++ RenderScene.emitted glm w.scene locals statement }⟩,
        RenderScene.assigned locals statement) := by
  cases statement with
  | SetShaderTexture textureTag =>
    obtain ⟨r, hr, _⟩ := SceneManager.FindTextureSlot_spec w.scene textureTag hcap
    simp [RenderScene.exec, RenderScene.emitted, RenderScene.assigned, SetShaderTexture, hsh, hr,
      ShaderManager.setIntValue, ShaderManager.setSampler2DValue, GLContext.push]
  | _ =>
    simp [RenderScene.exec, RenderScene.emitted, RenderScene.assigned, SetTransformations,
      SetShaderColor, SetTextureUVScale, m_pShaderManager_setBoolValue,
      m_pShaderManager_setVec3Value, m_pShaderManager_setFloatValue, hsh,
      ShaderManager.setMat4Value, ShaderManager.setIntValue, ShaderManager.setVec4Value,
      ShaderManager.setVec2Value, ShaderManager.setVec3Value, ShaderManager.setBoolValue,
      ShaderManager.setFloatValue, ShapeMeshes.DrawPlaneMesh, ShapeMeshes.DrawBoxMesh,
      ShapeMeshes.DrawCylinderMesh, ShapeMeshes.DrawSphereMesh, ShapeMeshes.DrawConeMesh,
      ShapeMeshes.DrawTaperedCylinderMesh, GLContext.push]

theorem RenderScene_run_stream {M : Type} (glm : GLM M) (statements : List RenderScene.Statement) :
    ∀ (w : World M) (sh : ShaderManager) (locals : RenderScene.Locals),
      w.scene.m_pShaderManager = some sh → w.scene.m_loadedTextures ≤ 16 →
      ∃ last, RenderScene.run glm statements w locals =
        some (⟨w.scene, { w.gl with
          commands := w.gl.commands ++ RenderScene.stream glm w.scene locals statements }⟩,
          last) := by
  induction statements with
  | nil =>
    intro w sh locals _ _
    exact ⟨locals, by simp [RenderScene.run, RenderScene.stream]⟩
  | cons statement rest ih =>
    intro w sh locals hsh hcap
    obtain ⟨last, hlast⟩ := ih
      ⟨w.scene, { w.gl with
        commands := w.gl.commands ++ RenderScene.emitted glm w.scene locals statement }⟩
      sh (RenderScene.assigned locals statement) hsh hcap
    refine ⟨last, ?_⟩
    rw [RenderScene.run, RenderScene_exec_emitted glm w sh hsh hcap]
    simp only [hlast, RenderScene.stream, List.append_assoc]

theorem RenderScene_stream {M : Type} (glm : GLM M) (w : World M) (sh : ShaderManager)
    (hsh : w.scene.m_pShaderManager = some sh) (hcap : w.scene.m_loadedTextures ≤ 16) :
    RenderScene glm w =
      some ⟨w.scene, { w.gl with
        commands := w.gl.commands ++
          RenderScene.stream glm w.scene RenderScene.entry RenderScene.body }⟩ := by
  obtain ⟨last, hlast⟩ :=
    RenderScene_run_stream glm RenderScene.body w sh RenderScene.entry hsh hcap
  simp [RenderScene, hlast]

theorem RenderScene_stream_drawCalls {M : Type} (glm : GLM M) (self : SceneManager) :
    drawCalls (RenderScene.stream glm self RenderScene.entry RenderScene.body) =
      [Mesh.plane, Mesh.plane, Mesh.box, Mesh.box,
       Mesh.cylinder, Mesh.cylinder, Mesh.cylinder, Mesh.cylinder, Mesh.cylinder,
       Mesh.cylinder, Mesh.cylinder,
       Mesh.sphere, Mesh.cylinder, Mesh.cylinder, Mesh.cylinder, Mesh.sphere,
       Mesh.cylinder, Mesh.cylinder, Mesh.taperedCylinder,
       Mesh.box, Mesh.cylinder, Mesh.taperedCylinder, Mesh.cone, Mesh.cylinder] := by
  rfl


theorem loadSucceeds_iff (stbi_load : String → Option Image) (filename : String) :
    loadSucceeds stbi_load filename = true ↔
      ∃ image, stbi_load filename = some image ∧
        (image.colorChannels = 3 ∨ image.colorChannels = 4) := by
  unfold loadSucceeds
  cases h : stbi_load filename with
  | none => simp
  | some image => simp

theorem CreateGLTexture_step {M : Type} (stbi_load : String → Option Image) (w : World M)
    (filename tag : String) (h0 : 0 ≤ w.scene.m_loadedTextures)
    (h16 : w.scene.m_loadedTextures < 16) :
    ∃ w', CreateGLTexture stbi_load w filename tag =
        some (loadSucceeds stbi_load filename, w') ∧
      w'.gl.commands = w.gl.commands ∧
      w'.scene.m_pShaderManager = w.scene.m_pShaderManager ∧
      (loadSucceeds stbi_load filename = false → w'.scene = w.scene) ∧
      (loadSucceeds stbi_load filename = true →
        w'.scene.m_loadedTextures = w.scene.m_loadedTextures + 1 ∧
        ∀ i : Fin 16, w'.scene.m_textureIDs i =
          if (i.val : Int) = w.scene.m_loadedTextures then
            { tag := tag, ID := w.gl.glGenTextures.1 }
          else w.scene.m_textureIDs i) := by
  have hin : 0 ≤ w.scene.m_loadedTextures ∧ w.scene.m_loadedTextures < 16 := ⟨h0, h16⟩
  cases hload : stbi_load filename with
  | none =>
    refine ⟨w, ?_, rfl, rfl, fun _ => rfl, ?_⟩
    · simp [CreateGLTexture, loadSucceeds, hload]
    · intro h
      simp [loadSucceeds, hload] at h
  | some image =>
    let registered : World M :=
      ⟨{ w.scene with
          m_textureIDs := fun i =>
            if (i.val : Int) = w.scene.m_loadedTextures then
              { tag := tag, ID := w.gl.glGenTextures.1 }
            else w.scene.m_textureIDs i
          m_loadedTextures := w.scene.m_loadedTextures + 1 },
        (w.gl.glGenTextures.2.glBindTexture w.gl.glGenTextures.1).glBindTexture 0⟩
    by_cases h3 : image.colorChannels = 3
    · refine ⟨registered, ?_, rfl, rfl, ?_, fun _ => ⟨rfl, fun _ => rfl⟩⟩
      · simp only [CreateGLTexture, hload, h3, if_true, SceneManager.setTextureAt?, if_pos hin,
          loadSucceeds]
        rfl
      · intro h
        simp [loadSucceeds, hload, h3] at h
    · by_cases h4 : image.colorChannels = 4
      · refine ⟨registered, ?_, rfl, rfl, ?_, fun _ => ⟨rfl, fun _ => rfl⟩⟩
        · simp only [CreateGLTexture, hload, h3, h4, if_true, if_false,
            SceneManager.setTextureAt?, if_pos hin, loadSucceeds]
          rfl
        · intro h
          simp [loadSucceeds, hload, h4] at h
      · refine ⟨{ w with gl := w.gl.glGenTextures.2.glBindTexture w.gl.glGenTextures.1 },
          ?_, rfl, rfl, fun _ => rfl, ?_⟩
        · simp only [CreateGLTexture, hload, h3, h4, if_false, loadSucceeds]
          rfl
        · intro h
          simp [loadSucceeds, hload, h3, h4] at h

theorem loadedTags_cons (stbi_load : String → Option Image) (file : String × String)
    (rest : List (String × String)) :
    loadedTags stbi_load (file :: rest) =
      if loadSucceeds stbi_load file.1 = true then file.2 :: loadedTags stbi_load rest
      else loadedTags stbi_load rest := by
  unfold loadedTags
  by_cases h : loadSucceeds stbi_load file.1 = true
  · simp [List.filter_cons, h]
  · simp [List.filter_cons, h]

theorem loadedTags_length_le (stbi_load : String → Option Image)
    (files : List (String × String)) :
    (loadedTags stbi_load files).length ≤ files.length := by
  unfold loadedTags
  rw [List.length_map]
  exact List.length_filter_le _ _


theorem loadEach_spec {M : Type} (stbi_load : String → Option Image)
    (files : List (String × String)) :
    ∀ w : World M, 0 ≤ w.scene.m_loadedTextures →
      w.scene.m_loadedTextures + (files.length : Int) ≤ 16 →
      ∃ w', loadEach stbi_load files w = some w' ∧
        w'.gl.commands = w.gl.commands ∧
        w'.scene.m_pShaderManager = w.scene.m_pShaderManager ∧
        w'.scene.m_loadedTextures =
          w.scene.m_loadedTextures + ((loadedTags stbi_load files).length : Int) ∧
        (∀ i : Fin 16, (i.val : Int) < w.scene.m_loadedTextures →
          w'.scene.m_textureIDs i = w.scene.m_textureIDs i) ∧
        (∀ i : Fin 16,
          w.scene.m_loadedTextures + ((loadedTags stbi_load files).length : Int) ≤ (i.val : Int) →
          w'.scene.m_textureIDs i = w.scene.m_textureIDs i) ∧
        (∀ (k : Nat) (hk : k < (loadedTags stbi_load files).length) (i : Fin 16),
          (i.val : Int) = w.scene.m_loadedTextures + (k : Int) →
          (w'.scene.m_textureIDs i).tag = (loadedTags stbi_load files)[k]) := by
  induction files with
  | nil =>
    intro w _ _
    refine ⟨w, rfl, rfl, rfl, ?_, fun _ _ => rfl, fun _ _ => rfl, ?_⟩
    · simp [loadedTags]
    · intro k hk
      simp [loadedTags] at hk
  | cons file rest ih =>
    intro w h0 hlen
    have hlen' : w.scene.m_loadedTextures + ((rest.length : Nat) : Int) + 1 ≤ 16 := by
      simp only [List.length_cons] at hlen
      push_cast at hlen
      omega
    obtain ⟨w1, hstep, hcmd1, hsh1, hfail, hok⟩ :=
      CreateGLTexture_step stbi_load w file.1 file.2 h0 (by omega)
    have hrest := loadedTags_length_le stbi_load rest
    by_cases hs : loadSucceeds stbi_load file.1 = true
    · obtain ⟨hcount1, hids1⟩ := hok hs
      obtain ⟨w', hrun, hcmd, hsh, hcount, hbelow, habove, htags⟩ :=
        ih w1 (by omega) (by omega)
      have htagsEq : loadedTags stbi_load (file :: rest) =
          file.2 :: loadedTags stbi_load rest := by
        rw [loadedTags_cons, if_pos hs]
      refine ⟨w', ?_, ?_, ?_, ?_, ?_, ?_, ?_⟩
      · simp [loadEach, hstep, hrun]
      · rw [hcmd, hcmd1]
      · rw [hsh, hsh1]
      · rw [hcount, hcount1, htagsEq]
        simp only [List.length_cons]
        push_cast
        omega
      · intro i hi
        rw [hbelow i (by omega), hids1 i, if_neg (by omega)]
      · intro i hi
        rw [htagsEq] at hi
        simp only [List.length_cons] at hi
        push_cast at hi
        rw [habove i (by omega), hids1 i, if_neg (by omega)]
      · intro k hk i hik
        simp only [htagsEq]
        cases k with
        | zero =>
          simp only [List.getElem_cons_zero]
          rw [hbelow i (by omega), hids1 i, if_pos (by simpa using hik)]
        | succ k =>
          simp only [List.getElem_cons_succ]
          have hk' : k < (loadedTags stbi_load rest).length := by
            rw [htagsEq] at hk
            simpa using hk
          exact htags k hk' i (by push_cast at hik; omega)
    · have hs' : loadSucceeds stbi_load file.1 = false := by
        simpa using hs
      have hscene : w1.scene = w.scene := hfail hs'
      obtain ⟨w', hrun, hcmd, hsh, hcount, hbelow, habove, htags⟩ :=
        ih w1 (by rw [hscene]; exact h0) (by rw [hscene]; omega)
      have htagsEq : loadedTags stbi_load (file :: rest) = loadedTags stbi_load rest := by
        rw [loadedTags_cons, if_neg hs]
      rw [hscene] at hcount hbelow habove htags hsh
      refine ⟨w', ?_, ?_, hsh, ?_, hbelow, ?_, ?_⟩
      · simp [loadEach, hstep, hrun]
      · rw [hcmd, hcmd1]
      · rw [hcount, htagsEq]
      · rw [htagsEq]
        exact habove
      · simp only [htagsEq]
        exact htags

theorem LoadSceneTextures_eq_loadEach {M : Type} (stbi_load : String → Option Image)
    (w : World M) :
    LoadSceneTextures stbi_load w =
      (loadEach stbi_load sceneTextureFiles w).bind BindGLTextures := by
  have hcons : ∀ (file : String × String) (rest : List (String × String)) (w : World M),
      loadEach stbi_load (file :: rest) w =
        (CreateGLTexture stbi_load w file.1 file.2).bind fun r =>
          loadEach stbi_load rest r.2 := by
    intro file rest w
    cases h : CreateGLTexture stbi_load w file.1 file.2 <;> simp [loadEach, h]
  have hnil : ∀ w : World M, loadEach stbi_load [] w = some w := fun _ => rfl
  simp only [LoadSceneTextures, sceneTextureFiles, hcons, hnil, Option.bind_assoc,
    Option.some_bind]


theorem LoadSceneTextures_spec {M : Type} (stbi_load : String → Option Image) (w : World M)
    (hempty : w.scene.m_loadedTextures = 0) :
    ∃ w', LoadSceneTextures stbi_load w = some w' ∧
      w'.gl.commands = w.gl.commands ∧
      w'.scene.m_pShaderManager = w.scene.m_pShaderManager ∧
      w'.scene.m_loadedTextures =
        ((loadedTags stbi_load sceneTextureFiles).length : Int) ∧
      (∀ i : Fin 16, (loadedTags stbi_load sceneTextureFiles).length ≤ i.val →
        w'.scene.m_textureIDs i = w.scene.m_textureIDs i) ∧
      (∀ (k : Nat) (hk : k < (loadedTags stbi_load sceneTextureFiles).length) (i : Fin 16),
        i.val = k →
        (w'.scene.m_textureIDs i).tag = (loadedTags stbi_load sceneTextureFiles)[k]) := by
  have hlen : sceneTextureFiles.length = 8 := rfl
  have hle := loadedTags_length_le stbi_load sceneTextureFiles
  obtain ⟨w1, hrun, hcmd, hsh, hcount, _, habove, htags⟩ :=
    loadEach_spec stbi_load sceneTextureFiles w (by omega) (by rw [hempty, hlen]; norm_num)
  rw [hempty, zero_add] at hcount
  obtain ⟨w2, hbind, hscene, _⟩ :
      ∃ w2, BindGLTextures w1 = some w2 ∧ w2.scene = w1.scene ∧
        w2.gl.commands = w1.gl.commands := by
    obtain ⟨gl', hloop, hcmds, _, _⟩ :=
      BindGLTextures_loop_spec w1.scene (by omega) (w1.scene.m_loadedTextures.toNat + 1) 0 w1.gl
        (by simp)
    have hloop' : BindGLTextures.loop w1.scene (w1.scene.m_loadedTextures.toNat + 1) 0 w1.gl =
        some gl' := hloop
    exact ⟨{ w1 with gl := gl' }, by simp [BindGLTextures, hloop'], rfl, hcmds⟩
  refine ⟨w2, ?_, ?_, ?_, ?_, ?_, ?_⟩
  · rw [LoadSceneTextures_eq_loadEach, hrun]
    exact hbind
  · obtain ⟨gl', hloop, hcmds, _, _⟩ :=
      BindGLTextures_loop_spec w1.scene (by omega) (w1.scene.m_loadedTextures.toNat + 1) 0 w1.gl
        (by simp)
    have hloop' : BindGLTextures.loop w1.scene (w1.scene.m_loadedTextures.toNat + 1) 0 w1.gl =
        some gl' := hloop
    have hw2 : w2 = { w1 with gl := gl' } := by
      have h := hbind
      simp [BindGLTextures, hloop'] at h
      exact h.symm
    rw [hw2]
    show gl'.commands = w.gl.commands
    rw [hcmds, hcmd]
  · rw [hscene, hsh]
  · rw [hscene, hcount]
  · intro i hi
    rw [hscene]
    exact habove i (by rw [hempty]; omega)
  · intro k hk i hik
    rw [hscene]
    exact htags k hk i (by rw [hempty]; omega)

theorem sceneTextureFiles_tags_nodup : (sceneTextureFiles.map fun file => file.2).Nodup := by
  decide

theorem loadedTags_nodup (stbi_load : String → Option Image) :
    (loadedTags stbi_load sceneTextureFiles).Nodup := by
  unfold loadedTags
  exact List.Nodup.sublist ((List.filter_sublist _).map _) sceneTextureFiles_tags_nodup

theorem loadedTags_not_mem_of_fails (stbi_load : String → Option Image)
    (file : String × String) (hmem : file ∈ sceneTextureFiles)
    (hfail : loadSucceeds stbi_load file.1 = false) :
    file.2 ∉ loadedTags stbi_load sceneTextureFiles := by
  intro hin
  unfold loadedTags at hin
  obtain ⟨other, hother, htag⟩ := List.mem_map.mp hin
  obtain ⟨hothermem, hsucc⟩ := List.mem_filter.mp hother
  have heq : other = file :=
    List.inj_on_of_nodup_map sceneTextureFiles_tags_nodup hothermem hmem htag
  rw [heq] at hsucc
  rw [hfail] at hsucc
  exact absurd hsucc (by decide)

theorem FindTextureSlot_of_tags (self : SceneManager) (tags : List String)
    (hnodup : tags.Nodup) (hlen : tags.length ≤ 16)
    (hcount : self.m_loadedTextures = (tags.length : Int))
    (htags : ∀ (k : Nat) (hk : k < tags.length) (i : Fin 16), i.val = k →
      (self.m_textureIDs i).tag = tags[k]) :
    (∀ (k : Nat) (hk : k < tags.length), self.FindTextureSlot tags[k] = some (k : Int)) ∧
    (∀ tag, tag ∉ tags → self.FindTextureSlot tag = some (-1)) := by
  have hhas : ∀ (tag : String) (i : Fin 16), self.hasTagAt tag i →
      ∃ hk : i.val < tags.length, tags[i.val] = tag := by
    intro tag i hi
    have hk : i.val < tags.length := by
      have := hi.1
      omega
    exact ⟨hk, by rw [← htags i.val hk i rfl]; exact hi.2⟩
  constructor
  · intro k hk
    obtain ⟨r, hr, hleast, _⟩ :=
      SceneManager.FindTextureSlot_spec self tags[k] (by omega)
    have hk16 : k < 16 := by omega
    have hthere : self.hasTagAt tags[k] ⟨k, hk16⟩ :=
      ⟨by show ((k : Nat) : Int) < self.m_loadedTextures; omega, htags k hk ⟨k, hk16⟩ rfl⟩
    obtain ⟨i, hri, hi, _⟩ := hleast ⟨_, hthere⟩
    obtain ⟨hik, htag⟩ := hhas _ i hi
    have : i.val = k := (List.Nodup.getElem_inj_iff hnodup).mp htag
    rw [hr, hri, this]
  · intro tag hnot
    obtain ⟨r, hr, _, hsentinel⟩ := SceneManager.FindTextureSlot_spec self tag (by omega)
    have hnone : ¬ ∃ i, self.hasTagAt tag i := by
      rintro ⟨i, hi⟩
      obtain ⟨hik, htag⟩ := hhas _ i hi
      exact hnot (htag ▸ List.getElem_mem _)
    rw [hr, hsentinel.mpr hnone]

/-- C17: for every decoder, `LoadSceneTextures` is the eight `CreateGLTexture` calls of
the hard-coded list in order, each made whatever the earlier ones returned, followed by
`BindGLTextures`; starting from an empty registry it returns, and the registry then holds
exactly the tags of the successful loads in list order, so each of them resolves to its
position among the successful loads and the tag of a failed load resolves to -1. -/
theorem C17_LoadSceneTextures_keeps_successful_loads {M : Type}
    (stbi_load : String → Option Image) (w : World M)
    (hempty : w.scene.m_loadedTextures = 0) :
    LoadSceneTextures stbi_load w =
      (loadEach stbi_load sceneTextureFiles w).bind BindGLTextures ∧
    ∃ w', LoadSceneTextures stbi_load w = some w' ∧
      w'.scene.m_loadedTextures =
        ((loadedTags stbi_load sceneTextureFiles).length : Int) ∧
      (∀ (k : Nat) (hk : k < (loadedTags stbi_load sceneTextureFiles).length) (i : Fin 16),
        i.val = k →
        (w'.scene.m_textureIDs i).tag = (loadedTags stbi_load sceneTextureFiles)[k]) ∧
      (∀ (k : Nat) (hk : k < (loadedTags stbi_load sceneTextureFiles).length),
        w'.scene.FindTextureSlot (loadedTags stbi_load sceneTextureFiles)[k] =
          some (k : Int)) ∧
      (∀ file ∈ sceneTextureFiles, loadSucceeds stbi_load file.1 = false →
        w'.scene.FindTextureSlot file.2 = some (-1)) := by
  refine ⟨LoadSceneTextures_eq_loadEach stbi_load w, ?_⟩
  obtain ⟨w', hrun, _, _, hcount, _, htags⟩ := LoadSceneTextures_spec stbi_load w hempty
  have hle := loadedTags_length_le stbi_load sceneTextureFiles
  have hlen : sceneTextureFiles.length = 8 := rfl
  obtain ⟨hfound, hmissing⟩ :=
    FindTextureSlot_of_tags w'.scene (loadedTags stbi_load sceneTextureFiles)
      (loadedTags_nodup stbi_load) (by omega) hcount htags
  exact ⟨w', hrun, hcount, htags, hfound,
    fun file hmem hfail => hmissing _ (loadedTags_not_mem_of_fails stbi_load file hmem hfail)⟩


theorem RenderScene_stream_samplerUploads {M : Type} (glm : GLM M) (self : SceneManager) :
    samplerUploads (RenderScene.stream glm self RenderScene.entry RenderScene.body) =
      [(self.FindTextureSlot "quartz").getD (-1), (self.FindTextureSlot "quartz").getD (-1),
       (self.FindTextureSlot "deskRim").getD (-1), (self.FindTextureSlot "deskTop").getD (-1),
       (self.FindTextureSlot "deskRod").getD (-1), (self.FindTextureSlot "deskRod").getD (-1),
       (self.FindTextureSlot "deskRod").getD (-1), (self.FindTextureSlot "deskRod").getD (-1),
       (self.FindTextureSlot "deskRod").getD (-1), (self.FindTextureSlot "deskRod").getD (-1),
       (self.FindTextureSlot "copper").getD (-1), (self.FindTextureSlot "copper").getD (-1),
       (self.FindTextureSlot "copper").getD (-1), (self.FindTextureSlot "copper").getD (-1),
       (self.FindTextureSlot "copper").getD (-1), (self.FindTextureSlot "copper").getD (-1),
       (self.FindTextureSlot "copper").getD (-1), (self.FindTextureSlot "copper").getD (-1),
       (self.FindTextureSlot "copper").getD (-1), (self.FindTextureSlot "erase").getD (-1)] := by
  rfl

theorem RenderScene_stream_diffuseColor {M : Type} (glm : GLM M) (self : SceneManager)
    (before : Option (UniformValue M)) :
    uniformAtDraws "material.diffuseColor" before
        (RenderScene.stream glm self RenderScene.entry RenderScene.body) =
      List.replicate 2 (some (UniformValue.vec3 ⟨1.0, 1.0, 1.0⟩)) ++
      List.replicate 2 (some (UniformValue.vec3 ⟨0.65, 0.16, 0.16⟩)) ++
      List.replicate 15 (some (UniformValue.vec3 ⟨1.0, 1.0, 1.0⟩)) ++
      List.replicate 5 (some (UniformValue.vec3 ⟨0.65, 0.16, 0.16⟩)) := by
  rfl

theorem RenderScene_stream_specularColor {M : Type} (glm : GLM M) (self : SceneManager)
    (before : Option (UniformValue M)) :
    uniformAtDraws "material.specularColor" before
        (RenderScene.stream glm self RenderScene.entry RenderScene.body) =
      List.replicate 2 (some (UniformValue.vec3 ⟨1.0, 1.0, 1.0⟩)) ++
      List.replicate 2 (some (UniformValue.vec3 ⟨0.2, 0.2, 0.2⟩)) ++
      List.replicate 15 (some (UniformValue.vec3 ⟨1.0, 1.0, 1.0⟩)) ++
      List.replicate 5 (some (UniformValue.vec3 ⟨0.2, 0.2, 0.2⟩)) := by
  rfl

theorem RenderScene_stream_shininess {M : Type} (glm : GLM M) (self : SceneManager)
    (before : Option (UniformValue M)) :
    uniformAtDraws "material.shininess" before
        (RenderScene.stream glm self RenderScene.entry RenderScene.body) =
      List.replicate 2 (some (UniformValue.float 128.0)) ++
      List.replicate 2 (some (UniformValue.float 16.0)) ++
      List.replicate 15 (some (UniformValue.float 128.0)) ++
      List.replicate 5 (some (UniformValue.float 16.0)) := by
  rfl


/-- C17, evaluated: when `textures/deskRod.jpg` cannot be decoded and
`textures/copper.jpg` has one channel, the registry ends with the six other tags in list
order, `quartz` moves from slot 3 to slot 2, and `deskRod` and `copper` resolve to -1. -/
theorem C17_LoadSceneTextures_keeps_successful_loads_witness :
    SceneManager.emptyRegistry.m_loadedTextures = 0 ∧
    loadedTags twoFilesFail sceneTextureFiles =
      ["deskTop", "deskRim", "quartz", "pencil", "erase", "grain"] ∧
    (LoadSceneTextures twoFilesFail ⟨SceneManager.emptyRegistry, GLContext.fresh⟩).map
        (fun w => (w.scene.m_loadedTextures, w.scene.FindTextureSlot "quartz",
          w.scene.FindTextureSlot "deskRod", w.scene.FindTextureSlot "copper")) =
      some (6, some 2, some (-1), some (-1)) ∧
    ∃ w', LoadSceneTextures twoFilesFail ⟨SceneManager.emptyRegistry, GLContext.fresh⟩ =
        some w' ∧
      w'.scene.m_loadedTextures = ((loadedTags twoFilesFail sceneTextureFiles).length : Int) ∧
      (∀ (k : Nat) (hk : k < (loadedTags twoFilesFail sceneTextureFiles).length) (i : Fin 16),
        i.val = k →
        (w'.scene.m_textureIDs i).tag = (loadedTags twoFilesFail sceneTextureFiles)[k]) ∧
      (∀ (k : Nat) (hk : k < (loadedTags twoFilesFail sceneTextureFiles).length),
        w'.scene.FindTextureSlot (loadedTags twoFilesFail sceneTextureFiles)[k] =
          some (k : Int)) ∧
      (∀ file ∈ sceneTextureFiles, loadSucceeds twoFilesFail file.1 = false →
        w'.scene.FindTextureSlot file.2 = some (-1)) :=
  ⟨rfl, by decide, by decide,
    (C17_LoadSceneTextures_keeps_successful_loads twoFilesFail
      ⟨SceneManager.emptyRegistry, GLContext.fresh⟩ rfl).2⟩

/-- C16: for every two invocations of `RenderScene` with a shader manager present and a
registry within the 16-slot capacity, whatever the registry, the material list, the
lights and the commands issued before, both invocations return and the draw calls each
one issues are the same 24 calls: plane, plane, box, box, cylinder x7, sphere,
cylinder x3, sphere, cylinder x2, tapered cylinder, box, cylinder, tapered cylinder,
cone, cylinder. -/
theorem C16_RenderScene_draw_sequence {M : Type} (glm : GLM M) (w₁ w₂ : World M)
    (sh₁ sh₂ : ShaderManager)
    (hsh₁ : w₁.scene.m_pShaderManager = some sh₁) (hcap₁ : w₁.scene.m_loadedTextures ≤ 16)
    (hsh₂ : w₂.scene.m_pShaderManager = some sh₂) (hcap₂ : w₂.scene.m_loadedTextures ≤ 16) :
    ∃ after₁ after₂ issued₁ issued₂,
      RenderScene glm w₁ = some after₁ ∧ after₁.gl.commands = w₁.gl.commands ++ issued₁ ∧
      RenderScene glm w₂ = some after₂ ∧ after₂.gl.commands = w₂.gl.commands ++ issued₂ ∧
      drawCalls issued₁ = drawCalls issued₂ ∧
      (drawCalls issued₁).length = 24 ∧
      drawCalls issued₁ =
        [Mesh.plane, Mesh.plane, Mesh.box, Mesh.box,
         Mesh.cylinder, Mesh.cylinder, Mesh.cylinder, Mesh.cylinder, Mesh.cylinder,
         Mesh.cylinder, Mesh.cylinder,
         Mesh.sphere, Mesh.cylinder, Mesh.cylinder, Mesh.cylinder, Mesh.sphere,
         Mesh.cylinder, Mesh.cylinder, Mesh.taperedCylinder,
         Mesh.box, Mesh.cylinder, Mesh.taperedCylinder, Mesh.cone, Mesh.cylinder] := by
  refine ⟨_, _, RenderScene.stream glm w₁.scene RenderScene.entry RenderScene.body,
    RenderScene.stream glm w₂.scene RenderScene.entry RenderScene.body,
    RenderScene_stream glm w₁ sh₁ hsh₁ hcap₁, rfl,
    RenderScene_stream glm w₂ sh₂ hsh₂ hcap₂, rfl, ?_, ?_, ?_⟩
  · rw [RenderScene_stream_drawCalls, RenderScene_stream_drawCalls]
  · rw [RenderScene_stream_drawCalls]
    rfl
  · exact RenderScene_stream_drawCalls glm w₁.scene

/-- C16, evaluated on a scene manager with three textures and no material and on one
with a material and no texture. -/
theorem C16_RenderScene_draw_sequence_witness :
    SceneManager.duplicateRegistry.m_pShaderManager = some { m_programID := 1 } ∧
    SceneManager.duplicateRegistry.m_loadedTextures ≤ 16 ∧
    SceneManager.woodMaterials.m_pShaderManager = some { m_programID := 1 } ∧
    SceneManager.woodMaterials.m_loadedTextures ≤ 16 ∧
    ∃ after₁ after₂ issued₁ issued₂,
      RenderScene GLM.symbolic ⟨SceneManager.duplicateRegistry, GLContext.fresh⟩ = some after₁ ∧
      after₁.gl.commands = GLContext.fresh.commands ++ issued₁ ∧
      RenderScene GLM.symbolic ⟨SceneManager.woodMaterials, GLContext.fresh⟩ = some after₂ ∧
      after₂.gl.commands = GLContext.fresh.commands ++ issued₂ ∧
      drawCalls issued₁ = drawCalls issued₂ ∧
      (drawCalls issued₁).length = 24 ∧
      drawCalls issued₁ =
        [Mesh.plane, Mesh.plane, Mesh.box, Mesh.box,
         Mesh.cylinder, Mesh.cylinder, Mesh.cylinder, Mesh.cylinder, Mesh.cylinder,
         Mesh.cylinder, Mesh.cylinder,
         Mesh.sphere, Mesh.cylinder, Mesh.cylinder, Mesh.cylinder, Mesh.sphere,
         Mesh.cylinder, Mesh.cylinder, Mesh.taperedCylinder,
         Mesh.box, Mesh.cylinder, Mesh.taperedCylinder, Mesh.cone, Mesh.cylinder] :=
  ⟨rfl, by decide, rfl, by decide,
    C16_RenderScene_draw_sequence GLM.symbolic
      ⟨SceneManager.duplicateRegistry, GLContext.fresh⟩
      ⟨SceneManager.woodMaterials, GLContext.fresh⟩
      { m_programID := 1 } { m_programID := 1 } rfl (by decide) rfl (by decide)⟩

/-- C18: in every `RenderScene` invocation with a shader manager present and a registry
within the 16-slot capacity, whatever the material uniforms held before, the material
in effect at the 24 draw calls is the shiny preset (diffuse (1,1,1), specular (1,1,1),
shininess 128) at draws 1-2 and 5-19 and the non-reflective preset (diffuse
(0.65,0.16,0.16), specular (0.2,0.2,0.2), shininess 16) at draws 3-4 and 20-24; the
value held before the invocation is in effect at no draw, so the first draw comes after
a material upload of the same invocation. -/
theorem C18_RenderScene_material_at_draws {M : Type} (glm : GLM M) (w : World M)
    (sh : ShaderManager) (hsh : w.scene.m_pShaderManager = some sh)
    (hcap : w.scene.m_loadedTextures ≤ 16) :
    ∃ after issued, RenderScene glm w = some after ∧
      after.gl.commands = w.gl.commands ++ issued ∧
      uniformAtDraws "material.diffuseColor" (w.gl.uniformValue "material.diffuseColor")
          issued =
        List.replicate 2 (some (UniformValue.vec3 ⟨1, 1, 1⟩)) ++
        List.replicate 2 (some (UniformValue.vec3 ⟨0.65, 0.16, 0.16⟩)) ++
        List.replicate 15 (some (UniformValue.vec3 ⟨1, 1, 1⟩)) ++
        List.replicate 5 (some (UniformValue.vec3 ⟨0.65, 0.16, 0.16⟩)) ∧
      uniformAtDraws "material.specularColor" (w.gl.uniformValue "material.specularColor")
          issued =
        List.replicate 2 (some (UniformValue.vec3 ⟨1, 1, 1⟩)) ++
        List.replicate 2 (some (UniformValue.vec3 ⟨0.2, 0.2, 0.2⟩)) ++
        List.replicate 15 (some (UniformValue.vec3 ⟨1, 1, 1⟩)) ++
        List.replicate 5 (some (UniformValue.vec3 ⟨0.2, 0.2, 0.2⟩)) ∧
      uniformAtDraws "material.shininess" (w.gl.uniformValue "material.shininess") issued =
        List.replicate 2 (some (UniformValue.float 128)) ++
        List.replicate 2 (some (UniformValue.float 16)) ++
        List.replicate 15 (some (UniformValue.float 128)) ++
        List.replicate 5 (some (UniformValue.float 16)) := by
  have h1 : (1.0 : ℚ) = 1 := by norm_num
  have h128 : (128.0 : ℚ) = 128 := by norm_num
  have h16 : (16.0 : ℚ) = 16 := by norm_num
  refine ⟨_, RenderScene.stream glm w.scene RenderScene.entry RenderScene.body,
    RenderScene_stream glm w sh hsh hcap, rfl, ?_, ?_, ?_⟩
  · rw [RenderScene_stream_diffuseColor, h1]
  · rw [RenderScene_stream_specularColor, h1]
  · rw [RenderScene_stream_shininess, h128, h16]

/-- C18, evaluated on a scene manager with three textures, over a context in which no
material was uploaded before. -/
theorem C18_RenderScene_material_at_draws_witness :
    SceneManager.duplicateRegistry.m_pShaderManager = some { m_programID := 1 } ∧
    SceneManager.duplicateRegistry.m_loadedTextures ≤ 16 ∧
    GLContext.fresh.uniformValue "material.shininess" = none ∧
    ∃ after issued,
      RenderScene GLM.symbolic ⟨SceneManager.duplicateRegistry, GLContext.fresh⟩ = some after ∧
      after.gl.commands = GLContext.fresh.commands ++ issued ∧
      uniformAtDraws "material.diffuseColor"
          (GLContext.fresh.uniformValue "material.diffuseColor") issued =
        List.replicate 2 (some (UniformValue.vec3 ⟨1, 1, 1⟩)) ++
        List.replicate 2 (some (UniformValue.vec3 ⟨0.65, 0.16, 0.16⟩)) ++
        List.replicate 15 (some (UniformValue.vec3 ⟨1, 1, 1⟩)) ++
        List.replicate 5 (some (UniformValue.vec3 ⟨0.65, 0.16, 0.16⟩)) ∧
      uniformAtDraws "material.specularColor"
          (GLContext.fresh.uniformValue "material.specularColor") issued =
        List.replicate 2 (some (UniformValue.vec3 ⟨1, 1, 1⟩)) ++
        List.replicate 2 (some (UniformValue.vec3 ⟨0.2, 0.2, 0.2⟩)) ++
        List.replicate 15 (some (UniformValue.vec3 ⟨1, 1, 1⟩)) ++
        List.replicate 5 (some (UniformValue.vec3 ⟨0.2, 0.2, 0.2⟩)) ∧
      uniformAtDraws "material.shininess"
          (GLContext.fresh.uniformValue "material.shininess") issued =
        List.replicate 2 (some (UniformValue.float 128)) ++
        List.replicate 2 (some (UniformValue.float 16)) ++
        List.replicate 15 (some (UniformValue.float 128)) ++
        List.replicate 5 (some (UniformValue.float 16)) :=
  ⟨rfl, by decide, rfl,
    C18_RenderScene_material_at_draws GLM.symbolic
      ⟨SceneManager.duplicateRegistry, GLContext.fresh⟩ { m_programID := 1 } rfl (by decide)⟩


theorem loadedTags_of_all_succeed (stbi_load : String → Option Image)
    (hall : ∀ file ∈ sceneTextureFiles, loadSucceeds stbi_load file.1 = true) :
    loadedTags stbi_load sceneTextureFiles =
      ["deskTop", "deskRod", "deskRim", "quartz", "copper", "pencil", "erase", "grain"] := by
  unfold loadedTags
  rw [List.filter_eq_self.mpr hall]
  rfl

/-- C19: if `PrepareScene` starts from an empty registry with a shader manager present
and all eight texture loads succeed, then `PrepareScene` and the `RenderScene` after it
return, the six tags `RenderScene` passes to `SetShaderTexture` resolve to quartz 3,
deskRim 2, deskTop 0, deskRod 1, copper 4 and erase 6, and the twenty sampler values
`RenderScene` uploads are these slots, each within 0..7 and none the sentinel -1. -/
theorem C19_RenderScene_uploads_registered_slots {M : Type} (glm : GLM M)
    (stbi_load : String → Option Image) (w : World M) (sh : ShaderManager)
    (hsh : w.scene.m_pShaderManager = some sh) (hempty : w.scene.m_loadedTextures = 0)
    (hall : ∀ file ∈ sceneTextureFiles, loadSucceeds stbi_load file.1 = true) :
    ∃ prepared rendered issued,
      PrepareScene stbi_load w = some prepared ∧
      RenderScene glm prepared = some rendered ∧
      rendered.gl.commands = prepared.gl.commands ++ issued ∧
      prepared.scene.FindTextureSlot "quartz" = some 3 ∧
      prepared.scene.FindTextureSlot "deskRim" = some 2 ∧
      prepared.scene.FindTextureSlot "deskTop" = some 0 ∧
      prepared.scene.FindTextureSlot "deskRod" = some 1 ∧
      prepared.scene.FindTextureSlot "copper" = some 4 ∧
      prepared.scene.FindTextureSlot "erase" = some 6 ∧
      samplerUploads issued = [3, 3, 2, 0, 1, 1, 1, 1, 1, 1, 4, 4, 4, 4, 4, 4, 4, 4, 4, 6] ∧
      ∀ slot ∈ samplerUploads issued, 0 ≤ slot ∧ slot ≤ 7 := by
  obtain ⟨loaded, hload, _, hshader, hcount, _, htags⟩ :=
    LoadSceneTextures_spec stbi_load w hempty
  have hall8 := loadedTags_of_all_succeed stbi_load hall
  rw [hall8] at hcount htags
  let prepared : World M :=
    { loaded with
      scene :=
        { loaded.scene with
          m_basicMeshes :=
            (((((loaded.scene.m_basicMeshes.LoadPlaneMesh).LoadBoxMesh).LoadCylinderMesh
              ).LoadSphereMesh).LoadConeMesh).LoadTaperedCylinderMesh } }
  have hprep : PrepareScene stbi_load w = some prepared := by
    simp [PrepareScene, hload, prepared]
  have hpsh : prepared.scene.m_pShaderManager = some sh := by
    show loaded.scene.m_pShaderManager = some sh
    rw [hshader, hsh]
  have hpcount : prepared.scene.m_loadedTextures =
      ((["deskTop", "deskRod", "deskRim", "quartz", "copper", "pencil", "erase",
        "grain"] : List String).length : Int) := hcount
  have hpcap : prepared.scene.m_loadedTextures ≤ 16 := by
    rw [hpcount]
    decide
  obtain ⟨hslots, _⟩ :=
    FindTextureSlot_of_tags prepared.scene
      ["deskTop", "deskRod", "deskRim", "quartz", "copper", "pencil", "erase", "grain"]
      (by decide) (by decide) hpcount htags
  have hquartz : prepared.scene.FindTextureSlot "quartz" = some 3 := hslots 3 (by decide)
  have hdeskRim : prepared.scene.FindTextureSlot "deskRim" = some 2 := hslots 2 (by decide)
  have hdeskTop : prepared.scene.FindTextureSlot "deskTop" = some 0 := hslots 0 (by decide)
  have hdeskRod : prepared.scene.FindTextureSlot "deskRod" = some 1 := hslots 1 (by decide)
  have hcopper : prepared.scene.FindTextureSlot "copper" = some 4 := hslots 4 (by decide)
  have herase : prepared.scene.FindTextureSlot "erase" = some 6 := hslots 6 (by decide)
  have huploads :
      samplerUploads (RenderScene.stream glm prepared.scene RenderScene.entry RenderScene.body) =
        [3, 3, 2, 0, 1, 1, 1, 1, 1, 1, 4, 4, 4, 4, 4, 4, 4, 4, 4, 6] := by
    rw [RenderScene_stream_samplerUploads, hquartz, hdeskRim, hdeskTop, hdeskRod, hcopper,
      herase]
    rfl
  refine ⟨prepared, _, RenderScene.stream glm prepared.scene RenderScene.entry RenderScene.body,
    hprep, RenderScene_stream glm prepared sh hpsh hpcap, rfl, hquartz, hdeskRim, hdeskTop,
    hdeskRod, hcopper, herase, huploads, ?_⟩
  rw [huploads]
  decide

/-- C19, evaluated with a decoder for which every file is an RGB image. -/
theorem C19_RenderScene_uploads_registered_slots_witness :
    SceneManager.emptyRegistry.m_pShaderManager = some { m_programID := 1 } ∧
    SceneManager.emptyRegistry.m_loadedTextures = 0 ∧
    (∀ file ∈ sceneTextureFiles, loadSucceeds allFilesDecode file.1 = true) ∧
    ∃ prepared rendered issued,
      PrepareScene allFilesDecode ⟨SceneManager.emptyRegistry, GLContext.fresh⟩ = some prepared ∧
      RenderScene GLM.symbolic prepared = some rendered ∧
      rendered.gl.commands = prepared.gl.commands ++ issued ∧
      prepared.scene.FindTextureSlot "quartz" = some 3 ∧
      prepared.scene.FindTextureSlot "deskRim" = some 2 ∧
      prepared.scene.FindTextureSlot "deskTop" = some 0 ∧
      prepared.scene.FindTextureSlot "deskRod" = some 1 ∧
      prepared.scene.FindTextureSlot "copper" = some 4 ∧
      prepared.scene.FindTextureSlot "erase" = some 6 ∧
      samplerUploads issued = [3, 3, 2, 0, 1, 1, 1, 1, 1, 1, 4, 4, 4, 4, 4, 4, 4, 4, 4, 6] ∧
      ∀ slot ∈ samplerUploads issued, 0 ≤ slot ∧ slot ≤ 7 :=
  ⟨rfl, rfl, by decide,
    C19_RenderScene_uploads_registered_slots GLM.symbolic allFilesDecode
      ⟨SceneManager.emptyRegistry, GLContext.fresh⟩ { m_programID := 1 } rfl rfl (by decide)⟩

/-- C20: starting from an empty registry, for every decoder `LoadSceneTextures` returns,
which in this model means that no write left the 16 slots of `m_textureIDs`; the count
afterwards is between 0 and 8 and the slots 8 to 15 are untouched. `CreateGLTexture`
has no capacity test of its own: on a registry of 16 entries a successful decode makes
it write to index 16, outside the array. -/
theorem C20_LoadSceneTextures_stays_within_capacity {M : Type}
    (stbi_load : String → Option Image) (w : World M)
    (hempty : w.scene.m_loadedTextures = 0)
    (full : World M) (filename tag : String) (hfull : full.scene.m_loadedTextures = 16)
    (hdecodes : loadSucceeds stbi_load filename = true) :
    (∃ w', LoadSceneTextures stbi_load w = some w' ∧
      0 ≤ w'.scene.m_loadedTextures ∧ w'.scene.m_loadedTextures ≤ 8 ∧
      ∀ i : Fin 16, 8 ≤ i.val → w'.scene.m_textureIDs i = w.scene.m_textureIDs i) ∧
    CreateGLTexture stbi_load full filename tag = none := by
  constructor
  · obtain ⟨w', hload, _, _, hcount, habove, _⟩ := LoadSceneTextures_spec stbi_load w hempty
    have hle := loadedTags_length_le stbi_load sceneTextureFiles
    have hlen : sceneTextureFiles.length = 8 := rfl
    refine ⟨w', hload, by omega, by omega, ?_⟩
    intro i hi
    exact habove i (by omega)
  · obtain ⟨image, himage, hch⟩ := (loadSucceeds_iff stbi_load filename).mp hdecodes
    have hout : ¬ (0 ≤ full.scene.m_loadedTextures ∧ full.scene.m_loadedTextures < 16) := by
      omega
    rcases hch with h3 | h4
    · simp [CreateGLTexture, himage, h3, SceneManager.setTextureAt?, hout]
    · have h3 : ¬ image.colorChannels = 3 := by omega
      simp [CreateGLTexture, himage, h3, h4, SceneManager.setTextureAt?, hout]

/-- C20, evaluated with two failing files from an empty registry, and with a registry
whose count is 16. -/
theorem C20_LoadSceneTextures_stays_within_capacity_witness :
    SceneManager.emptyRegistry.m_loadedTextures = 0 ∧
    ({ SceneManager.emptyRegistry with m_loadedTextures := 16 } : SceneManager).m_loadedTextures
      = 16 ∧
    loadSucceeds twoFilesFail "textures/grain.jpg" = true ∧
    (∃ w', LoadSceneTextures twoFilesFail ⟨SceneManager.emptyRegistry, GLContext.fresh⟩ =
        some w' ∧
      0 ≤ w'.scene.m_loadedTextures ∧ w'.scene.m_loadedTextures ≤ 8 ∧
      ∀ i : Fin 16, 8 ≤ i.val →
        w'.scene.m_textureIDs i = SceneManager.emptyRegistry.m_textureIDs i) ∧
    CreateGLTexture twoFilesFail
      ⟨{ SceneManager.emptyRegistry with m_loadedTextures := 16 }, GLContext.fresh⟩
      "textures/grain.jpg" "grain" = none :=
  ⟨rfl, rfl, by decide,
    C20_LoadSceneTextures_stays_within_capacity twoFilesFail
      ⟨SceneManager.emptyRegistry, GLContext.fresh⟩ rfl
      ⟨{ SceneManager.emptyRegistry with m_loadedTextures := 16 }, GLContext.fresh⟩
      "textures/grain.jpg" "grain" rfl (by decide)⟩


open ViewManager

theorem moveCamera_keeps {M : Type} {α : Type} (ops : CameraOps M) (f : Camera → α)
    (hf : ∀ c d t, f (ops.ProcessKeyboard c d t) = f c) (pressed : Bool) (g : ViewGlobals)
    (direction : Camera_Movement) (camera : Camera) (hcam : g.g_pCamera = some camera) :
    ∃ moved, (moveCamera ops pressed g direction).g_pCamera = some moved ∧
      f moved = f camera ∧
      (moveCamera ops pressed g direction).bOrthographicProjection =
        g.bOrthographicProjection := by
  cases pressed with
  | false => exact ⟨camera, by simpa [moveCamera] using hcam, rfl, by simp [moveCamera]⟩
  | true =>
    exact ⟨ops.ProcessKeyboard camera direction (g.cameraSpeed * g.gDeltaTime),
      by simp [moveCamera, hcam], hf _ _ _, by simp [moveCamera]⟩

theorem ProcessKeyboardEvents_spec {M : Type} {α : Type} (ops : CameraOps M)
    (f : Camera → α) (hf : ∀ c d t, f (ops.ProcessKeyboard c d t) = f c)
    (keys : Key → Bool) (v : ViewWorld M) (camera : Camera)
    (hcam : v.globals.g_pCamera = some camera) :
    ∃ moved, (ProcessKeyboardEvents ops keys v).globals.g_pCamera = some moved ∧
      f moved = f camera ∧
      (ProcessKeyboardEvents ops keys v).globals.bOrthographicProjection =
        (if keys Key.O then true
         else if keys Key.P then false else v.globals.bOrthographicProjection) ∧
      (ProcessKeyboardEvents ops keys v).self = v.self ∧
      (ProcessKeyboardEvents ops keys v).gl = v.gl := by
  obtain ⟨c1, h1, hf1, hb1⟩ :=
    moveCamera_keeps ops f hf (keys Key.W) v.globals Camera_Movement.FORWARD camera hcam
  obtain ⟨c2, h2, hf2, hb2⟩ :=
    moveCamera_keeps ops f hf (keys Key.S) _ Camera_Movement.BACKWARD c1 h1
  obtain ⟨c3, h3, hf3, hb3⟩ :=
    moveCamera_keeps ops f hf (keys Key.A) _ Camera_Movement.LEFT c2 h2
  obtain ⟨c4, h4, hf4, hb4⟩ :=
    moveCamera_keeps ops f hf (keys Key.D) _ Camera_Movement.RIGHT c3 h3
  obtain ⟨c5, h5, hf5, hb5⟩ :=
    moveCamera_keeps ops f hf (keys Key.Q) _ Camera_Movement.DOWN c4 h4
  obtain ⟨c6, h6, hf6, hb6⟩ :=
    moveCamera_keeps ops f hf (keys Key.E) _ Camera_Movement.UP c5 h5
  have hflag6 := hb6.trans (hb5.trans (hb4.trans (hb3.trans (hb2.trans hb1))))
  have hfc6 : f c6 = f camera := hf6.trans (hf5.trans (hf4.trans (hf3.trans (hf2.trans hf1))))
  have hcamEsc : (if keys Key.ESCAPE = true then { v with windowShouldClose := true }
      else v).globals.g_pCamera = some camera := by
    cases keys Key.ESCAPE <;> simpa using hcam
  have hglobEsc : (if keys Key.ESCAPE = true then { v with windowShouldClose := true }
      else v).globals = v.globals := by
    cases keys Key.ESCAPE <;> rfl
  have hselfEsc : (if keys Key.ESCAPE = true then { v with windowShouldClose := true }
      else v).self = v.self := by
    cases keys Key.ESCAPE <;> rfl
  have hglEsc : (if keys Key.ESCAPE = true then { v with windowShouldClose := true }
      else v).gl = v.gl := by
    cases keys Key.ESCAPE <;> rfl
  refine ⟨c6, ?_, hfc6, ?_, ?_, ?_⟩
  · simp only [ProcessKeyboardEvents, hcamEsc, hglobEsc, hcam]
    cases keys Key.P <;> cases keys Key.O <;>
      simp only [Bool.false_eq_true, if_true, if_false] <;> exact h6
  · simp only [ProcessKeyboardEvents, hcamEsc, hglobEsc, hcam]
    cases keys Key.P <;> cases keys Key.O <;>
      simp only [Bool.false_eq_true, if_true, if_false]
    exact hflag6
  · simp only [ProcessKeyboardEvents, hcamEsc, hcam]
    exact hselfEsc
  · simp only [ProcessKeyboardEvents, hcamEsc, hcam]
    exact hglEsc


theorem PrepareSceneView_spec {M : Type} {α : Type} (glm : GLM M) (ops : CameraOps M)
    (f : Camera → α) (hf : ∀ c d t, f (ops.ProcessKeyboard c d t) = f c)
    (keys : Key → Bool) (currentFrame : ℚ) (v : ViewWorld M) (camera : Camera)
    (hcam : v.globals.g_pCamera = some camera) :
    ∃ v' moved, PrepareSceneView glm ops keys currentFrame v = some v' ∧
      f moved = f camera ∧
      v'.self = v.self ∧
      v'.globals.bOrthographicProjection =
        (if keys Key.O then true
         else if keys Key.P then false else v.globals.bOrthographicProjection) ∧
      v'.globals.g_pCamera =
        some (if (if keys Key.O then true
                  else if keys Key.P then false else v.globals.bOrthographicProjection) = true
              then { moved with Position := ⟨0.0, 10.0, 10.0⟩, Front := ⟨0.0, -1.0, -1.0⟩ }
              else moved) := by
  obtain ⟨moved, hmoved, hfmoved, hflag, hself, _⟩ :=
    ProcessKeyboardEvents_spec ops f hf keys
      { v with
        globals :=
          { v.globals with
            gDeltaTime := currentFrame - v.globals.gLastFrame
            gLastFrame := currentFrame } }
      camera hcam
  have hflag' : (ProcessKeyboardEvents ops keys
      { v with
        globals :=
          { v.globals with
            gDeltaTime := currentFrame - v.globals.gLastFrame
            gLastFrame := currentFrame } }).globals.bOrthographicProjection =
      (if keys Key.O then true
       else if keys Key.P then false else v.globals.bOrthographicProjection) := hflag
  have hself' : (ProcessKeyboardEvents ops keys
      { v with
        globals :=
          { v.globals with
            gDeltaTime := currentFrame - v.globals.gLastFrame
            gLastFrame := currentFrame } }).self = v.self := hself
  cases hshader : v.self.m_pShaderManager with
  | none =>
    simp only [PrepareSceneView, hmoved, hself', hshader]
    refine ⟨_, moved, rfl, hfmoved, rfl, hflag', ?_⟩
    simp only [hflag']
  | some sh =>
    simp only [PrepareSceneView, hmoved, hself', hshader]
    refine ⟨_, moved, rfl, hfmoved, rfl, hflag', ?_⟩
    simp only [hflag']


theorem Mouse_Position_Callback_perspective {M : Type} (ops : CameraOps M)
    (g g' : ViewGlobals) (x y : ℚ) (hpersp : g.bOrthographicProjection = false)
    (h : Mouse_Position_Callback ops g x y = some g') :
    ∃ lastX lastY xOffset yOffset camera,
      narrowToFloat x = some lastX ∧ narrowToFloat y = some lastY ∧
      narrowToFloat (binary64 (x - (if g.gFirstMouse then lastX else g.gLastX))) =
        some xOffset ∧
      narrowToFloat (binary64 ((if g.gFirstMouse then lastY else g.gLastY) - y)) =
        some yOffset ∧
      g.g_pCamera = some camera ∧
      g' = { g with
        g_pCamera := some (ops.ProcessMouseMovement camera xOffset yOffset)
        gLastX := lastX
        gLastY := lastY
        gFirstMouse := false } := by
  unfold Mouse_Position_Callback at h
  rw [if_neg (by simp [hpersp])] at h
  cases hfirst : g.gFirstMouse
  · simp only [hfirst, Bool.false_eq_true, if_false, Option.pure_def, Option.bind_eq_bind,
      Option.some_bind, Option.bind_eq_some] at h
    obtain ⟨xo, hxo, yo, hyo, lx, hlx, ly, hly, hres⟩ := h
    cases hc : g.g_pCamera with
    | none =>
      rw [hc] at hres
      cases hres
    | some camera =>
      rw [hc] at hres
      simp only [Option.some.injEq] at hres
      exact ⟨lx, ly, xo, yo, camera, hlx, hly, by simpa using hxo, by simpa using hyo, rfl,
        hres.symm⟩
  · cases hx : narrowToFloat x with
    | none => simp [hfirst, hx] at h
    | some lx =>
      cases hy : narrowToFloat y with
      | none => simp [hfirst, hx, hy] at h
      | some ly =>
        simp only [hfirst, hx, hy, if_true, Option.pure_def, Option.bind_eq_bind,
          Option.some_bind, Option.bind_eq_some] at h
        obtain ⟨xo, hxo, yo, hyo, hres⟩ := h
        cases hc : g.g_pCamera with
        | none =>
          rw [hc] at hres
          cases hres
        | some camera =>
          rw [hc] at hres
          simp only [Option.some.injEq] at hres
          exact ⟨lx, ly, xo, yo, camera, rfl, rfl, by simpa using hxo, by simpa using hyo,
            rfl, hres.symm⟩

/-- C11: the orthographic flag starts as `false` (perspective); for every frame with a
camera present the flag after `ProcessKeyboardEvents` is `true` if O is pressed (also
with P pressed), otherwise `false` if P is pressed, otherwise its value before the
call, so two key states that agree on O and P give the same flag; a mouse-position event
and a scroll event leave the flag as it was. -/
theorem C11_orthographic_flag_follows_O_and_P {M : Type} (ops : CameraOps M)
    (keys : Key → Bool) (v : ViewWorld M) (camera : Camera)
    (hcam : v.globals.g_pCamera = some camera)
    (g : ViewGlobals) (xMousePos yMousePos xOffset yOffset : ℚ) :
    ViewGlobals.initial.bOrthographicProjection = false ∧
    (ProcessKeyboardEvents ops keys v).globals.bOrthographicProjection =
      (if keys Key.O then true
       else if keys Key.P then false else v.globals.bOrthographicProjection) ∧
    (∀ others : Key → Bool, others Key.O = keys Key.O → others Key.P = keys Key.P →
      (ProcessKeyboardEvents ops others v).globals.bOrthographicProjection =
        (ProcessKeyboardEvents ops keys v).globals.bOrthographicProjection) ∧
    (∀ g', Mouse_Position_Callback ops g xMousePos yMousePos = some g' →
      g'.bOrthographicProjection = g.bOrthographicProjection) ∧
    (ScrollCallback g xOffset yOffset).bOrthographicProjection =
      g.bOrthographicProjection := by
  have hkeys : ∀ ks : Key → Bool,
      (ProcessKeyboardEvents ops ks v).globals.bOrthographicProjection =
        (if ks Key.O then true
         else if ks Key.P then false else v.globals.bOrthographicProjection) := by
    intro ks
    obtain ⟨_, _, _, hflag, _, _⟩ :=
      ProcessKeyboardEvents_spec ops (fun _ => ()) (fun _ _ _ => rfl) ks v camera hcam
    exact hflag
  refine ⟨rfl, hkeys keys, ?_, ?_, ?_⟩
  · intro others hO hP
    rw [hkeys others, hkeys keys, hO, hP]
  · intro g' hg'
    by_cases hortho : g.bOrthographicProjection = true
    · unfold Mouse_Position_Callback at hg'
      rw [if_pos hortho] at hg'
      cases hg'
      rfl
    · obtain ⟨_, _, _, _, _, _, _, _, _, _, hresult⟩ :=
        Mouse_Position_Callback_perspective ops g g' xMousePos yMousePos
          (by simpa using hortho) hg'
      rw [hresult]
  · unfold ScrollCallback
    split_ifs <;> rfl

/-- C11, evaluated: from the perspective start, a frame with O and P both pressed sets
the flag, and a later frame with only W pressed keeps it. -/
theorem C11_orthographic_flag_follows_O_and_P_witness :
    ViewWorld.started.globals.g_pCamera =
      some { Position := ⟨0.5, 5.5, 10.0⟩, Front := ⟨0.0, -0.5, -2.0⟩, Up := ⟨0.0, 1.0, 0.0⟩,
             Zoom := 80, MovementSpeed := 10 } ∧
    (ProcessKeyboardEvents CameraOps.sample (pressed [Key.O, Key.P])
      ViewWorld.started).globals.bOrthographicProjection = true ∧
    ViewGlobals.initial.bOrthographicProjection = false ∧
    (ProcessKeyboardEvents CameraOps.sample (pressed [Key.O, Key.P])
        ViewWorld.started).globals.bOrthographicProjection =
      (if pressed [Key.O, Key.P] Key.O then true
       else if pressed [Key.O, Key.P] Key.P then false
       else ViewWorld.started.globals.bOrthographicProjection) ∧
    (∀ others : Key → Bool, others Key.O = pressed [Key.O, Key.P] Key.O →
      others Key.P = pressed [Key.O, Key.P] Key.P →
      (ProcessKeyboardEvents CameraOps.sample others
          ViewWorld.started).globals.bOrthographicProjection =
        (ProcessKeyboardEvents CameraOps.sample (pressed [Key.O, Key.P])
          ViewWorld.started).globals.bOrthographicProjection) ∧
    (∀ g', Mouse_Position_Callback CameraOps.sample ViewWorld.started.globals 10 20 = some g' →
      g'.bOrthographicProjection = ViewWorld.started.globals.bOrthographicProjection) ∧
    (ScrollCallback ViewWorld.started.globals 0 1).bOrthographicProjection =
      ViewWorld.started.globals.bOrthographicProjection :=
  ⟨rfl, rfl,
    C11_orthographic_flag_follows_O_and_P CameraOps.sample (pressed [Key.O, Key.P])
      ViewWorld.started _ rfl ViewWorld.started.globals 10 20 0 1⟩

/-- C12: for every prior camera state and every key state, when `PrepareSceneView` takes
its orthographic branch, that is when O is pressed or the flag was set and P is not
pressed, the call returns with the camera position (0, 10, 10), the camera front vector
(0, -1, -1) and the flag set, whatever the movement keys did to the camera before. -/
theorem C12_orthographic_frame_forces_pose {M : Type} (glm : GLM M) (ops : CameraOps M)
    (keys : Key → Bool) (currentFrame : ℚ) (v : ViewWorld M) (camera : Camera)
    (hcam : v.globals.g_pCamera = some camera)
    (hortho : keys Key.O = true ∨
      (v.globals.bOrthographicProjection = true ∧ keys Key.P = false)) :
    ∃ v' camera', PrepareSceneView glm ops keys currentFrame v = some v' ∧
      v'.globals.g_pCamera = some camera' ∧
      camera'.Position = ⟨0, 10, 10⟩ ∧ camera'.Front = ⟨0, -1, -1⟩ ∧
      v'.globals.bOrthographicProjection = true := by
  obtain ⟨v', moved, hrun, _, _, hflag, hcamera⟩ :=
    PrepareSceneView_spec glm ops (fun _ => ()) (fun _ _ _ => rfl) keys currentFrame v camera hcam
  have hbranch : (if keys Key.O then true
      else if keys Key.P then false else v.globals.bOrthographicProjection) = true := by
    rcases hortho with hO | ⟨hflagBefore, hP⟩
    · simp [hO]
    · simp [hP, hflagBefore]
  rw [hbranch] at hflag
  rw [if_pos hbranch] at hcamera
  refine ⟨v', _, hrun, hcamera, ?_, ?_, hflag⟩
  · show (⟨0.0, 10.0, 10.0⟩ : vec3) = ⟨0, 10, 10⟩
    norm_num
  · show (⟨0.0, -1.0, -1.0⟩ : vec3) = ⟨0, -1, -1⟩
    norm_num

/-- C12, evaluated: a frame with O, W and D pressed from the start state. -/
theorem C12_orthographic_frame_forces_pose_witness :
    ViewWorld.started.globals.g_pCamera =
      some { Position := ⟨0.5, 5.5, 10.0⟩, Front := ⟨0.0, -0.5, -2.0⟩, Up := ⟨0.0, 1.0, 0.0⟩,
             Zoom := 80, MovementSpeed := 10 } ∧
    (pressed [Key.O, Key.W, Key.D] Key.O = true ∨
      (ViewWorld.started.globals.bOrthographicProjection = true ∧
        pressed [Key.O, Key.W, Key.D] Key.P = false)) ∧
    ∃ v' camera',
      PrepareSceneView GLM.symbolic CameraOps.sample (pressed [Key.O, Key.W, Key.D]) 1
        ViewWorld.started = some v' ∧
      v'.globals.g_pCamera = some camera' ∧
      camera'.Position = ⟨0, 10, 10⟩ ∧ camera'.Front = ⟨0, -1, -1⟩ ∧
      v'.globals.bOrthographicProjection = true :=
  ⟨rfl, Or.inl rfl,
    C12_orthographic_frame_forces_pose GLM.symbolic CameraOps.sample
      (pressed [Key.O, Key.W, Key.D]) 1 ViewWorld.started _ rfl (Or.inl rfl)⟩

/-- C14: while the orthographic flag is set, a mouse-position event returns with every
file-scope variable unchanged, for every cursor position: the camera, `gLastX`,
`gLastY` and `gFirstMouse` keep their values and `ProcessMouseMovement` is not called. -/
theorem C14_mouse_ignored_in_orthographic {M : Type} (ops : CameraOps M) (g : ViewGlobals)
    (xMousePos yMousePos : ℚ) (hortho : g.bOrthographicProjection = true) :
    Mouse_Position_Callback ops g xMousePos yMousePos = some g ∧
    ∀ g', Mouse_Position_Callback ops g xMousePos yMousePos = some g' →
      g'.g_pCamera = g.g_pCamera ∧ g'.gLastX = g.gLastX ∧ g'.gLastY = g.gLastY ∧
      g'.gFirstMouse = g.gFirstMouse := by
  have h : Mouse_Position_Callback ops g xMousePos yMousePos = some g := by
    simp [Mouse_Position_Callback, hortho]
  refine ⟨h, ?_⟩
  intro g' hg'
  rw [h] at hg'
  cases hg'
  exact ⟨rfl, rfl, rfl, rfl⟩

/-- C14, evaluated: a mouse event at (640, 360) with the flag set. -/
theorem C14_mouse_ignored_in_orthographic_witness :
    ({ ViewWorld.started.globals with bOrthographicProjection := true } :
      ViewGlobals).bOrthographicProjection = true ∧
    Mouse_Position_Callback CameraOps.sample
        { ViewWorld.started.globals with bOrthographicProjection := true } 640 360 =
      some { ViewWorld.started.globals with bOrthographicProjection := true } ∧
    ∀ g', Mouse_Position_Callback CameraOps.sample
        { ViewWorld.started.globals with bOrthographicProjection := true } 640 360 = some g' →
      g'.g_pCamera = ViewWorld.started.globals.g_pCamera ∧
      g'.gLastX = ViewWorld.started.globals.gLastX ∧
      g'.gLastY = ViewWorld.started.globals.gLastY ∧
      g'.gFirstMouse = ViewWorld.started.globals.gFirstMouse :=
  ⟨rfl,
    C14_mouse_ignored_in_orthographic CameraOps.sample
      { ViewWorld.started.globals with bOrthographicProjection := true } 640 360 rfl⟩

theorem frames_append {M : Type} (glm : GLM M) (ops : CameraOps M)
    (front : List ((Key → Bool) × ℚ)) :
    ∀ (back : List ((Key → Bool) × ℚ)) (v : ViewWorld M),
      frames glm ops (front ++ back) v = (frames glm ops front v).bind (frames glm ops back) := by
  induction front with
  | nil => intro back v; rfl
  | cons frame rest ih =>
    intro back v
    simp only [List.cons_append, frames]
    cases h : PrepareSceneView glm ops frame.1 frame.2 v with
    | none => rfl
    | some next => exact ih back next

theorem frames_orthographic_held {M : Type} (glm : GLM M) (ops : CameraOps M)
    (hup : ∀ c d t, (ops.ProcessKeyboard c d t).Up = c.Up)
    (held : List ((Key → Bool) × ℚ)) :
    ∀ (v : ViewWorld M) (camera : Camera), v.globals.g_pCamera = some camera →
      v.globals.bOrthographicProjection = true →
      camera.Front = ⟨0.0, -1.0, -1.0⟩ →
      (∀ frame ∈ held, frame.1 Key.O = true ∨ frame.1 Key.P = false) →
      ∃ v' camera', frames glm ops held v = some v' ∧
        v'.globals.g_pCamera = some camera' ∧
        v'.globals.bOrthographicProjection = true ∧
        camera'.Front = ⟨0.0, -1.0, -1.0⟩ ∧ camera'.Up = camera.Up := by
  induction held with
  | nil =>
    intro v camera hcam hflag hfront _
    exact ⟨v, camera, rfl, hcam, hflag, hfront, rfl⟩
  | cons frame rest ih =>
    intro v camera hcam hflag hfront hheld
    obtain ⟨v1, moved, hrun, hmovedUp, _, hflag1, hcam1⟩ :=
      PrepareSceneView_spec glm ops (fun c => c.Up) hup frame.1 frame.2 v camera hcam
    have hbranch : (if frame.1 Key.O then true
        else if frame.1 Key.P then false else v.globals.bOrthographicProjection) = true := by
      rcases hheld frame (List.mem_cons_self _ _) with hO | hP
      · simp [hO]
      · simp [hP, hflag]
    rw [hbranch] at hflag1
    rw [if_pos hbranch] at hcam1
    obtain ⟨v', camera', hrest, hcam', hflag', hfront', hup'⟩ :=
      ih v1 _ hcam1 hflag1 rfl (fun f hf => hheld f (List.mem_cons_of_mem _ hf))
    refine ⟨v', camera', ?_, hcam', hflag', hfront', ?_⟩
    · simp only [frames, hrun, hrest]
    · rw [hup']
      exact hmovedUp

theorem frames_switch_and_back {M : Type} (glm : GLM M) (ops : CameraOps M)
    (hup : ∀ c d t, (ops.ProcessKeyboard c d t).Up = c.Up)
    (hfront : ∀ c d t, (ops.ProcessKeyboard c d t).Front = c.Front)
    (v : ViewWorld M) (camera : Camera) (hcam : v.globals.g_pCamera = some camera)
    (first : (Key → Bool) × ℚ) (held : List ((Key → Bool) × ℚ)) (back : (Key → Bool) × ℚ)
    (hfirst : first.1 Key.O = true)
    (hheld : ∀ frame ∈ held, frame.1 Key.O = true ∨ frame.1 Key.P = false)
    (hbackP : back.1 Key.P = true) (hbackO : back.1 Key.O = false) :
    ∃ v' camera', frames glm ops (first :: (held ++ [back])) v = some v' ∧
      v'.globals.bOrthographicProjection = false ∧
      v'.globals.g_pCamera = some camera' ∧
      camera'.Up = camera.Up ∧ camera'.Front = ⟨0.0, -1.0, -1.0⟩ := by
  obtain ⟨v1, moved1, hrun1, hup1, _, hflag1, hcam1⟩ :=
    PrepareSceneView_spec glm ops (fun c => c.Up) hup first.1 first.2 v camera hcam
  have hbranch1 : (if first.1 Key.O then true
      else if first.1 Key.P then false else v.globals.bOrthographicProjection) = true := by
    simp [hfirst]
  rw [hbranch1] at hflag1
  rw [if_pos hbranch1] at hcam1
  obtain ⟨v2, camera2, hrun2, hcam2, hflag2, hfront2, hup2⟩ :=
    frames_orthographic_held glm ops hup held v1 _ hcam1 hflag1 rfl hheld
  obtain ⟨v3, moved3, hrun3, hkeep3, _, hflag3, hcam3⟩ :=
    PrepareSceneView_spec glm ops (fun c => (c.Up, c.Front))
      (fun c d t => by
        show ((ops.ProcessKeyboard c d t).Up, (ops.ProcessKeyboard c d t).Front) = (c.Up, c.Front)
        rw [hup, hfront]) back.1 back.2 v2 camera2 hcam2
  have hbranch3 : (if back.1 Key.O then true
      else if back.1 Key.P then false else v2.globals.bOrthographicProjection) = false := by
    simp [hbackO, hbackP]
  rw [hbranch3] at hflag3
  rw [if_neg (by rw [hbranch3]; decide)] at hcam3
  have hkeepUp : moved3.Up = camera2.Up := congrArg Prod.fst hkeep3
  have hkeepFront : moved3.Front = camera2.Front := congrArg Prod.snd hkeep3
  refine ⟨v3, moved3, ?_, hflag3, hcam3, ?_, ?_⟩
  · simp only [frames, hrun1]
    rw [frames_append, hrun2]
    simp only [Option.some_bind, frames, hrun3]
  · rw [hkeepUp, hup2]
    exact hup1
  · rw [hkeepFront, hfront2]

theorem CameraOps.sample_keeps_orientation :
    (∀ c d t, (CameraOps.sample.ProcessKeyboard c d t).Up = c.Up) ∧
    (∀ c d t, (CameraOps.sample.ProcessKeyboard c d t).Front = c.Front) := by
  constructor <;> intro c d t <;> cases d <;> rfl

/-- C13, refuted as stated: from the start state, whose camera front vector is
(0, -0.5, -2), one frame with O pressed followed by one frame with P pressed ends in
perspective mode with the front vector (0, -1, -1), not the vector from before the
switch. -/
theorem C13_front_vector_lost_after_switch_back :
    ViewWorld.started.globals.bOrthographicProjection = false ∧
    ∃ before v' after,
      ViewWorld.started.globals.g_pCamera = some before ∧
      before.Front = ⟨0, -1 / 2, -2⟩ ∧
      frames GLM.symbolic CameraOps.sample [(pressed [Key.O], 1), (pressed [Key.P], 2)]
        ViewWorld.started = some v' ∧
      v'.globals.bOrthographicProjection = false ∧
      v'.globals.g_pCamera = some after ∧
      after.Front = ⟨0, -1, -1⟩ ∧
      after.Front ≠ before.Front := by
  refine ⟨rfl, ?_⟩
  obtain ⟨v', after, hrun, hflag, hcam, _, hfront⟩ :=
    frames_switch_and_back GLM.symbolic CameraOps.sample
      CameraOps.sample_keeps_orientation.1 CameraOps.sample_keeps_orientation.2
      ViewWorld.started _ rfl (pressed [Key.O], 1) [] (pressed [Key.P], 2) rfl
      (fun _ h => absurd h (List.not_mem_nil _)) rfl rfl
  refine ⟨_, v', after, rfl, ?_, hrun, hflag, hcam, ?_, ?_⟩
  · show (⟨0.0, -0.5, -2.0⟩ : vec3) = ⟨0, -1 / 2, -2⟩
    norm_num
  · rw [hfront]
    norm_num
  · rw [hfront]
    show (⟨0.0, -1.0, -1.0⟩ : vec3) ≠ ⟨0.0, -0.5, -2.0⟩
    norm_num

/-- C13, amended: for every camera state, when the camera's keyboard handler changes
neither the up vector nor the front vector, switching to orthographic mode (a frame
with O pressed), staying there for any number of frames and switching back (a frame
with P pressed and O released) ends in perspective mode with the up vector equal to its
value from before the switch and the front vector equal to the forced (0, -1, -1). -/
theorem C13_switch_back_keeps_up_not_front {M : Type} (glm : GLM M) (ops : CameraOps M)
    (hup : ∀ c d t, (ops.ProcessKeyboard c d t).Up = c.Up)
    (hfront : ∀ c d t, (ops.ProcessKeyboard c d t).Front = c.Front)
    (v : ViewWorld M) (camera : Camera) (hcam : v.globals.g_pCamera = some camera)
    (first : (Key → Bool) × ℚ) (held : List ((Key → Bool) × ℚ)) (back : (Key → Bool) × ℚ)
    (hfirst : first.1 Key.O = true)
    (hheld : ∀ frame ∈ held, frame.1 Key.O = true ∨ frame.1 Key.P = false)
    (hbackP : back.1 Key.P = true) (hbackO : back.1 Key.O = false) :
    ∃ v' camera', frames glm ops (first :: (held ++ [back])) v = some v' ∧
      v'.globals.bOrthographicProjection = false ∧
      v'.globals.g_pCamera = some camera' ∧
      camera'.Up = camera.Up ∧ camera'.Front = ⟨0, -1, -1⟩ := by
  obtain ⟨v', camera', hrun, hflag, hcamera, hupEq, hfrontEq⟩ :=
    frames_switch_and_back glm ops hup hfront v camera hcam first held back hfirst hheld
      hbackP hbackO
  refine ⟨v', camera', hrun, hflag, hcamera, hupEq, ?_⟩
  rw [hfrontEq]
  norm_num

/-- C13 amended, evaluated: O pressed, two frames with W held, then P pressed, from the
start state. -/
theorem C13_switch_back_keeps_up_not_front_witness :
    (∀ c d t, (CameraOps.sample.ProcessKeyboard c d t).Up = c.Up) ∧
    (∀ c d t, (CameraOps.sample.ProcessKeyboard c d t).Front = c.Front) ∧
    ViewWorld.started.globals.g_pCamera =
      some { Position := ⟨0.5, 5.5, 10.0⟩, Front := ⟨0.0, -0.5, -2.0⟩, Up := ⟨0.0, 1.0, 0.0⟩,
             Zoom := 80, MovementSpeed := 10 } ∧
    ∃ v' camera',
      frames GLM.symbolic CameraOps.sample
        ((pressed [Key.O], 1) ::
          ([(pressed [Key.W], 2), (pressed [Key.W], 3)] ++ [(pressed [Key.P, Key.W], 4)]))
        ViewWorld.started = some v' ∧
      v'.globals.bOrthographicProjection = false ∧
      v'.globals.g_pCamera = some camera' ∧
      camera'.Up = (⟨0.0, 1.0, 0.0⟩ : vec3) ∧ camera'.Front = ⟨0, -1, -1⟩ :=
  ⟨CameraOps.sample_keeps_orientation.1, CameraOps.sample_keeps_orientation.2, rfl,
    C13_switch_back_keeps_up_not_front GLM.symbolic CameraOps.sample
      CameraOps.sample_keeps_orientation.1 CameraOps.sample_keeps_orientation.2
      ViewWorld.started _ rfl (pressed [Key.O], 1)
      [(pressed [Key.W], 2), (pressed [Key.W], 3)] (pressed [Key.P, Key.W], 4) rfl
      (by decide) rfl rfl⟩


theorem GLContext.uniformIn_append_of_some {M : Type} (name : String) (v : UniformValue M)
    (later : List (GLCommand M)) (hlater : GLContext.uniformIn name later = some v) :
    ∀ earlier : List (GLCommand M), GLContext.uniformIn name (earlier ++ later) = some v := by
  intro earlier
  induction earlier with
  | nil => exact hlater
  | cons c rest ih => simp [GLContext.uniformIn, ih]

theorem RenderScene_stream_UVscale {M : Type} (glm : GLM M) (self : SceneManager)
    (before : Option (UniformValue M)) :
    uniformAtDraws "UVscale" before
        (RenderScene.stream glm self RenderScene.entry RenderScene.body) =
      before :: (List.replicate 3 (some (UniformValue.vec2 ⟨1.0, 1.0⟩)) ++
        List.replicate 6 (some (UniformValue.vec2 ⟨2.0, 2.0⟩)) ++
        List.replicate 9 (some (UniformValue.vec2 ⟨1, 1⟩)) ++
        List.replicate 5 (some (UniformValue.vec2 ⟨1, 1⟩))) := by
  rfl

set_option maxRecDepth 20000 in
theorem RenderScene_stream_UVscale_left {M : Type} (glm : GLM M) (self : SceneManager) :
    GLContext.uniformIn "UVscale"
        (RenderScene.stream glm self RenderScene.entry RenderScene.body) =
      some (UniformValue.vec2 ⟨1, 1⟩) := by
  rfl

set_option maxRecDepth 20000 in
theorem RenderScene_stream_ends {M : Type} (glm : GLM M) (self : SceneManager) :
    (RenderScene.stream glm self RenderScene.entry RenderScene.body).reverse.take 2 =
      [GLCommand.draw Mesh.cylinder,
       GLCommand.uniform "UVscale" (UniformValue.vec2 ⟨1, 1⟩)] := by
  rfl

/-- C22: in every `RenderScene` invocation with a shader manager present and a registry
within the 16-slot capacity, the `UVscale` value in effect at the first draw call (the
floor plane) is the value the shader held before the invocation, whatever it was: no
`UVscale` upload precedes that draw, and the uploads come after it ((1,1) at draws 2-4,
(2,2) at draws 5-10, (1,1) at draws 11-24). The last two commands of the invocation are
the `UVscale` upload (1,1) of the eraser step and the eraser draw, so the invocation
leaves `UVscale` at (1,1), and in an invocation that follows it the floor plane is drawn
with `UVscale` (1,1). -/
theorem C22_RenderScene_floor_UVscale_is_stale {M : Type} (glm : GLM M) (w : World M)
    (sh : ShaderManager) (hsh : w.scene.m_pShaderManager = some sh)
    (hcap : w.scene.m_loadedTextures ≤ 16) :
    ∃ after issued again reissued,
      RenderScene glm w = some after ∧
      after.gl.commands = w.gl.commands ++ issued ∧
      (drawCalls issued).head? = some Mesh.plane ∧
      issued.reverse.take 2 =
        [GLCommand.draw Mesh.cylinder,
         GLCommand.uniform "UVscale" (UniformValue.vec2 ⟨1, 1⟩)] ∧
      (∀ before : Option (UniformValue M),
        uniformAtDraws "UVscale" before issued =
          before :: (List.replicate 3 (some (UniformValue.vec2 ⟨1, 1⟩)) ++
            List.replicate 6 (some (UniformValue.vec2 ⟨2, 2⟩)) ++
            List.replicate 14 (some (UniformValue.vec2 ⟨1, 1⟩)))) ∧
      after.gl.uniformValue "UVscale" = some (UniformValue.vec2 ⟨1, 1⟩) ∧
      RenderScene glm after = some again ∧
      again.gl.commands = after.gl.commands ++ reissued ∧
      (uniformAtDraws "UVscale" (after.gl.uniformValue "UVscale") reissued).head? =
        some (some (UniformValue.vec2 ⟨1, 1⟩)) := by
  have h1 : (1.0 : ℚ) = 1 := by norm_num
  have h2 : (2.0 : ℚ) = 2 := by norm_num
  have hstream : ∀ (self : SceneManager) (before : Option (UniformValue M)),
      uniformAtDraws "UVscale" before
          (RenderScene.stream glm self RenderScene.entry RenderScene.body) =
        before :: (List.replicate 3 (some (UniformValue.vec2 ⟨1, 1⟩)) ++
          List.replicate 6 (some (UniformValue.vec2 ⟨2, 2⟩)) ++
          List.replicate 14 (some (UniformValue.vec2 ⟨1, 1⟩))) := by
    intro self before
    rw [RenderScene_stream_UVscale, h1, h2]
    rfl
  refine ⟨⟨w.scene, { w.gl with
        commands := w.gl.commands ++
          RenderScene.stream glm w.scene RenderScene.entry RenderScene.body }⟩,
    RenderScene.stream glm w.scene RenderScene.entry RenderScene.body,
    ⟨w.scene, { w.gl with
        commands := (w.gl.commands ++
          RenderScene.stream glm w.scene RenderScene.entry RenderScene.body) ++
          RenderScene.stream glm w.scene RenderScene.entry RenderScene.body }⟩,
    RenderScene.stream glm w.scene RenderScene.entry RenderScene.body,
    RenderScene_stream glm w sh hsh hcap, rfl, ?_, RenderScene_stream_ends glm w.scene,
    hstream w.scene, ?_, ?_, rfl, ?_⟩
  · rw [RenderScene_stream_drawCalls]
    rfl
  · exact GLContext.uniformIn_append_of_some "UVscale" _ _
      (RenderScene_stream_UVscale_left glm w.scene) _
  · exact RenderScene_stream glm
      ⟨w.scene, { w.gl with
        commands := w.gl.commands ++
          RenderScene.stream glm w.scene RenderScene.entry RenderScene.body }⟩ sh hsh hcap
  · rw [hstream w.scene]
    have hleft : GLContext.uniformValue
        ({ w.gl with
          commands := w.gl.commands ++
            RenderScene.stream glm w.scene RenderScene.entry RenderScene.body } : GLContext M)
        "UVscale" = some (UniformValue.vec2 ⟨1, 1⟩) :=
      GLContext.uniformIn_append_of_some "UVscale" _ _
        (RenderScene_stream_UVscale_left glm w.scene) _
    simp only [List.head?_cons, hleft]

/-- C22, evaluated on a scene manager with three textures over a context in which
`UVscale` was never uploaded: the floor plane of the first invocation is drawn with no
`UVscale` value at all. -/
theorem C22_RenderScene_floor_UVscale_is_stale_witness :
    SceneManager.duplicateRegistry.m_pShaderManager = some { m_programID := 1 } ∧
    SceneManager.duplicateRegistry.m_loadedTextures ≤ 16 ∧
    GLContext.fresh.uniformValue "UVscale" = none ∧
    ∃ after issued again reissued,
      RenderScene GLM.symbolic
        (⟨SceneManager.duplicateRegistry, GLContext.fresh⟩ : World MatExpr) = some after ∧
      after.gl.commands =
        (⟨SceneManager.duplicateRegistry, GLContext.fresh⟩ : World MatExpr).gl.commands ++
          issued ∧
      (drawCalls issued).head? = some Mesh.plane ∧
      issued.reverse.take 2 =
        [GLCommand.draw Mesh.cylinder,
         GLCommand.uniform "UVscale" (UniformValue.vec2 ⟨1, 1⟩)] ∧
      (∀ before : Option (UniformValue MatExpr),
        uniformAtDraws "UVscale" before issued =
          before :: (List.replicate 3 (some (UniformValue.vec2 ⟨1, 1⟩)) ++
            List.replicate 6 (some (UniformValue.vec2 ⟨2, 2⟩)) ++
            List.replicate 14 (some (UniformValue.vec2 ⟨1, 1⟩)))) ∧
      after.gl.uniformValue "UVscale" = some (UniformValue.vec2 ⟨1, 1⟩) ∧
      RenderScene GLM.symbolic after = some again ∧
      again.gl.commands = after.gl.commands ++ reissued ∧
      (uniformAtDraws "UVscale" (after.gl.uniformValue "UVscale") reissued).head? =
        some (some (UniformValue.vec2 ⟨1, 1⟩)) :=
  ⟨rfl, by decide, rfl,
    C22_RenderScene_floor_UVscale_is_stale GLM.symbolic
      ⟨SceneManager.duplicateRegistry, GLContext.fresh⟩ { m_programID := 1 } rfl (by decide)⟩


theorem ProcessKeyboardEvents_no_movement {M : Type} (ops : CameraOps M) (keys : Key → Bool)
    (v : ViewWorld M)
    (hW : keys Key.W = false) (hS : keys Key.S = false) (hA : keys Key.A = false)
    (hD : keys Key.D = false) (hQ : keys Key.Q = false) (hE : keys Key.E = false) :
    (ProcessKeyboardEvents ops keys v).globals.g_pCamera = v.globals.g_pCamera := by
  have hglobEsc : (if keys Key.ESCAPE = true then { v with windowShouldClose := true }
      else v).globals = v.globals := by
    cases keys Key.ESCAPE <;> rfl
  cases hcam : v.globals.g_pCamera with
  | none =>
    simp only [ProcessKeyboardEvents, hglobEsc, hcam]
  | some camera =>
    simp only [ProcessKeyboardEvents, hglobEsc, hcam, hW, hS, hA, hD, hQ, hE, moveCamera,
      Bool.false_eq_true, if_false]
    cases keys Key.P <;> cases keys Key.O <;>
      simp only [Bool.false_eq_true, if_true, if_false] <;> exact hcam

theorem PrepareSceneView_orthographic_uploads {M : Type} (glm : GLM M) (ops : CameraOps M)
    (keys : Key → Bool) (currentFrame : ℚ) (v : ViewWorld M) (camera : Camera)
    (sh : ShaderManager) (hcam : v.globals.g_pCamera = some camera)
    (hsh : v.self.m_pShaderManager = some sh)
    (hortho : keys Key.O = true ∨
      (v.globals.bOrthographicProjection = true ∧ keys Key.P = false)) :
    ∃ moved,
      (ProcessKeyboardEvents ops keys
        { v with
          globals :=
            { v.globals with
              gDeltaTime := currentFrame - v.globals.gLastFrame
              gLastFrame := currentFrame } }).globals.g_pCamera = some moved ∧
      ∃ v', PrepareSceneView glm ops keys currentFrame v = some v' ∧
        v'.globals.bOrthographicProjection = true ∧
        v'.globals.g_pCamera =
          some { moved with Position := ⟨0.0, 10.0, 10.0⟩, Front := ⟨0.0, -1.0, -1.0⟩ } ∧
        v'.self = v.self ∧
        v'.gl.commands = v.gl.commands ++
          [GLCommand.uniform "view" (UniformValue.mat4 (ops.GetViewMatrix moved)),
           GLCommand.uniform "projection" (UniformValue.mat4
             (glm.ortho (-20.0 * ((WINDOW_WIDTH : ℚ) / (WINDOW_HEIGHT : ℚ)))
               (20.0 * ((WINDOW_WIDTH : ℚ) / (WINDOW_HEIGHT : ℚ))) (-20.0) 20.0 0.1 100.0)),
           GLCommand.uniform "viewPosition" (UniformValue.vec3 ⟨0.0, 10.0, 10.0⟩)] := by
  obtain ⟨moved, hmoved, _, hflag, hself, hgl⟩ :=
    ProcessKeyboardEvents_spec ops (fun _ => ()) (fun _ _ _ => rfl) keys
      { v with
        globals :=
          { v.globals with
            gDeltaTime := currentFrame - v.globals.gLastFrame
            gLastFrame := currentFrame } }
      camera hcam
  have hbranch : (if keys Key.O then true
      else if keys Key.P then false else v.globals.bOrthographicProjection) = true := by
    rcases hortho with hO | ⟨hflagBefore, hP⟩
    · simp [hO]
    · simp [hP, hflagBefore]
  have hflag' : (ProcessKeyboardEvents ops keys
      { v with
        globals :=
          { v.globals with
            gDeltaTime := currentFrame - v.globals.gLastFrame
            gLastFrame := currentFrame } }).globals.bOrthographicProjection = true := by
    rw [hflag]
    exact hbranch
  have hself' : (ProcessKeyboardEvents ops keys
      { v with
        globals :=
          { v.globals with
            gDeltaTime := currentFrame - v.globals.gLastFrame
            gLastFrame := currentFrame } }).self = v.self := hself
  have hgl' : (ProcessKeyboardEvents ops keys
      { v with
        globals :=
          { v.globals with
            gDeltaTime := currentFrame - v.globals.gLastFrame
            gLastFrame := currentFrame } }).gl = v.gl := hgl
  refine ⟨moved, hmoved, ?_⟩
  simp only [PrepareSceneView, hmoved, hself', hsh, hflag', hgl', if_true,
    ShaderManager.setMat4Value, ShaderManager.setVec3Value, GLContext.push,
    List.append_assoc, List.singleton_append]
  exact ⟨_, rfl, rfl, rfl, rfl, rfl⟩

/-- C21, refuted as stated: from the start state, a frame with O pressed and a frame with
P pressed leave the view in perspective mode with the camera at the forced pose; the
next frame with O pressed and no movement key enters orthographic mode, and the pose
its uploaded view matrix is computed from has the position (0, 10, 10) and the front
vector (0, -1, -1), the same pose as the one reported as viewPosition and stored by the
overwrite. -/
theorem C21_reentering_orthographic_view_matches_reported_pose :
    ∃ v pose v',
      frames GLM.symbolic CameraOps.sample [(pressed [Key.O], 1), (pressed [Key.P], 2)]
        ViewWorld.started = some v ∧
      v.globals.bOrthographicProjection = false ∧
      v.globals.g_pCamera = some pose ∧
      pose.Position = ⟨0.0, 10.0, 10.0⟩ ∧
      pose.Front = ⟨0.0, -1.0, -1.0⟩ ∧
      PrepareSceneView GLM.symbolic CameraOps.sample (pressed [Key.O]) 3 v = some v' ∧
      v'.globals.bOrthographicProjection = true ∧
      v'.gl.uniformValue "view" =
        some (UniformValue.mat4 (CameraOps.sample.GetViewMatrix pose)) ∧
      v'.gl.uniformValue "viewPosition" = some (UniformValue.vec3 pose.Position) ∧
      v'.globals.g_pCamera = some pose :=
  ⟨_, _, _, rfl, rfl, rfl, rfl, rfl, rfl, rfl, rfl, rfl, rfl⟩

/-- C21, amended: in every `PrepareSceneView` call with a camera and a shader manager
that takes the orthographic branch (O pressed, or the flag already set and P not
pressed), the call uploads exactly "view", "projection" and "viewPosition"; the view
matrix is the camera's view matrix of the pose `moved` the camera has after keyboard
processing and before the forced overwrite, the viewPosition is the overwritten
position (0, 10, 10), and the camera afterwards is `moved` with position and front
overwritten. With no movement key pressed `moved` is the pose from before the call. So
the view matrix comes from a pose other than the reported one only when the pose after
keyboard processing is not already at (0, 10, 10). -/
theorem C21_orthographic_view_taken_before_pose_overwrite {M : Type} (glm : GLM M)
    (ops : CameraOps M) (keys : Key → Bool) (currentFrame : ℚ) (v : ViewWorld M)
    (camera : Camera) (sh : ShaderManager) (hcam : v.globals.g_pCamera = some camera)
    (hsh : v.self.m_pShaderManager = some sh)
    (hortho : keys Key.O = true ∨
      (v.globals.bOrthographicProjection = true ∧ keys Key.P = false)) :
    ∃ v' moved,
      (ProcessKeyboardEvents ops keys
        { v with
          globals :=
            { v.globals with
              gDeltaTime := currentFrame - v.globals.gLastFrame
              gLastFrame := currentFrame } }).globals.g_pCamera = some moved ∧
      ((keys Key.W || keys Key.S || keys Key.A || keys Key.D || keys Key.Q || keys Key.E) = true ∨
        moved = camera) ∧
      PrepareSceneView glm ops keys currentFrame v = some v' ∧
      v'.globals.bOrthographicProjection = true ∧
      v'.gl.commands = v.gl.commands ++
        [GLCommand.uniform "view" (UniformValue.mat4 (ops.GetViewMatrix moved)),
         GLCommand.uniform "projection" (UniformValue.mat4
           (glm.ortho (-20.0 * ((WINDOW_WIDTH : ℚ) / (WINDOW_HEIGHT : ℚ)))
             (20.0 * ((WINDOW_WIDTH : ℚ) / (WINDOW_HEIGHT : ℚ))) (-20.0) 20.0 0.1 100.0)),
         GLCommand.uniform "viewPosition" (UniformValue.vec3 ⟨0.0, 10.0, 10.0⟩)] ∧
      v'.gl.uniformValue "view" = some (UniformValue.mat4 (ops.GetViewMatrix moved)) ∧
      v'.gl.uniformValue "viewPosition" = some (UniformValue.vec3 ⟨0.0, 10.0, 10.0⟩) ∧
      v'.globals.g_pCamera =
        some { moved with Position := ⟨0.0, 10.0, 10.0⟩, Front := ⟨0.0, -1.0, -1.0⟩ } := by
  obtain ⟨moved, hmoved, v', hrun, hflag, hpose, _, hcommands⟩ :=
    PrepareSceneView_orthographic_uploads glm ops keys currentFrame v camera sh hcam hsh hortho
  refine ⟨v', moved, hmoved, ?_, hrun, hflag, hcommands, ?_, ?_, hpose⟩
  · cases hW : keys Key.W
    · cases hS : keys Key.S
      · cases hA : keys Key.A
        · cases hD : keys Key.D
          · cases hQ : keys Key.Q
            · cases hE : keys Key.E
              · right
                have hsame := ProcessKeyboardEvents_no_movement ops keys
                  { v with
                    globals :=
                      { v.globals with
                        gDeltaTime := currentFrame - v.globals.gLastFrame
                        gLastFrame := currentFrame } } hW hS hA hD hQ hE
                rw [hmoved] at hsame
                exact Option.some.inj (hsame.trans hcam)
              · left; rfl
            · left; rfl
          · left; rfl
        · left; rfl
      · left; rfl
    · left; rfl
  · show GLContext.uniformIn "view" v'.gl.commands = _
    rw [hcommands]
    apply GLContext.uniformIn_append_of_some
    rfl
  · show GLContext.uniformIn "viewPosition" v'.gl.commands = _
    rw [hcommands]
    apply GLContext.uniformIn_append_of_some
    rfl

/-- C21 amended, evaluated: the first frame from the start state, with O pressed and no
movement key; the view matrix is computed from the start pose, whose position
(0.5, 5.5, 10) is not the reported (0, 10, 10). -/
theorem C21_orthographic_view_taken_before_pose_overwrite_witness :
    ViewWorld.started.globals.g_pCamera =
      some { Position := ⟨0.5, 5.5, 10.0⟩, Front := ⟨0.0, -0.5, -2.0⟩, Up := ⟨0.0, 1.0, 0.0⟩,
             Zoom := 80, MovementSpeed := 10 } ∧
    ViewWorld.started.self.m_pShaderManager = some { m_programID := 1 } ∧
    (pressed [Key.O] Key.O = true ∨
      (ViewWorld.started.globals.bOrthographicProjection = true ∧
        pressed [Key.O] Key.P = false)) ∧
    ∃ v' moved,
      (ProcessKeyboardEvents CameraOps.sample (pressed [Key.O])
        { ViewWorld.started with
          globals :=
            { ViewWorld.started.globals with
              gDeltaTime := 1 - ViewWorld.started.globals.gLastFrame
              gLastFrame := 1 } }).globals.g_pCamera = some moved ∧
      ((pressed [Key.O] Key.W || pressed [Key.O] Key.S || pressed [Key.O] Key.A ||
          pressed [Key.O] Key.D || pressed [Key.O] Key.Q || pressed [Key.O] Key.E) = true ∨
        moved = { Position := ⟨0.5, 5.5, 10.0⟩, Front := ⟨0.0, -0.5, -2.0⟩,
                  Up := ⟨0.0, 1.0, 0.0⟩, Zoom := 80, MovementSpeed := 10 }) ∧
      PrepareSceneView GLM.symbolic CameraOps.sample (pressed [Key.O]) 1 ViewWorld.started =
        some v' ∧
      v'.globals.bOrthographicProjection = true ∧
      v'.gl.commands = ViewWorld.started.gl.commands ++
        [GLCommand.uniform "view" (UniformValue.mat4 (CameraOps.sample.GetViewMatrix moved)),
         GLCommand.uniform "projection" (UniformValue.mat4
           (GLM.symbolic.ortho (-20.0 * ((WINDOW_WIDTH : ℚ) / (WINDOW_HEIGHT : ℚ)))
             (20.0 * ((WINDOW_WIDTH : ℚ) / (WINDOW_HEIGHT : ℚ))) (-20.0) 20.0 0.1 100.0)),
         GLCommand.uniform "viewPosition" (UniformValue.vec3 ⟨0.0, 10.0, 10.0⟩)] ∧
      v'.gl.uniformValue "view" =
        some (UniformValue.mat4 (CameraOps.sample.GetViewMatrix moved)) ∧
      v'.gl.uniformValue "viewPosition" = some (UniformValue.vec3 ⟨0.0, 10.0, 10.0⟩) ∧
      v'.globals.g_pCamera =
        some { moved with Position := ⟨0.0, 10.0, 10.0⟩, Front := ⟨0.0, -1.0, -1.0⟩ } :=
  ⟨rfl, rfl, Or.inl rfl,
    C21_orthographic_view_taken_before_pose_overwrite GLM.symbolic CameraOps.sample
      (pressed [Key.O]) 1 ViewWorld.started _ { m_programID := 1 } rfl rfl (Or.inl rfl)⟩

end CS330
